import Mathlib

/-!
# USBHost_t36 joystick driver (`joystick.cpp`)

A shallow embedding of `JoystickController` from `src/joystick.cpp`.

Conventions of the embedding:

* `uint8_t`, `uint16_t`, `uint32_t` and `uint64_t` values are natural numbers; where the C
  arithmetic can leave the width of the destination the reduction `% 2 ^ w` is written out.
* `int` values (the axis channels, HID values) are integers.
* The fixed-size arrays `axis`, `txbuf_` and `leds_` are functions from the index to the
  element; every capacity check of the source is kept as an explicit comparison.
* Everything the driver hands to a collaborator (pipe allocations and transfers, HID driver
  packets, control packets, L2CAP commands) is appended to the log `out` of the state, in
  order.
* The periodic timer is the state component `JoystickPeriodicTimer`: armed with an interval or
  stopped.
* The answer of a collaborator to the `k`-th logged request is `transport k`.
-/

namespace JoystickController

/-- The controller families `joytype_t`.  The enumeration is declared in `USBHost_t36.h`;
the constructors are the names used by `joystick.cpp`. -/
inductive joytype_t
  | UNKNOWN
  | PS3
  | PS4
  | XBOXONE
  | XBOX360
  | XBOX360_WIRED
  | XBOXDUKE
  | PS3_MOTION
  | SpaceNav
  deriving DecidableEq, Repr

open joytype_t

/-- One row of the table: `product_vendor_mapping_t`. -/
structure product_vendor_mapping_t where
  idVendor : Nat
  idProduct : Nat
  joyType : joytype_t
  hidDevice : Bool
  deriving DecidableEq, Repr

/-- The table `pid_vid_mapping[]` (source lines 40-53). -/
def pid_vid_mapping : List product_vendor_mapping_t :=
  [ ⟨0x054C, 0x0268, PS3, true⟩,
    ⟨0x054C, 0x042F, PS3, true⟩,
    ⟨0x054C, 0x03D5, PS3_MOTION, true⟩,
    ⟨0x054C, 0x05C4, PS4, true⟩,
    ⟨0x054C, 0x09CC, PS4, true⟩,
    ⟨0x046D, 0xC626, SpaceNav, true⟩,
    ⟨0x046D, 0xC628, SpaceNav, true⟩ ]

/-- The loop of `mapVIDPIDtoJoystickType` over the rows that are still to be visited. -/
def mapVIDPIDloop (idVendor idProduct : Nat) (exclude_hid_devices : Bool) :
    List product_vendor_mapping_t → joytype_t
  | [] => UNKNOWN
  | e :: rest =>
    if idVendor = e.idVendor ∧ idProduct = e.idProduct then
      if exclude_hid_devices && e.hidDevice then UNKNOWN else e.joyType
    else mapVIDPIDloop idVendor idProduct exclude_hid_devices rest

/-- The function `mapVIDPIDtoJoystickType` (source lines 69-79). -/
def mapVIDPIDtoJoystickType (idVendor idProduct : Nat) (exclude_hid_devices : Bool) :
    joytype_t :=
  mapVIDPIDloop idVendor idProduct exclude_hid_devices pid_vid_mapping

/-- Modelled from the spec: `STANDARD_AXIS_COUNT` is declared in `USBHost_t36.h`; the standard
axes are the usages 0x30-0x39 of page 1, and extended channels start at index 10. -/
def STANDARD_AXIS_COUNT : Nat := 10

/-- Modelled from the spec: `TOTAL_AXIS_COUNT`, the capacity of `axis[]`, is declared in
`USBHost_t36.h`; the canonical state holds up to 64 channels. -/
def TOTAL_AXIS_COUNT : Nat := 64

/-- The pipes of the class-specific transport. -/
inductive Pipe
  | rxpipe_
  | txpipe_
  deriving DecidableEq, Repr

/-- The L2CAP channel argument of `sendL2CapCommand`: either one of the named constants of
`BluetoothController` or a literal. -/
inductive Channel
  | CONTROL_SCID
  | INTERRUPT_SCID
  | literal (n : Nat)
  deriving DecidableEq, Repr

/-- A request handed to a collaborator, in the order the driver issues them. -/
inductive Request
  /-- `queue_Data_Transfer(txpipe_, buffer, len, this)`: the `len` bytes submitted. -/
  | queue_Data_Transfer (pipe : Pipe) (buffer : List Nat)
  /-- `queue_Data_Transfer(rxpipe_, rxbuf_, rx_size_, this)`: the receive buffer is armed. -/
  | queue_receive (len : Nat)
  /-- `driver_->sendPacket(buffer, len)`. -/
  | sendPacket (buffer : List Nat)
  /-- `driver_->sendControlPacket(bmRequestType, bRequest, wValue, wIndex, wLength, buf)`. -/
  | sendControlPacket (bmRequestType bRequest wValue wIndex wLength : Nat) (buffer : List Nat)
  /-- `btdriver_->sendL2CapCommand(buffer, len, channel)`. -/
  | sendL2CapCommand (buffer : List Nat) (channel : Channel)
  /-- `driver_->setTXBuffers(txbuf_, nullptr, sizeof(txbuf_))`. -/
  | setTXBuffers
  /-- `new_Pipe(dev, type, endpoint, direction, maxlen, interval)`. -/
  | new_Pipe (type endpoint direction maxlen interval : Nat)
  deriving DecidableEq, Repr

/-- The part of `Device_t` the driver looks at; `addr` stands for the identity of the object
(pointer comparison `dev != mydevice`). -/
structure Device_t where
  addr : Nat
  idVendor : Nat
  idProduct : Nat
  deriving DecidableEq, Repr

/-- Declarations of `USBHost_t36.h` that `joystick.cpp` uses and that are not part of the
source file: the chatpad LED indices and command template, the argument triple that the
one-argument overload `setLEDs(uint32_t)` passes to `setLEDs(lr, lg, lb)`, the value
`SP_PS3_IDS` stored in `special_process_required`, and the size of the array `txbuf_`. -/
structure Header where
  CAPSLOCK_LED : Nat
  GREEN_LED : Nat
  ORANGE_LED : Nat
  MESSENGER_LED : Nat
  CHATPAD_LED_MAX : Nat
  xbox360w_chatpad_led_ctrl : List Nat
  setLEDs_args : Nat → Nat × Nat × Nat
  SP_PS3_IDS : Nat
  sizeof_txbuf_ : Nat

/-- Modelled from the spec: `USBDriverTimer` is declared outside `joystick.cpp`.  The timer
service offers `start(intervalMicros)` and `stop()` and is single-instance per connection:
it is either armed with an interval (`some micros`) or not running (`none`). -/
abbrev USBDriverTimer := Option Nat

/-- Modelled from the spec: `USBDriverTimer::start(intervalMicros)` arms the timer. -/
def USBDriverTimer.start (_t : USBDriverTimer) (micros : Nat) : USBDriverTimer := some micros

/-- Modelled from the spec: `USBDriverTimer::stop()` leaves the timer not running. -/
def USBDriverTimer.stop (_t : USBDriverTimer) : USBDriverTimer := none

/-- The member variables of `JoystickController` that the embedded functions read or write,
together with the request log `out` and the collaborator answers `transport`. -/
structure State where
  joystickType_ : joytype_t
  connected_ : Nat
  buttons : Nat
  axis : Nat → Int
  axis_mask_ : Nat
  axis_changed_mask_ : Nat
  axis_change_notify_mask_ : Nat
  anychange : Bool
  joystickEvent : Bool
  additional_axis_usage_page_ : Nat
  additional_axis_usage_start_ : Nat
  additional_axis_usage_count_ : Nat
  rumble_lValue_ : Nat
  rumble_rValue_ : Nat
  rumble_timeout_ : Nat
  leds_ : Nat → Nat
  txbuf_ : Nat → Nat
  driver_ : Bool
  btdriver_ : Bool
  mydevice : Option Device_t
  device : Option Device_t
  btdevice : Bool
  collections_claimed : Nat
  rx_ep_ : Nat
  rx_size_ : Nat
  tx_size_ : Nat
  special_process_required : Nat
  chatpad_led_actual : Nat → Nat
  chatpad_led_wanted : Nat → Nat
  rxpipe_ : Bool
  txpipe_ : Bool
  JoystickPeriodicTimer : USBDriverTimer
  out : List Request
  transport : Nat → Bool

/-- A controller object on which nothing has happened yet: every member zero, nothing
logged, every collaborator request answered with success. -/
def State.fresh : State where
  joystickType_ := UNKNOWN
  connected_ := 0
  buttons := 0
  axis := fun _ => 0
  axis_mask_ := 0
  axis_changed_mask_ := 0
  axis_change_notify_mask_ := 0
  anychange := false
  joystickEvent := false
  additional_axis_usage_page_ := 0
  additional_axis_usage_start_ := 0
  additional_axis_usage_count_ := 0
  rumble_lValue_ := 0
  rumble_rValue_ := 0
  rumble_timeout_ := 0
  leds_ := fun _ => 0
  txbuf_ := fun _ => 0
  driver_ := false
  btdriver_ := false
  mydevice := none
  device := none
  btdevice := false
  collections_claimed := 0
  rx_ep_ := 0
  rx_size_ := 0
  tx_size_ := 0
  special_process_required := 0
  chatpad_led_actual := fun _ => 0
  chatpad_led_wanted := fun _ => 0
  rxpipe_ := false
  txpipe_ := false
  JoystickPeriodicTimer := none
  out := []
  transport := fun _ => true

/-- The first `n` bytes of a buffer, as submitted with a length `n`. -/
def bytes (buf : Nat → Nat) (n : Nat) : List Nat := (List.range n).map buf

/-- The assignment `txbuf_[i] = v`. -/
def poke (i v : Nat) (s : State) : State :=
  { s with txbuf_ := Function.update s.txbuf_ i v }

/-- The call `queue_Data_Transfer(txpipe_, txbuf_, n, this)`; its result is only printed. -/
def queue_txbuf (n : Nat) (s : State) : State :=
  { s with out := s.out ++ [Request.queue_Data_Transfer Pipe.txpipe_ (bytes s.txbuf_ n)] }

/-- The call `queue_Data_Transfer(txpipe_, data, sizeof(data), this)` on a constant. -/
def queue_const (data : List Nat) (s : State) : State :=
  { s with out := s.out ++ [Request.queue_Data_Transfer Pipe.txpipe_ data] }

/-- The answer of the collaborator to the next request. -/
def State.answer (s : State) : Bool := s.transport s.out.length

/-- The function `transmitPS4UserFeedbackMsg` (source lines 267-306). -/
def transmitPS4UserFeedbackMsg (s : State) : State × Bool :=
  if s.driver_ then
    let packet : Nat → Nat := fun _ => 0
    let packet := Function.update packet 0 0x05
    let packet := Function.update packet 1 0xFF
    let packet := Function.update packet 4 s.rumble_lValue_
    let packet := Function.update packet 5 s.rumble_rValue_
    let packet := Function.update packet 6 (s.leds_ 0)
    let packet := Function.update packet 7 (s.leds_ 1)
    let packet := Function.update packet 8 (s.leds_ 2)
    ({ s with out := s.out ++ [Request.sendPacket (bytes packet 32)] }, s.answer)
  else if s.btdriver_ then
    let packet : Nat → Nat := fun _ => 0
    let packet := Function.update packet 0 0x52
    let packet := Function.update packet 1 0x11
    let packet := Function.update packet 2 0x80
    let packet := Function.update packet 4 0xFF
    let packet := Function.update packet 7 s.rumble_lValue_
    let packet := Function.update packet 8 s.rumble_rValue_
    let packet := Function.update packet 9 (s.leds_ 0)
    let packet := Function.update packet 10 (s.leds_ 1)
    let packet := Function.update packet 11 (s.leds_ 2)
    ({ s with out := s.out ++
        [Request.sendL2CapCommand (bytes packet 79) (Channel.literal 0x40)] }, true)
  else (s, false)

/-- The constant `PS3_USER_FEEDBACK_INIT` (source lines 308-318). -/
def PS3_USER_FEEDBACK_INIT : List Nat :=
  [ 0x00, 0x00, 0x00, 0x00, 0x00,
    0x00, 0x00, 0x00, 0x00, 0x00,
    0xff, 0x27, 0x10, 0x00, 0x32,
    0xff, 0x27, 0x10, 0x00, 0x32,
    0xff, 0x27, 0x10, 0x00, 0x32,
    0xff, 0x27, 0x10, 0x00, 0x32,
    0x00, 0x00, 0x00, 0x00, 0x00,
    0x00, 0x00, 0x00, 0x00, 0x00,
    0x00, 0x00, 0x00, 0x00, 0x00,
    0x00, 0x00, 0x00 ]

/-- The call `memcpy(&txbuf_[off], src, n)`. -/
def memcpy_txbuf (off : Nat) (src : List Nat) (n : Nat) (s : State) : State :=
  { s with txbuf_ := fun i => if off ≤ i ∧ i < off + n then src.getD (i - off) 0
                              else s.txbuf_ i }

/-- The function `transmitPS3UserFeedbackMsg` (source lines 320-346). -/
def transmitPS3UserFeedbackMsg (s : State) : State × Bool :=
  if s.driver_ then
    let s := memcpy_txbuf 0 PS3_USER_FEEDBACK_INIT 48 s
    let s := poke 1 (if s.rumble_lValue_ ≠ 0 then s.rumble_timeout_ else 0) s
    let s := poke 2 s.rumble_lValue_ s
    let s := poke 3 (if s.rumble_rValue_ ≠ 0 then s.rumble_timeout_ else 0) s
    let s := poke 4 s.rumble_rValue_ s
    let s := poke 9 ((s.leds_ 2 <<< 1) % 256) s
    ({ s with out := s.out ++
        [Request.sendControlPacket 0x21 9 0x201 0 48 (bytes s.txbuf_ 48)] }, s.answer)
  else if s.btdriver_ then
    let s := poke 0 0x52 s
    let s := poke 1 0x1 s
    let s := memcpy_txbuf 2 PS3_USER_FEEDBACK_INIT 48 s
    let s := poke 3 (if s.rumble_lValue_ ≠ 0 then s.rumble_timeout_ else 0) s
    let s := poke 4 s.rumble_lValue_ s
    let s := poke 5 (if s.rumble_rValue_ ≠ 0 then s.rumble_timeout_ else 0) s
    let s := poke 6 s.rumble_rValue_ s
    let s := poke 11 ((s.leds_ 2 <<< 1) % 256) s
    ({ s with out := s.out ++
        [Request.sendL2CapCommand (bytes s.txbuf_ 50) Channel.CONTROL_SCID] }, true)
  else (s, false)

/-- The constant `MOVE_REPORT_BUFFER_SIZE`. -/
def MOVE_REPORT_BUFFER_SIZE : Nat := 7

/-- The constant `MOVE_HID_BUFFERSIZE`. -/
def MOVE_HID_BUFFERSIZE : Nat := 50

/-- The function `transmitPS3MotionUserFeedbackMsg` (source lines 351-373). -/
def transmitPS3MotionUserFeedbackMsg (s : State) : State × Bool :=
  if s.driver_ then
    let s := poke 0 0x02 s
    let s := poke 2 (s.leds_ 0) s
    let s := poke 3 (s.leds_ 1) s
    let s := poke 4 (s.leds_ 2) s
    let s := poke 6 s.rumble_lValue_ s
    ({ s with out := s.out ++
        [Request.sendPacket (bytes s.txbuf_ MOVE_REPORT_BUFFER_SIZE)] }, s.answer)
  else if s.btdriver_ then
    let s := poke 0 0xA2 s
    let s := poke 1 0x02 s
    let s := poke 3 (s.leds_ 0) s
    let s := poke 4 (s.leds_ 1) s
    let s := poke 5 (s.leds_ 2) s
    let s := poke 7 s.rumble_lValue_ s
    ({ s with out := s.out ++
        [Request.sendL2CapCommand (bytes s.txbuf_ MOVE_HID_BUFFERSIZE)
          Channel.INTERRUPT_SCID] }, true)
  else (s, false)

/-- The function `setRumble` (source lines 123-204). -/
def setRumble (s : State) (lValue rValue timeout : Nat) : State × Bool :=
  let s := { s with rumble_lValue_ := lValue, rumble_rValue_ := rValue,
                    rumble_timeout_ := timeout }
  match s.joystickType_ with
  | PS3 => transmitPS3UserFeedbackMsg s
  | PS3_MOTION => transmitPS3MotionUserFeedbackMsg s
  | PS4 => transmitPS4UserFeedbackMsg s
  | XBOXONE =>
    let s := poke 0 0x9 s
    let s := poke 1 0x0 s
    let s := poke 2 0x0 s
    let s := poke 3 0x09 s
    let s := poke 4 0x00 s
    let s := poke 5 0x0f s
    let s := poke 6 0x0 s
    let s := poke 7 0x0 s
    let s := poke 8 (if lValue > 100 then 100 else lValue) s
    let s := poke 9 (if rValue > 100 then 100 else rValue) s
    let s := poke 10 0xff s
    let s := poke 11 0x00 s
    let s := poke 12 0x00 s
    (queue_txbuf 13 s, true)
  | XBOX360 =>
    let s := poke 0 0x00 s
    let s := poke 1 0x01 s
    let s := poke 2 0x0F s
    let s := poke 3 0xC0 s
    let s := poke 4 0x00 s
    let s := poke 5 lValue s
    let s := poke 6 rValue s
    let s := poke 7 0x00 s
    let s := poke 8 0x00 s
    let s := poke 9 0x00 s
    let s := poke 10 0x00 s
    let s := poke 11 0x00 s
    (queue_txbuf 12 s, true)
  | XBOX360_WIRED =>
    let s := poke 0 0x00 s
    let s := poke 1 0x08 s
    let s := poke 2 0x00 s
    let s := poke 3 lValue s
    let s := poke 4 rValue s
    let s := poke 5 0x00 s
    let s := poke 6 0x00 s
    let s := poke 7 0x00 s
    (queue_txbuf 8 s, true)
  | XBOXDUKE =>
    let s := poke 0 0x00 s
    let s := poke 1 0x06 s
    let s := poke 2 lValue s
    let s := poke 3 lValue s
    let s := poke 4 rValue s
    let s := poke 5 rValue s
    (queue_txbuf 6 s, true)
  | _ => (s, false)

/-- The function `setLEDs(lr, lg, lb)` (source lines 207-258). -/
def setLEDs (s : State) (lr lg lb : Nat) : State × Bool :=
  if s.leds_ 0 ≠ lr ∨ s.leds_ 1 ≠ lg ∨ s.leds_ 2 ≠ lb then
    let leds := Function.update (Function.update (Function.update s.leds_ 0 lr) 1 lg) 2 lb
    let s := { s with leds_ := leds }
    match s.joystickType_ with
    | PS3 => transmitPS3UserFeedbackMsg s
    | PS3_MOTION => transmitPS3MotionUserFeedbackMsg s
    | PS4 => transmitPS4UserFeedbackMsg s
    | XBOX360 =>
      let s := poke 1 0x00 s
      let s := poke 2 0x08 s
      let s := poke 3 ((0x40 + lb) % 256) s
      let s := poke 4 0x00 s
      let s := poke 5 0x00 s
      let s := poke 6 0x00 s
      let s := poke 7 0x00 s
      let s := poke 8 0x00 s
      let s := poke 9 0x00 s
      let s := poke 10 0x00 s
      let s := poke 11 0x00 s
      (queue_txbuf 12 s, true)
    | XBOX360_WIRED =>
      let s := poke 0 0x01 s
      let s := poke 1 0x03 s
      let s := poke 2 lb s
      (queue_txbuf 3 s, true)
    | _ => (s, false)
  else (s, false)

/-- The one-argument call `setLEDs(leds)`, which passes the triple `h.setLEDs_args leds`
on to `setLEDs(lr, lg, lb)`; its result is dropped at every call site. -/
def setLEDs1 (h : Header) (s : State) (leds : Nat) : State :=
  (setLEDs s (h.setLEDs_args leds).1 (h.setLEDs_args leds).2.1 (h.setLEDs_args leds).2.2).1

/-- The result type `hidclaim_t` of a collection claim (the values used by this file). -/
inductive hidclaim_t
  | CLAIM_NO
  | CLAIM_REPORT
  deriving DecidableEq, Repr

/-- The function `claim_collection` (source lines 379-421). -/
def claim_collection (s : State) (dev : Device_t) (topusage : Nat) : State × hidclaim_t :=
  if topusage ≠ 0x10004 ∧ topusage ≠ 0x10005 ∧ topusage ≠ 0x10008 then
    (s, hidclaim_t.CLAIM_NO)
  else if (match s.mydevice with
           | some d => decide (dev.addr ≠ d.addr)
           | none => false) then
    (s, hidclaim_t.CLAIM_NO)
  else if s.device.isSome then
    (s, hidclaim_t.CLAIM_NO)
  else
    let s := { s with mydevice := some dev,
                      collections_claimed := s.collections_claimed + 1,
                      anychange := true,
                      driver_ := true,
                      out := s.out ++ [Request.setTXBuffers],
                      connected_ := 1 }
    let jt := mapVIDPIDtoJoystickType dev.idVendor dev.idProduct false
    let s := { s with joystickType_ := jt }
    match jt with
    | PS3 | PS3_MOTION =>
      ({ s with additional_axis_usage_page_ := 0x1,
                additional_axis_usage_start_ := 0x100,
                additional_axis_usage_count_ := 39,
                axis_change_notify_mask_ := 2 ^ 64 - 1 }, hidclaim_t.CLAIM_REPORT)
    | PS4 =>
      ({ s with additional_axis_usage_page_ := 0xFF00,
                additional_axis_usage_start_ := 0x21,
                additional_axis_usage_count_ := 54,
                axis_change_notify_mask_ := 0xfffffffffffff3ff }, hidclaim_t.CLAIM_REPORT)
    | _ =>
      ({ s with additional_axis_usage_page_ := 0x09,
                additional_axis_usage_start_ := 0x21,
                additional_axis_usage_count_ := 5,
                axis_change_notify_mask_ := 0x3ff }, hidclaim_t.CLAIM_REPORT)

/-- The function `hid_input_begin` (source lines 433-436): an empty body. -/
def hid_input_begin (s : State) (_topusage _type : Nat) (_lgmin _lgmax : Int) : State := s

/-- The function `hid_input_data` (source lines 438-492).  `usage` is a `uint32_t`, `value`
an `int32_t`; `usage_index` is a `uint16_t`. -/
def hid_input_data (s : State) (usage : Nat) (value : Int) : State :=
  let usage_page := usage >>> 16
  let usage := usage &&& 0xFFFF
  if usage_page = 9 ∧ usage ≥ 1 ∧ usage ≤ 32 then
    let bit := (1 <<< (usage - 1)) % 2 ^ 32
    if value = 0 then
      if s.buttons &&& bit ≠ 0 then
        { s with buttons := s.buttons &&& (bit ^^^ 0xFFFFFFFF), anychange := true }
      else s
    else
      if s.buttons &&& bit = 0 then
        { s with buttons := s.buttons ||| bit, anychange := true }
      else s
  else if usage_page = 1 ∧ usage ≥ 0x30 ∧ usage ≤ 0x39 then
    let i := usage - 0x30
    let s := { s with axis_mask_ := s.axis_mask_ ||| (1 <<< i) }
    if s.axis i ≠ value then
      let s := { s with axis := Function.update s.axis i value,
                        axis_changed_mask_ := s.axis_changed_mask_ ||| (1 <<< i) }
      if s.axis_changed_mask_ &&& s.axis_change_notify_mask_ ≠ 0 then
        { s with anychange := true }
      else s
    else s
  else if usage_page = s.additional_axis_usage_page_ then
    if usage ≥ s.additional_axis_usage_start_ ∧
        usage < s.additional_axis_usage_start_ + s.additional_axis_usage_count_ then
      let usage_index := (usage - s.additional_axis_usage_start_ + STANDARD_AXIS_COUNT) % 2 ^ 16
      if usage_index < TOTAL_AXIS_COUNT then
        if s.axis usage_index ≠ value then
          let s := { s with axis := Function.update s.axis usage_index value }
          let usage_index := if usage_index > 63 then 63 else usage_index
          let s := { s with axis_changed_mask_ := s.axis_changed_mask_ ||| (1 <<< usage_index) }
          let s := if s.axis_changed_mask_ &&& s.axis_change_notify_mask_ ≠ 0 then
                     { s with anychange := true }
                   else s
          { s with axis_mask_ := s.axis_mask_ ||| (1 <<< usage_index) }
        else
          { s with axis_mask_ := s.axis_mask_ ||| (1 <<< usage_index) }
      else s
    else s
  else s

/-- The function `hid_input_end` (source lines 494-499). -/
def hid_input_end (s : State) : State :=
  if s.anychange then { s with joystickEvent := true } else s

/-- The function `joystickDataClear` (source lines 507-512). -/
def joystickDataClear (s : State) : State :=
  { s with joystickEvent := false, anychange := false, axis_changed_mask_ := 0,
           axis_mask_ := 0 }

/-- A completed transfer: the memory `buffer` points to and the reported `length`. -/
structure Transfer_t where
  buffer : Nat → Nat
  length : Nat

/-- The byte `buf[i]`. -/
def u8 (buf : Nat → Nat) (i : Nat) : Nat := buf i % 256

/-- The `uint16_t` stored little-endian at offsets `i`, `i + 1`. -/
def u16 (buf : Nat → Nat) (i : Nat) : Nat := u8 buf i + 256 * u8 buf (i + 1)

/-- The `int16_t` stored little-endian (two's complement) at offsets `i`, `i + 1`. -/
def i16 (buf : Nat → Nat) (i : Nat) : Int :=
  if u16 buf i < 32768 then (u16 buf i : Int) else (u16 buf i : Int) - 65536

/-- The statement `if (axis[i] != v) { axis[i] = v; axis_changed_mask_ |= (1 << i); }`, with
`anychange = true;` as a third statement of the block when `flag` is set. -/
def axis_store (flag : Bool) (i : Nat) (v : Int) (s : State) : State :=
  if s.axis i ≠ v then
    { s with axis := Function.update s.axis i v,
             axis_changed_mask_ := s.axis_changed_mask_ ||| (1 <<< i),
             anychange := if flag then true else s.anychange }
  else s

/-- The constant `xbox360w_chatpad_init`. -/
def xbox360w_chatpad_init : List Nat := [0x00, 0x00, 0x0C, 0x1B]

/-- The constant `xbox_axis_order_mapping` (source line 778). -/
def xbox_axis_order_mapping : List Nat := [3, 4, 0, 1, 2, 5]

/-- The XBOXONE branch of `rx_data` (source lines 785-808); `sizeof(xbox1data20_t)` is 18:
`type` at 0, `const_0` at 1, `id` at 2, `buttons` at 4, `axis[6]` from 6. -/
def rx_data_xboxone (s : State) (t : Transfer_t) : State :=
  let s := { s with axis_mask_ := 0x3f, axis_changed_mask_ := 0 }
  if u8 t.buffer 0 = 0x20 ∧ t.length ≥ 18 then
    let s := if u16 t.buffer 4 ≠ s.buttons then
               { s with buttons := u16 t.buffer 4, anychange := true, joystickEvent := true }
             else s
    let s := (List.range xbox_axis_order_mapping.length).foldl
      (fun s i =>
        let axis_value : Int :=
          if i < 2 then (u16 t.buffer (6 + 2 * i) : Int) else i16 t.buffer (6 + 2 * i)
        axis_store true (xbox_axis_order_mapping.getD i 0) axis_value s) s
    { s with joystickEvent := true }
  else s

/-- The controller-data block shared in shape by the XBOX360 branches of `rx_data` (source
lines 851-878 and 938-965): `buttons` at offset `ob`, `lt` and `rt` at `ol`, `ol + 1`, the four
`int16_t` axes from `oa`. -/
def rx_data_xbox360_block (ob ol oa : Nat) (s : State) (t : Transfer_t) : State :=
  let s := if s.buttons ≠ u16 t.buffer ob then
             { s with buttons := u16 t.buffer ob, anychange := true }
           else s
  let s := { s with axis_mask_ := 0x3f, axis_changed_mask_ := 0 }
  let s := (List.range 4).foldl (fun s i => axis_store true i (i16 t.buffer (oa + 2 * i)) s) s
  let s := axis_store true 4 (u8 t.buffer ol) s
  let s := axis_store true 5 (u8 t.buffer (ol + 1)) s
  if s.anychange then { s with joystickEvent := true } else s

/-- The body of the loop over the chatpad LEDs (source lines 907-913): when LED `i` is not in
the wanted state, a copy of `xbox360w_chatpad_led_ctrl` with byte 3 set is queued. -/
def rx_data_chatpad_led_step (h : Header) (s : State) (i : Nat) : State :=
  if s.chatpad_led_actual i ≠ s.chatpad_led_wanted i then
    let command := h.xbox360w_chatpad_led_ctrl.set 3
      ((i ||| ((if s.chatpad_led_wanted i > 0 then 1 else 0) <<< 3)) % 256)
    queue_const command s
  else s

/-- The chatpad LED status block of the XBOX360 branch of `rx_data` (source lines 893-916). -/
def rx_data_chatpad_leds (h : Header) (s : State) (t : Transfer_t) : State :=
  let leds := u8 t.buffer 26
  if leds &&& 0x80 ≠ 0 then
    let a := s.chatpad_led_actual
    let a := Function.update a h.CAPSLOCK_LED (if leds &&& 0x20 > 0 then 1 else 0)
    let a := Function.update a h.GREEN_LED (if leds &&& 0x08 > 0 then 1 else 0)
    let a := Function.update a h.ORANGE_LED (if leds &&& 0x10 > 0 then 1 else 0)
    let a := Function.update a h.MESSENGER_LED (if leds &&& 0x01 > 0 then 1 else 0)
    let s := { s with chatpad_led_actual := a }
    (List.range h.CHATPAD_LED_MAX).foldl (rx_data_chatpad_led_step h) s
  else s

/-- The XBOX360 (wireless) branch of `rx_data` (source lines 810-920); `xbox360data_t` has
`state` at 0, `id_or_type` at 1, `buttons` at 6, `lt` at 8, `rt` at 9, `axis[4]` from 10. -/
def rx_data_xbox360 (h : Header) (s : State) (t : Transfer_t) : State :=
  let raw_buffer := u8 t.buffer
  if raw_buffer 0 = 0x08 ∧ raw_buffer 3 = 0xF0 then
    if raw_buffer 1 ≠ s.connected_ then
      let s := { s with connected_ := raw_buffer 1 }
      if s.connected_ ≠ 0 then
        let s := setLEDs1 h s 0
        setLEDs1 h s (2 + (s.rx_ep_ &&& 15) / 2)
      else
        setLEDs1 h s 0
    else s
  else if raw_buffer 1 = 0x00 ∧ raw_buffer 3 &&& 0x13 ≠ 0 ∧ raw_buffer 4 ≥ 0x22 then s
  else if raw_buffer 1 = 0x00 ∧ raw_buffer 3 = 0xF0 then s
  else if raw_buffer 1 = 0x0F ∧ raw_buffer 3 = 0xF0 then s
  else if raw_buffer 1 = 0xF8 then queue_const xbox360w_chatpad_init s
  else if raw_buffer 1 &&& 3 ≠ 0 then
    let s := if raw_buffer 1 &&& 1 ≠ 0 ∧ raw_buffer 5 = 0x13 then
               rx_data_xbox360_block 6 8 10 s t
             else s
    -- `raw_buffer[1] & CHATPAD_DATA && raw_buffer[24] == 0x00` only prints
    let s := if raw_buffer 1 &&& 2 ≠ 0 ∧ raw_buffer 24 = 0xF0 ∧ raw_buffer 25 = 0x03 then
               queue_const xbox360w_chatpad_init s
             else s
    if raw_buffer 1 &&& 2 ≠ 0 ∧ raw_buffer 24 = 0xF0 ∧ raw_buffer 25 = 0x04 then
      rx_data_chatpad_leds h s t
    else s
  else s

/-- The XBOX360_WIRED branch of `rx_data` (source lines 922-966); `xbox360wireddata_t` has
`buttons` at 2, `lt` at 4, `rt` at 5, `axis[4]` from 6. -/
def rx_data_xbox360_wired (h : Header) (s : State) (t : Transfer_t) : State :=
  let rx_buf := u8 t.buffer
  if rx_buf 0 = 0x03 ∧ rx_buf 1 = 0x03 then
    (setRumble s 0 0 0).1
  else if rx_buf 0 = 0x01 ∧ rx_buf 1 = 0x03 then
    if rx_buf 2 = 0x0E then
      let s := setLEDs1 h s 0
      setLEDs1 h s 2
    else s
  else if rx_buf 0 = 0x00 ∧ rx_buf 1 = 0x14 then
    rx_data_xbox360_block 2 4 6 s t
  else s

/-- The XBOXDUKE branch of `rx_data` (source lines 967-1004); `xboxdukedata_t` has `dbuttons`
at 2, the eight analog bytes at 4-11, `axis[4]` from 12. -/
def rx_data_xboxduke (s : State) (t : Transfer_t) : State :=
  let rx_buf := u8 t.buffer
  if rx_buf 0 = 0x00 ∧ rx_buf 1 = 0x14 then
    let s := if s.buttons ≠ rx_buf 2 then
               { s with buttons := rx_buf 2, anychange := true }
             else s
    let s := { s with axis_mask_ := 0x3f, axis_changed_mask_ := 0 }
    let s := (List.range 8).foldl (fun s i => axis_store false i (rx_buf (i + 4)) s) s
    let s := (List.range' 8 4).foldl
      (fun s i => axis_store false i (i16 t.buffer (12 + 2 * (i - 8))) s) s
    let s := if s.axis_changed_mask_ ≠ 0 then { s with anychange := true } else s
    if s.anychange then { s with joystickEvent := true } else s
  else s

/-- The function `rx_data` (source lines 780-1007): the branch of the family, then the
receive buffer is queued again. -/
def rx_data (h : Header) (s : State) (t : Transfer_t) : State :=
  let s :=
    if s.joystickType_ = XBOXONE then rx_data_xboxone s t
    else if s.joystickType_ = XBOX360 then rx_data_xbox360 h s t
    else if s.joystickType_ = XBOX360_WIRED then rx_data_xbox360_wired h s t
    else if s.joystickType_ = XBOXDUKE then rx_data_xboxduke s t
    else s
  { s with out := s.out ++ [Request.queue_receive s.rx_size_] }

/-- The buffers the XBOXONE branch of `rx_data` decodes as controller input: type byte 0x20
and a transfer of at least `sizeof(xbox1data20_t)` bytes (source line 790). -/
def xboxone_input_report (t : Transfer_t) : Prop :=
  u8 t.buffer 0 = 0x20 ∧ t.length ≥ 18

/-- The buffers the XBOX360 (wireless) branch of `rx_data` decodes as controller input: none
of the five earlier tests of the `if`/`else if` chain holds (source lines 815-840), the
report carries chatpad or controller data (line 847), and it is controller data with
`raw_buffer[5] == 0x13` (line 849). -/
def xbox360_input_report (t : Transfer_t) : Prop :=
  ¬ (u8 t.buffer 0 = 0x08 ∧ u8 t.buffer 3 = 0xF0) ∧
  ¬ (u8 t.buffer 1 = 0x00 ∧ u8 t.buffer 3 &&& 0x13 ≠ 0 ∧ u8 t.buffer 4 ≥ 0x22) ∧
  ¬ (u8 t.buffer 1 = 0x00 ∧ u8 t.buffer 3 = 0xF0) ∧
  ¬ (u8 t.buffer 1 = 0x0F ∧ u8 t.buffer 3 = 0xF0) ∧
  ¬ (u8 t.buffer 1 = 0xF8) ∧
  u8 t.buffer 1 &&& 3 ≠ 0 ∧
  (u8 t.buffer 1 &&& 1 ≠ 0 ∧ u8 t.buffer 5 = 0x13)

/-- The buffers the XBOX360_WIRED branch of `rx_data` decodes as controller input: neither a
rumble status nor an LED status, and bytes 0, 1 equal to `00 14` (source lines 925-936). -/
def xbox360_wired_input_report (t : Transfer_t) : Prop :=
  ¬ (u8 t.buffer 0 = 0x03 ∧ u8 t.buffer 1 = 0x03) ∧
  ¬ (u8 t.buffer 0 = 0x01 ∧ u8 t.buffer 1 = 0x03) ∧
  (u8 t.buffer 0 = 0x00 ∧ u8 t.buffer 1 = 0x14)

/-- The buffers the XBOXDUKE branch of `rx_data` decodes as controller input: bytes 0, 1 equal
to `00 14` (source line 970). -/
def xboxduke_input_report (t : Transfer_t) : Prop :=
  u8 t.buffer 0 = 0x00 ∧ u8 t.buffer 1 = 0x14

/-- The function `disconnect` (source lines 1013-1019). -/
def disconnect (s : State) : State :=
  { s with axis_mask_ := 0, axis_changed_mask_ := 0,
           JoystickPeriodicTimer := USBDriverTimer.stop s.JoystickPeriodicTimer }

/-- The constant `xboxone_start_input`. -/
def xboxone_start_input : List Nat := [0x05, 0x20, 0x00, 0x01, 0x00]

/-- The constant `xboxone_s_init`. -/
def xboxone_s_init : List Nat := [0x05, 0x20, 0x00, 0x0f, 0x06]

/-- The constant `xboxone_pdp_init1`. -/
def xboxone_pdp_init1 : List Nat := [0x0a, 0x20, 0x00, 0x03, 0x00, 0x01, 0x14]

/-- The constant `xboxone_pdp_init2`. -/
def xboxone_pdp_init2 : List Nat := [0x06, 0x30]

/-- The constant `xboxone_pdp_init3`. -/
def xboxone_pdp_init3 : List Nat := [0x06, 0x20, 0x00, 0x02, 0x01, 0x00]

/-- The constant `xbox360w_inquire_present`. -/
def xbox360w_inquire_present : List Nat :=
  [0x08, 0x00, 0x0F, 0xC0, 0x00, 0x00, 0x00, 0x00, 0x00, 0x00, 0x00, 0x00]

/-- The family selection of `claim` (source lines 546-573): the table lookup with
`exclude_hid_devices = true`, then the four descriptor tests in source order, each one
overwriting `jtype` when it holds. -/
def claim_jtype (dev : Device_t) (descriptors : Nat → Nat) : joytype_t :=
  let jtype := mapVIDPIDtoJoystickType dev.idVendor dev.idProduct true
  let jtype := if u8 descriptors 6 = 0x5D ∧ u8 descriptors 7 = 0x01 then XBOX360_WIRED
               else jtype
  let jtype := if u8 descriptors 6 = 0x5D ∧ u8 descriptors 7 = 0x81 then XBOX360
               else jtype
  let jtype := if u8 descriptors 6 = 0x47 ∧ u8 descriptors 7 = 0xD0 ∧
                  u8 descriptors 15 = 0x04 ∧ u8 descriptors 22 = 0x04 then XBOXONE
               else jtype
  let jtype := if u8 descriptors 5 = 0x58 ∧ u8 descriptors 6 = 0x42 then XBOXDUKE
               else jtype
  jtype

/-- The family selection as the specification words it: the first descriptor test that
holds, in the priority order XBOX360_WIRED, XBOX360 (wireless), XBOXONE, XBOXDUKE, and the
result of the table lookup when none holds. -/
def claim_jtype_first_match (dev : Device_t) (descriptors : Nat → Nat) : joytype_t :=
  if u8 descriptors 6 = 0x5D ∧ u8 descriptors 7 = 0x01 then XBOX360_WIRED
  else if u8 descriptors 6 = 0x5D ∧ u8 descriptors 7 = 0x81 then XBOX360
  else if u8 descriptors 6 = 0x47 ∧ u8 descriptors 7 = 0xD0 ∧
      u8 descriptors 15 = 0x04 ∧ u8 descriptors 22 = 0x04 then XBOXONE
  else if u8 descriptors 5 = 0x58 ∧ u8 descriptors 6 = 0x42 then XBOXDUKE
  else mapVIDPIDtoJoystickType dev.idVendor dev.idProduct true

/-- The local variables of the endpoint walk of `claim`, together with the members `rx_ep_`,
`rx_size_` and `tx_size_` it assigns. -/
structure EndpointScan where
  descriptor_index : Nat
  rx_ep_ : Nat
  txep : Nat
  rx_size_ : Nat
  tx_size_ : Nat
  rx_interval : Nat
  tx_interval : Nat
  deriving DecidableEq, Repr

/-- The loop `while (count_end_points-- && ((rx_ep_ == 0) || txep == 0))` of `claim` (source
lines 593-614), by recursion on `count_end_points`.  The result is `false` when the body
executes `return false`. -/
def claim_endpoints (descriptors : Nat → Nat) (jtype : joytype_t) :
    Nat → EndpointScan → Bool × EndpointScan
  | 0, e => (true, e)
  | count_end_points + 1, e =>
    if e.rx_ep_ = 0 ∨ e.txep = 0 then
      if u8 descriptors e.descriptor_index ≠ 7 then (false, e)
      else if u8 descriptors (e.descriptor_index + 1) ≠ 5 then (false, e)
      else
        let e :=
          if u8 descriptors (e.descriptor_index + 3) = 3 ∧
              u8 descriptors (e.descriptor_index + 4) ≤ 64 ∧
              u8 descriptors (e.descriptor_index + 5) = 0 then
            if u8 descriptors (e.descriptor_index + 2) &&& 0x80 ≠ 0 then
              { e with rx_ep_ := u8 descriptors (e.descriptor_index + 2),
                       rx_size_ := u8 descriptors (e.descriptor_index + 4),
                       rx_interval :=
                         if jtype = XBOX360 then
                           (u8 descriptors (e.descriptor_index + 6) * 8) % 256
                         else u8 descriptors (e.descriptor_index + 6) }
            else
              { e with txep := u8 descriptors (e.descriptor_index + 2),
                       tx_size_ := u8 descriptors (e.descriptor_index + 4),
                       tx_interval := u8 descriptors (e.descriptor_index + 6) }
          else e
        claim_endpoints descriptors jtype count_end_points
          { e with descriptor_index := e.descriptor_index + 7 }
    else (true, e)

/-- The call `new_Pipe(dev, type, endpoint, direction, maxlen, interval)`: the request is
logged and the collaborator answers whether a pipe was allocated. -/
def new_Pipe (type endpoint direction maxlen interval : Nat) (s : State) : State × Bool :=
  ({ s with out := s.out ++ [Request.new_Pipe type endpoint direction maxlen interval] },
   s.answer)

/-- The family-specific part of a successful `claim` (source lines 633-659). -/
def claim_init (h : Header) (s : State) (dev : Device_t) (jtype : joytype_t) : State :=
  if jtype = XBOXONE then
    let s := queue_const xboxone_start_input s
    let s := if dev.idVendor = 0x045e ∧ (dev.idProduct = 0x02ea ∨ dev.idProduct = 0x0b00) then
               queue_const xboxone_s_init s
             else s
    let s := if dev.idVendor = 0x0e6f then
               queue_const xboxone_pdp_init3
                 (queue_const xboxone_pdp_init2 (queue_const xboxone_pdp_init1 s))
             else s
    { s with connected_ := 1 }
  else if jtype = XBOX360 then
    let s := queue_const xbox360w_inquire_present s
    { s with connected_ := 0 }
  else if jtype = XBOX360_WIRED then
    let s := { s with connected_ := 1 }
    let s := setLEDs1 h s 0
    setLEDs1 h s 2
  else if jtype = XBOXDUKE then
    { s with connected_ := 1 }
  else s

/-- The end of a successful `claim` (source lines 628-664): the receive buffer is queued, the
family stored, the family-specific packets sent, `axis` cleared and the timer started. -/
def claim_finish (h : Header) (s : State) (dev : Device_t) (jtype : joytype_t) : State :=
  let s := { s with out := s.out ++ [Request.queue_receive s.rx_size_] }
  let s := { s with joystickType_ := jtype }
  let s := claim_init h s dev jtype
  let s := { s with axis := fun _ => 0 }
  { s with JoystickPeriodicTimer := USBDriverTimer.start s.JoystickPeriodicTimer 2000000 }

/-- The part of `claim` after the endpoint walk (source lines 615-627 and on): both endpoints
must have been found and both pipes allocated. -/
def claim_pipes (h : Header) (s : State) (dev : Device_t) (jtype : joytype_t)
    (e : EndpointScan) : State × Bool :=
  if e.rx_ep_ = 0 ∨ e.txep = 0 then (s, false)
  else
    let r := new_Pipe 3 (e.rx_ep_ &&& 15) 1 e.rx_size_ e.rx_interval s
    let s := { r.1 with rxpipe_ := r.2 }
    if r.2 = false then (s, false)
    else
      let r := new_Pipe 3 e.txep 0 e.tx_size_ e.tx_interval s
      let s := { r.1 with txpipe_ := r.2 }
      if r.2 = false then (s, false)
      else (claim_finish h s dev jtype, true)

/-- The function `claim` (source lines 533-665).  `descriptors` is the memory the pointer
refers to, `len` the length handed over with it; `type` is an `int`. -/
def claim (h : Header) (s : State) (dev : Device_t) (type : Int) (descriptors : Nat → Nat)
    (len : Nat) : State × Bool :=
  if s.mydevice.isSome then (s, false)
  else if s.device.isSome then (s, false)
  else if type ≠ 1 then (s, false)
  else if len < 9 + 7 + 7 then (s, false)
  else
    let count_end_points := u8 descriptors 4
    if count_end_points < 2 then (s, false)
    else
      let jtype := claim_jtype dev descriptors
      if jtype = UNKNOWN then (s, false)
      else
        let s := { s with rx_ep_ := 0, rx_size_ := 0, tx_size_ := 0 }
        let descriptor_index :=
          if u8 descriptors (9 + 1) ≠ 0x05 then 9 + u8 descriptors 9 else 9
        let scan := claim_endpoints descriptors jtype count_end_points
          ⟨descriptor_index, 0, 0, 0, 0, 0, 0⟩
        let e := scan.2
        let s := { s with rx_ep_ := e.rx_ep_, rx_size_ := e.rx_size_, tx_size_ := e.tx_size_ }
        if scan.1 = false then (s, false)
        else claim_pipes h s dev jtype e

/-- The loop `for (i = ...; i < ...; i++) { axis_mask_ |= mask; if (src[i] != axis[i - shift])
{ axis_changed_mask_ |= mask; axis[i - shift] = src[i]; } mask <<= 1; }` of
`process_bluetooth_HID_data`, by recursion on the number `n` of iterations left; `mask` is a
`uint64_t`. -/
def bt_axis_loop (src : Nat → Nat) (shift : Nat) : Nat → Nat → Nat → State → State
  | 0, _, _, s => s
  | n + 1, i, mask, s =>
    let s := { s with axis_mask_ := s.axis_mask_ ||| mask }
    let s := if (u8 src i : Int) ≠ s.axis (i - shift) then
               { s with axis_changed_mask_ := s.axis_changed_mask_ ||| mask,
                        axis := Function.update s.axis (i - shift) (u8 src i : Int) }
             else s
    bt_axis_loop src shift n (i + 1) ((mask <<< 1) % 2 ^ 64) s

/-- The statements shared by the PS3 layout of report 0x01 and the repacked report 0x11
(source lines 1066-1088 and 1201-1223): channels 0-2 from `src[o012 ..]`, channel 5 from
`src[o5]`, channels 3 and 4 from `src[o3]`, `src[o4]`; `axis_mask_` becomes 0x27. -/
def bt_sticks (src : Nat → Nat) (o012 o5 o3 o4 : Nat) (s : State) : State :=
  let s := { s with axis_mask_ := 0x27 }
  let s := (List.range 3).foldl (fun s i => axis_store false i (u8 src (i + o012)) s) s
  let s := axis_store false 5 (u8 src o5) s
  let s := axis_store false 3 (u8 src o3) s
  axis_store false 4 (u8 src o4) s

/-- The statement `if (cur_buttons != buttons) { buttons = cur_buttons; joystickEvent = true; }`
of `process_bluetooth_HID_data`. -/
def bt_buttons (cur_buttons : Nat) (s : State) : State :=
  if cur_buttons ≠ s.buttons then { s with buttons := cur_buttons, joystickEvent := true }
  else s

/-- The per-family decode of a report with id 0x01 in `process_bluetooth_HID_data` (source
lines 1058-1146); `length` is already limited to `TOTAL_AXIS_COUNT`. -/
def bt_report01 (s : State) (data : Nat → Nat) (length : Nat) : State :=
  if s.joystickType_ = PS3 then
    let cur_buttons := u8 data 2 ||| (u8 data 3 <<< 8) ||| (u8 data 4 <<< 16)
    let s := bt_buttons cur_buttons s
    let s := bt_sticks data 6 9 18 19 s
    bt_axis_loop data 0 (length - 10) 10 (0x1 <<< 10) s
  else if s.joystickType_ = PS3_MOTION then
    let cur_buttons := u8 data 1 ||| (u8 data 2 <<< 8) ||| (u8 data 3 <<< 16)
    let s := bt_buttons cur_buttons s
    let s := { s with axis_mask_ := 0 }
    bt_axis_loop data 5 (length - 5) 5 (0x1 <<< 10) s
  else
    let s := { s with axis_mask_ := 0 }
    bt_axis_loop data 0 length 0 0x1 s

/-- The decode of a report with id 0x11 in `process_bluetooth_HID_data` (source lines
1155-1239).  `stack` is what the bytes of the local array `tmp_data` hold where the copy loop
does not write them. -/
def bt_report11 (stack : Nat → Nat) (s : State) (data : Nat → Nat) (length : Nat) : State :=
  let s := { s with axis_mask_ := 0, axis_changed_mask_ := 0 }
  let tmp_data : Nat → Nat := fun i => if i + 2 < length then u8 data (i + 2) else stack i
  let tmp_data := Function.update tmp_data 7 ((u8 tmp_data 7 >>> 0) &&& 1)
  let tmp_data := Function.update tmp_data 10 (u8 tmp_data 5 &&& ((1 <<< 4) - 1))
  let tmp_data := Function.update tmp_data 5 (u8 tmp_data 5 >>> 4)
  let cur_buttons := (u8 tmp_data 7 ||| u8 tmp_data 10 ||| (u8 tmp_data 6 * 10) |||
    (u8 tmp_data 5 <<< 16)) % 2 ^ 32
  let s := bt_buttons cur_buttons s
  let s := bt_sticks tmp_data 1 4 8 9 s
  let s := bt_axis_loop tmp_data 0 (64 - 6) 6 0x1 s
  { s with joystickEvent := true, connected_ := 1 }

/-- The function `process_bluetooth_HID_data` (source lines 1044-1242).  `data` is the memory
the pointer refers to and `length` the `uint16_t` length; `stack` is passed on to the decode
of report 0x11. -/
def process_bluetooth_HID_data (stack : Nat → Nat) (s : State) (data : Nat → Nat)
    (length : Nat) : State × Bool :=
  if u8 data 0 = 1 then
    let length := if length > TOTAL_AXIS_COUNT then TOTAL_AXIS_COUNT else length
    let s := bt_report01 s data length
    let s := if s.axis_changed_mask_ &&& s.axis_change_notify_mask_ ≠ 0 then
               { s with joystickEvent := true }
             else s
    ({ s with connected_ := 1 }, true)
  else if u8 data 0 = 0x11 then (bt_report11 stack s data length, false)
  else (s, false)

/-- Feeding a list of usages, each with value 0, to `hid_input_data`, one call per usage. -/
def hid_input_zeros (s : State) (usages : List Nat) : State :=
  usages.foldl (fun s usage => hid_input_data s usage 0) s

/-- One admissible choice of the header declarations, for evaluating the model on concrete
inputs: LED indices 0..3, a four-byte LED command, and a one-argument `setLEDs` that splits
its argument into three bytes. -/
def Header.sample : Header where
  CAPSLOCK_LED := 0
  GREEN_LED := 1
  ORANGE_LED := 2
  MESSENGER_LED := 3
  CHATPAD_LED_MAX := 4
  xbox360w_chatpad_led_ctrl := [0x00, 0x00, 0x0C, 0x00]
  setLEDs_args := fun leds => ((leds >>> 16) &&& 0xff, (leds >>> 8) &&& 0xff, leds &&& 0xff)
  SP_PS3_IDS := 4
  sizeof_txbuf_ := 64

/-- The memory of a receive buffer holding the given bytes, zero beyond them. -/
def buffer_of (l : List Nat) : Nat → Nat := fun i => l.getD i 0

/-- The C library function `strncmp(a, b, n)` on NUL-terminated strings.  A list stands for
its bytes followed by the terminating NUL; the bytes are compared as `unsigned char`, and the
result is the difference of the first pair that differs among the first `n`, or 0 when the
strings agree up to `n` bytes or up to their common end. -/
def strncmp : List Nat → List Nat → Nat → Int
  | _, _, 0 => 0
  | a, b, n + 1 =>
    if a.headD 0 ≠ b.headD 0 then (a.headD 0 : Int) - (b.headD 0 : Int)
    else if a.headD 0 = 0 then 0
    else strncmp a.tail b.tail n

/-- The bytes of a string literal of the source, without the terminating NUL. -/
def c_str (text : String) : List Nat := text.toList.map Char.toNat

/-- The function `mapNameToJoystickType` (source lines 1244-1267); `remoteName` holds the
bytes the pointer refers to, up to the terminating NUL. -/
def mapNameToJoystickType (s : State) (remoteName : List Nat) : State × Bool :=
  let s :=
    if strncmp remoteName (c_str "Wireless Controller") 19 = 0 then
      { s with joystickType_ := PS4 }
    else if strncmp remoteName (c_str "PLAYSTATION(R)3") 15 = 0 then
      { s with joystickType_ := PS3 }
    else if strncmp remoteName (c_str "Navigation Controller") 21 = 0 then
      { s with joystickType_ := PS3 }
    else if strncmp remoteName (c_str "Motion Controller") 17 = 0 then
      { s with joystickType_ := PS3_MOTION }
    else if strncmp remoteName (c_str "Xbox Wireless") 13 = 0 then
      { s with joystickType_ := XBOXONE }
    else s
  (s, true)

/-- The rules of `mapNameToJoystickType`, in the order of its `if` chain (source lines
1247-1261): the prefix compared and the family assigned. -/
def name_rules : List (List Nat × joytype_t) :=
  [ (c_str "Wireless Controller", PS4),
    (c_str "PLAYSTATION(R)3", PS3),
    (c_str "Navigation Controller", PS3),
    (c_str "Motion Controller", PS3_MOTION),
    (c_str "Xbox Wireless", XBOXONE) ]

/-- From the words of the specification: the family given by a list of prefix rules to a
remote name, namely the family of the first rule whose prefix the name begins with, if there is
one. -/
def family_of_name (rules : List (List Nat × joytype_t)) (name : List Nat) :
    Option joytype_t :=
  (rules.find? (fun r => r.1.isPrefixOf name)).map (fun r => r.2)

/-- The function `claim_bluetooth` (source lines 1021-1041).  `bluetooth_class` is a
`uint32_t`; `remoteName` is `none` for a null pointer; `driver` is the Bluetooth controller
making the call. -/
def claim_bluetooth (h : Header) (s : State) (bluetooth_class : Nat)
    (remoteName : Option (List Nat)) : State × Bool :=
  if (bluetooth_class &&& 0xff00 = 0x2500 ∨ bluetooth_class &&& 0xff00 = 0x500) ∧
      bluetooth_class &&& 0x3C = 0x08 then
    let s := { s with btdriver_ := true, btdevice := true }
    match remoteName with
    | some name => ((mapNameToJoystickType s name).1, true)
    | none => (s, true)
  else
    match remoteName with
    | none => (s, false)
    | some name =>
      let r := mapNameToJoystickType s name
      if r.2 then
        if r.1.joystickType_ = PS3 ∨ r.1.joystickType_ = PS3_MOTION then
          ({ r.1 with btdriver_ := true, btdevice := true,
                      special_process_required := h.SP_PS3_IDS }, true)
        else (r.1, false)
      else (r.1, false)

/-- The function `release_bluetooth` (source lines 1321-1328). -/
def release_bluetooth (s : State) : State :=
  { s with btdevice := false, btdriver_ := false, connected_ := 0,
           special_process_required := 0 }

/-- The constant `xbox360w_connection_refresh` (source line 527). -/
def xbox360w_connection_refresh : List Nat := [0x08, 0x00, 0x00, 0x00]

/-- The constant `xbox360w_controller_info` (source line 528). -/
def xbox360w_controller_info : List Nat := [0x00, 0x00, 0x00, 0x40]

/-- The constant `xbox360w_chatpad_keepalive1` (source line 530). -/
def xbox360w_chatpad_keepalive1 : List Nat := [0x00, 0x00, 0x0C, 0x1F]

/-- The constant `xbox360w_chatpad_keepalive2` (source line 531). -/
def xbox360w_chatpad_keepalive2 : List Nat := [0x00, 0x00, 0x0C, 0x1E]

/-- The initial value of the variable `static int toggle = 1` declared inside `timer_event`
(source line 675). -/
def timer_event_toggle_init : Nat := 1

/-- The function `timer_event` (source lines 667-683).  The local variable `toggle` has
static storage, so the program holds one copy of it, whichever controller object runs the
function: its value is passed in and the new value is returned next to the state of the
object.  `whichTimer_is_periodic` is the outcome of `whichTimer == &JoystickPeriodicTimer`. -/
def timer_event (toggle : Nat) (s : State) (whichTimer_is_periodic : Bool) : Nat × State :=
  if whichTimer_is_periodic then
    if s.joystickType_ = XBOX360 then
      let s := queue_const xbox360w_connection_refresh s
      let s := queue_const xbox360w_controller_info s
      let toggle := toggle ^^^ 1
      let s := if toggle ≠ 0 then queue_const xbox360w_chatpad_keepalive1 s
               else queue_const xbox360w_chatpad_keepalive2 s
      (toggle, { s with JoystickPeriodicTimer := s.JoystickPeriodicTimer.start 2000000 })
    else
      (toggle, { s with JoystickPeriodicTimer := s.JoystickPeriodicTimer.start 2000000 })
  else (toggle, s)

/-- The indices at which the loop `bt_axis_loop` reads its source array: `n` iterations
starting at index `i`. -/
def bt_axis_loop_reads (n i : Nat) : List Nat := List.range' i n

/-- The indices at which the statements of `bt_sticks` read their source array, in program
order. -/
def bt_sticks_reads (o012 o5 o3 o4 : Nat) : List Nat :=
  (List.range 3).map (fun i => i + o012) ++ [o5, o3, o4]

/-- The indices at which `process_bluetooth_HID_data` (source lines 1044-1242) reads the
block `data`, in program order, an index compared and then copied by one statement being
listed once.  The debug prints are compiled out and read nothing. -/
def process_bluetooth_HID_data_reads (s : State) (data : Nat → Nat) (length : Nat) :
    List Nat :=
  if u8 data 0 = 1 then
    let length := if length > TOTAL_AXIS_COUNT then TOTAL_AXIS_COUNT else length
    [0] ++
    (if s.joystickType_ = PS3 then
      [2, 3, 4] ++ bt_sticks_reads 6 9 18 19 ++ bt_axis_loop_reads (length - 10) 10
    else if s.joystickType_ = PS3_MOTION then
      [1, 2, 3] ++ bt_axis_loop_reads (length - 5) 5
    else bt_axis_loop_reads length 0)
  else if u8 data 0 = 0x11 then
    [0, 0] ++ (List.range (length - 2)).map (fun i => i + 2)
  else [0, 0]

/-- The indices at which the decode of report 0x11 (source lines 1155-1239) reads the local
array `tmp_data`, which has `length - 2` elements, after the copy loop has filled it. -/
def bt_report11_tmp_reads : List Nat :=
  [7, 5, 5] ++ [7, 10, 6, 5] ++ bt_sticks_reads 1 4 8 9 ++ bt_axis_loop_reads (64 - 6) 6

/-- The states of a controller driven in HID-collection mode: those that come out of a
successful `claim_collection` and of any sequence of `hid_input_begin`, `hid_input_data`,
`hid_input_end` and `joystickDataClear` after it. -/
inductive HidReachable : State → Prop
  | claim (s : State) (dev : Device_t) (topusage : Nat) :
      (claim_collection s dev topusage).2 = hidclaim_t.CLAIM_REPORT →
      HidReachable (claim_collection s dev topusage).1
  | begin (s : State) (topusage type : Nat) (lgmin lgmax : Int) :
      HidReachable s → HidReachable (hid_input_begin s topusage type lgmin lgmax)
  | data (s : State) (usage : Nat) (value : Int) :
      HidReachable s → HidReachable (hid_input_data s usage value)
  | finish (s : State) : HidReachable s → HidReachable (hid_input_end s)
  | clear (s : State) : HidReachable s → HidReachable (joystickDataClear s)

/-- The function `sendRaw` (source lines 260-265).  `data` is the memory the pointer refers
to, `len` a `uint8_t`; the bytes are copied to `txbuf_` when they are fewer than
`sizeof(txbuf_)`, the transfer is queued from `data`, and the collaborator's answer is
returned. -/
def sendRaw (h : Header) (s : State) (data : Nat → Nat) (len : Nat) : State × Bool :=
  let s := if len < h.sizeof_txbuf_ then memcpy_txbuf 0 (bytes (u8 data) len) len s else s
  ({ s with out := s.out ++ [Request.queue_Data_Transfer Pipe.txpipe_ (bytes (u8 data) len)] },
   s.answer)

/-- The indices at which the four family tests of `claim` (source lines 556-573) read
`descriptors`, in program order; `&&` evaluates its right operand only when the left one
holds. -/
def claim_jtype_reads (descriptors : Nat → Nat) : List Nat :=
  ([6] ++ if u8 descriptors 6 = 0x5D then [7] else []) ++
  ([6] ++ if u8 descriptors 6 = 0x5D then [7] else []) ++
  ([6] ++ if u8 descriptors 6 = 0x47 then
            [7] ++ if u8 descriptors 7 = 0xD0 then
                     [15] ++ if u8 descriptors 15 = 0x04 then [22] else []
                   else []
          else []) ++
  ([5] ++ if u8 descriptors 5 = 0x58 then [6] else [])

/-- The indices at which one pass of the body of the endpoint loop of `claim` (source lines
594-612) reads `descriptors` once both tests of the record header have passed, in program
order. -/
def claim_endpoint_reads (descriptors : Nat → Nat) (e : EndpointScan) : List Nat :=
  [e.descriptor_index, e.descriptor_index + 1, e.descriptor_index + 3] ++
  if u8 descriptors (e.descriptor_index + 3) = 3 then
    [e.descriptor_index + 4] ++
    if u8 descriptors (e.descriptor_index + 4) ≤ 64 then
      [e.descriptor_index + 5] ++
      if u8 descriptors (e.descriptor_index + 5) = 0 then
        [e.descriptor_index + 2, e.descriptor_index + 2, e.descriptor_index + 4,
         e.descriptor_index + 6]
      else []
    else []
  else []

/-- The indices at which the endpoint loop of `claim` (source lines 593-614) reads
`descriptors`, by recursion on `count_end_points` like `claim_endpoints`; the scan state after
one pass is the one `claim_endpoints` computes for a single pass. -/
def claim_endpoints_reads (descriptors : Nat → Nat) (jtype : joytype_t) :
    Nat → EndpointScan → List Nat
  | 0, _ => []
  | count_end_points + 1, e =>
    if e.rx_ep_ = 0 ∨ e.txep = 0 then
      if u8 descriptors e.descriptor_index ≠ 7 then [e.descriptor_index]
      else if u8 descriptors (e.descriptor_index + 1) ≠ 5 then
        [e.descriptor_index, e.descriptor_index + 1]
      else
        claim_endpoint_reads descriptors e ++
          claim_endpoints_reads descriptors jtype count_end_points
            (claim_endpoints descriptors jtype 1 e).2
    else []

/-- The indices at which `claim` (source lines 533-665) reads `descriptors`, in program
order. -/
def claim_reads (s : State) (dev : Device_t) (type : Int) (descriptors : Nat → Nat)
    (len : Nat) : List Nat :=
  if s.mydevice.isSome then []
  else if s.device.isSome then []
  else if type ≠ 1 then []
  else if len < 9 + 7 + 7 then []
  else
    [4] ++
    if u8 descriptors 4 < 2 then []
    else
      claim_jtype_reads descriptors ++
      if claim_jtype dev descriptors = UNKNOWN then []
      else
        [9 + 1] ++ (if u8 descriptors (9 + 1) ≠ 0x05 then [9] else []) ++
        claim_endpoints_reads descriptors (claim_jtype dev descriptors) (u8 descriptors 4)
          ⟨if u8 descriptors (9 + 1) ≠ 0x05 then 9 + u8 descriptors 9 else 9,
            0, 0, 0, 0, 0, 0⟩

/-! ## Theorems -/

/-- A pair that matches no row of a table is mapped to `UNKNOWN` by the lookup loop. -/
theorem mapVIDPIDloop_no_match (v p : Nat) (b : Bool) (l : List product_vendor_mapping_t)
    (h : ∀ e ∈ l, ¬ (e.idVendor = v ∧ e.idProduct = p)) :
    mapVIDPIDloop v p b l = UNKNOWN := by
  induction l with
  | nil => rfl
  | cons e rest ih =>
    have he : ¬ (v = e.idVendor ∧ p = e.idProduct) := by
      intro hh
      exact h e (List.mem_cons_self _ _) ⟨hh.1.symm, hh.2.symm⟩
    have hrest : ∀ e ∈ rest, ¬ (e.idVendor = v ∧ e.idProduct = p) :=
      fun x hx => h x (List.mem_cons_of_mem _ hx)
    simp only [mapVIDPIDloop, he, if_false]
    exact ih hrest

/-- C1: for every row of `pid_vid_mapping`, `mapVIDPIDtoJoystickType` called with the row's
vendor and product id and `exclude_hid_devices = false` returns the row's family; and a pair
`(v, p)` that equals no row's `(idVendor, idProduct)` is mapped to `UNKNOWN` for either value
of the flag (for all naturals, so in particular for all 16-bit pairs). -/
theorem C1_mapVIDPID_exact_match :
    (∀ e ∈ pid_vid_mapping,
        mapVIDPIDtoJoystickType e.idVendor e.idProduct false = e.joyType) ∧
    (∀ (v p : Nat) (b : Bool),
        (∀ e ∈ pid_vid_mapping, ¬ (e.idVendor = v ∧ e.idProduct = p)) →
        mapVIDPIDtoJoystickType v p b = UNKNOWN) := by
  refine ⟨by decide, ?_⟩
  intro v p b h
  exact mapVIDPIDloop_no_match v p b pid_vid_mapping h

/-- C1 at concrete inputs: the PS4 row `054C:09CC`, and the unlisted pair `045E:02EA`. -/
theorem C1_mapVIDPID_exact_match_witness :
    mapVIDPIDtoJoystickType 0x054C 0x09CC false = PS4 ∧
    mapVIDPIDtoJoystickType 0x045E 0x02EA true = UNKNOWN ∧
    mapVIDPIDtoJoystickType 0x045E 0x02EA false = UNKNOWN :=
  ⟨C1_mapVIDPID_exact_match.1 ⟨0x054C, 0x09CC, PS4, true⟩ (by decide),
   C1_mapVIDPID_exact_match.2 0x045E 0x02EA true (by decide),
   C1_mapVIDPID_exact_match.2 0x045E 0x02EA false (by decide)⟩

/-- C2: on an XBOXONE connection `setRumble` submits exactly the 13 bytes
`09 00 00 09 00 0F 00 00 min(lValue,100) min(rValue,100) FF 00 00` to the transmit pipe, for
every `lValue`, `rValue` and `timeout` (all naturals, in particular 0..255); the timeout does
not occur in the packet. -/
theorem C2_setRumble_xboxone_packet (s : State) (lValue rValue timeout : Nat)
    (hfam : s.joystickType_ = XBOXONE) :
    (setRumble s lValue rValue timeout).1.out = s.out ++
      [Request.queue_Data_Transfer Pipe.txpipe_
        [0x09, 0x00, 0x00, 0x09, 0x00, 0x0F, 0x00, 0x00,
         min lValue 100, min rValue 100, 0xFF, 0x00, 0x00]] := by
  have hl : (if lValue > 100 then 100 else lValue) = min lValue 100 := by
    split_ifs <;> omega
  have hr : (if rValue > 100 then 100 else rValue) = min rValue 100 := by
    split_ifs <;> omega
  simp only [setRumble, hfam, queue_txbuf, poke, bytes, hl, hr]
  simp [List.range, List.range.loop, Function.update]

/-- C2 at the inputs of the spec: `setRumble(50,75,10)` submits
`09 00 00 09 00 0F 00 00 32 4B FF 00 00`, and `setRumble(150,0,0)` puts 100 in byte 8. -/
theorem C2_setRumble_xboxone_packet_witness :
    (setRumble { State.fresh with joystickType_ := XBOXONE } 50 75 10).1.out =
      [Request.queue_Data_Transfer Pipe.txpipe_
        [0x09, 0x00, 0x00, 0x09, 0x00, 0x0F, 0x00, 0x00, 0x32, 0x4B, 0xFF, 0x00, 0x00]] ∧
    (setRumble { State.fresh with joystickType_ := XBOXONE } 150 0 0).1.out =
      [Request.queue_Data_Transfer Pipe.txpipe_
        [0x09, 0x00, 0x00, 0x09, 0x00, 0x0F, 0x00, 0x00, 100, 0, 0xFF, 0x00, 0x00]] :=
  ⟨C2_setRumble_xboxone_packet { State.fresh with joystickType_ := XBOXONE } 50 75 10 rfl,
   C2_setRumble_xboxone_packet { State.fresh with joystickType_ := XBOXONE } 150 0 0 rfl⟩

/-- C3: `setRumble` passes `lValue` and `rValue` through unclamped for the other three Xbox
families: XBOX360 (wireless) submits the 12 bytes `00 01 0F C0 00 l r 00 00 00 00 00`,
XBOX360_WIRED the 8 bytes `00 08 00 l r 00 00 00`, XBOXDUKE the 6 bytes `00 06 l l r r`. -/
theorem C3_setRumble_xbox360_duke_packets (s : State) (lValue rValue timeout : Nat) :
    (s.joystickType_ = XBOX360 →
      (setRumble s lValue rValue timeout).1.out = s.out ++
        [Request.queue_Data_Transfer Pipe.txpipe_
          [0x00, 0x01, 0x0F, 0xC0, 0x00, lValue, rValue, 0x00, 0x00, 0x00, 0x00, 0x00]]) ∧
    (s.joystickType_ = XBOX360_WIRED →
      (setRumble s lValue rValue timeout).1.out = s.out ++
        [Request.queue_Data_Transfer Pipe.txpipe_
          [0x00, 0x08, 0x00, lValue, rValue, 0x00, 0x00, 0x00]]) ∧
    (s.joystickType_ = XBOXDUKE →
      (setRumble s lValue rValue timeout).1.out = s.out ++
        [Request.queue_Data_Transfer Pipe.txpipe_
          [0x00, 0x06, lValue, lValue, rValue, rValue]]) := by
  refine ⟨?_, ?_, ?_⟩ <;> intro hfam <;>
    simp only [setRumble, hfam, queue_txbuf, poke, bytes] <;>
    simp [List.range, List.range.loop, Function.update]

/-- C3 at concrete inputs: the values 150 and 200 (above 100) reach the packet unchanged. -/
theorem C3_setRumble_xbox360_duke_packets_witness :
    (setRumble { State.fresh with joystickType_ := XBOX360 } 150 200 7).1.out =
      [Request.queue_Data_Transfer Pipe.txpipe_
        [0x00, 0x01, 0x0F, 0xC0, 0x00, 150, 200, 0x00, 0x00, 0x00, 0x00, 0x00]] ∧
    (setRumble { State.fresh with joystickType_ := XBOX360_WIRED } 150 0 0).1.out =
      [Request.queue_Data_Transfer Pipe.txpipe_
        [0x00, 0x08, 0x00, 150, 0, 0x00, 0x00, 0x00]] ∧
    (setRumble { State.fresh with joystickType_ := XBOXDUKE } 150 200 7).1.out =
      [Request.queue_Data_Transfer Pipe.txpipe_ [0x00, 0x06, 150, 150, 200, 200]] :=
  ⟨(C3_setRumble_xbox360_duke_packets
      { State.fresh with joystickType_ := XBOX360 } 150 200 7).1 rfl,
   (C3_setRumble_xbox360_duke_packets
      { State.fresh with joystickType_ := XBOX360_WIRED } 150 0 0).2.1 rfl,
   (C3_setRumble_xbox360_duke_packets
      { State.fresh with joystickType_ := XBOXDUKE } 150 200 7).2.2 rfl⟩

/-- C4: with the USB HID driver set, `transmitPS3UserFeedbackMsg` sends one control packet
(`0x21, 9, 0x201, 0, 48`) whose 48 bytes are the template `PS3_USER_FEEDBACK_INIT` with exactly
five bytes replaced: byte 1 = `rumble_timeout_` if `rumble_lValue_` is non-zero else 0,
byte 2 = `rumble_lValue_`, byte 3 = `rumble_timeout_` if `rumble_rValue_` is non-zero else 0,
byte 4 = `rumble_rValue_`, byte 9 = `(leds_[2] * 2) mod 256`; for every stored value. -/
theorem C4_transmitPS3_usb_packet (s : State) (hd : s.driver_ = true) :
    (transmitPS3UserFeedbackMsg s).1.out = s.out ++
      [Request.sendControlPacket 0x21 9 0x201 0 48
        (((((PS3_USER_FEEDBACK_INIT.set 1 (if s.rumble_lValue_ ≠ 0 then s.rumble_timeout_ else 0)).set
          2 s.rumble_lValue_).set
          3 (if s.rumble_rValue_ ≠ 0 then s.rumble_timeout_ else 0)).set
          4 s.rumble_rValue_).set
          9 (s.leds_ 2 * 2 % 256))] ∧
    (((((PS3_USER_FEEDBACK_INIT.set 1 (if s.rumble_lValue_ ≠ 0 then s.rumble_timeout_ else 0)).set
          2 s.rumble_lValue_).set
          3 (if s.rumble_rValue_ ≠ 0 then s.rumble_timeout_ else 0)).set
          4 s.rumble_rValue_).set
          9 (s.leds_ 2 * 2 % 256)).length = 48 := by
  refine ⟨?_, by simp [PS3_USER_FEEDBACK_INIT]⟩
  simp only [transmitPS3UserFeedbackMsg, hd, if_true, poke, memcpy_txbuf, bytes,
    PS3_USER_FEEDBACK_INIT, Nat.shiftLeft_eq]
  simp [List.range, List.range.loop, Function.update]

/-- C4 at a concrete state: left force 0x40, right force 0, timeout 0x10, blue LED 0x81. -/
theorem C4_transmitPS3_usb_packet_witness :
    (transmitPS3UserFeedbackMsg
      { State.fresh with driver_ := true, rumble_lValue_ := 0x40, rumble_rValue_ := 0,
                         rumble_timeout_ := 0x10,
                         leds_ := fun i => if i = 2 then 0x81 else 0 }).1.out =
      [Request.sendControlPacket 0x21 9 0x201 0 48
        [0x00, 0x10, 0x40, 0x00, 0x00, 0x00, 0x00, 0x00, 0x00, 0x02,
         0xff, 0x27, 0x10, 0x00, 0x32, 0xff, 0x27, 0x10, 0x00, 0x32,
         0xff, 0x27, 0x10, 0x00, 0x32, 0xff, 0x27, 0x10, 0x00, 0x32,
         0x00, 0x00, 0x00, 0x00, 0x00, 0x00, 0x00, 0x00, 0x00, 0x00,
         0x00, 0x00, 0x00, 0x00, 0x00, 0x00, 0x00, 0x00]] :=
  (C4_transmitPS3_usb_packet
    { State.fresh with driver_ := true, rumble_lValue_ := 0x40, rumble_rValue_ := 0,
                       rumble_timeout_ := 0x10,
                       leds_ := fun i => if i = 2 then 0x81 else 0 } rfl).1

/-- C5: with the USB HID driver set, `transmitPS4UserFeedbackMsg` sends one packet of exactly
32 bytes: byte 0 = 0x05, byte 1 = 0xFF, byte 4 = `rumble_lValue_`, byte 5 = `rumble_rValue_`,
bytes 6, 7, 8 = `leds_[0]`, `leds_[1]`, `leds_[2]`, every other byte 0. -/
theorem C5_transmitPS4_usb_packet (s : State) (hd : s.driver_ = true) :
    (transmitPS4UserFeedbackMsg s).1.out = s.out ++
      [Request.sendPacket
        ([0x05, 0xFF, 0, 0, s.rumble_lValue_, s.rumble_rValue_,
          s.leds_ 0, s.leds_ 1, s.leds_ 2] ++ List.replicate 23 0)] ∧
    ([0x05, 0xFF, 0, 0, s.rumble_lValue_, s.rumble_rValue_,
      s.leds_ 0, s.leds_ 1, s.leds_ 2] ++ List.replicate 23 0).length = 32 := by
  refine ⟨?_, by simp⟩
  simp only [transmitPS4UserFeedbackMsg, hd, if_true, bytes]
  simp [List.range, List.range.loop, Function.update, List.replicate]

/-- C5 at a concrete state: forces 0x11 and 0x22, colour (0xA0, 0xB0, 0xC0). -/
theorem C5_transmitPS4_usb_packet_witness :
    (transmitPS4UserFeedbackMsg
      { State.fresh with driver_ := true, rumble_lValue_ := 0x11, rumble_rValue_ := 0x22,
                         leds_ := fun i => if i = 0 then 0xA0 else if i = 1 then 0xB0
                                           else 0xC0 }).1.out =
      [Request.sendPacket
        [0x05, 0xFF, 0x00, 0x00, 0x11, 0x22, 0xA0, 0xB0, 0xC0, 0x00,
         0x00, 0x00, 0x00, 0x00, 0x00, 0x00, 0x00, 0x00, 0x00, 0x00,
         0x00, 0x00, 0x00, 0x00, 0x00, 0x00, 0x00, 0x00, 0x00, 0x00,
         0x00, 0x00]] :=
  (C5_transmitPS4_usb_packet
    { State.fresh with driver_ := true, rumble_lValue_ := 0x11, rumble_rValue_ := 0x22,
                       leds_ := fun i => if i = 0 then 0xA0 else if i = 1 then 0xB0
                                         else 0xC0 } rfl).1

/-- Masking with a single bit gives zero exactly when that bit is clear. -/
theorem and_two_pow_eq_zero_iff (n k : Nat) : n &&& 2 ^ k = 0 ↔ n.testBit k = false := by
  rw [Nat.and_two_pow]
  cases n.testBit k <;> simp

/-- For a button usage `u ≤ 32` the mask `1 << (u - 1)` fits the 32-bit `bit`. -/
theorem button_bit_eq (u : Nat) (h2 : u ≤ 32) : (1 <<< (u - 1)) % 2 ^ 32 = 2 ^ (u - 1) := by
  rw [Nat.one_shiftLeft]
  apply Nat.mod_eq_of_lt
  apply Nat.pow_lt_pow_right (by decide)
  omega

/-- The button branch of `hid_input_data`, with the bit tests written with `testBit`. -/
theorem hid_input_data_button (s : State) (usage u : Nat) (v : Int)
    (hpage : usage >>> 16 = 9) (hid : usage &&& 0xFFFF = u) (h1 : 1 ≤ u) (h2 : u ≤ 32) :
    hid_input_data s usage v =
      if v = 0 then
        if s.buttons.testBit (u - 1) = true then
          { s with buttons := s.buttons &&& (2 ^ (u - 1) ^^^ 0xFFFFFFFF), anychange := true }
        else s
      else
        if s.buttons.testBit (u - 1) = false then
          { s with buttons := s.buttons ||| 2 ^ (u - 1), anychange := true }
        else s := by
  have hc : usage >>> 16 = 9 ∧ usage &&& 0xFFFF ≥ 1 ∧ usage &&& 0xFFFF ≤ 32 := by
    rw [hid]; exact ⟨hpage, h1, h2⟩
  unfold hid_input_data
  simp only [hc, and_self, if_true]
  rw [hid, button_bit_eq u h2]
  simp only [ne_eq, and_two_pow_eq_zero_iff, Bool.not_eq_false]

/-- A call with value 0 never sets a button bit that is clear. -/
theorem hid_input_data_zero_keeps_clear (s : State) (usage k : Nat)
    (h : s.buttons.testBit k = false) :
    (hid_input_data s usage 0).buttons.testBit k = false := by
  unfold hid_input_data
  simp only
  split_ifs <;> simp [Nat.testBit_and, h]

/-- A run of calls with value 0 never sets a button bit that is clear. -/
theorem hid_input_zeros_keeps_clear (usages : List Nat) (s : State) (k : Nat)
    (h : s.buttons.testBit k = false) :
    (hid_input_zeros s usages).buttons.testBit k = false := by
  induction usages generalizing s with
  | nil => exact h
  | cons x rest ih =>
    simp only [hid_input_zeros, List.foldl_cons]
    exact ih (hid_input_data s x 0) (hid_input_data_zero_keeps_clear s x k h)

/-- The usage word `(9 << 16) | u` splits into page 9 and usage id `u`. -/
theorem button_usage_split (u : Nat) (h1 : 1 ≤ u) (h2 : u ≤ 32) :
    ((9 <<< 16) ||| u) >>> 16 = 9 ∧ ((9 <<< 16) ||| u) &&& 0xFFFF = u := by
  interval_cases u <;> decide

/-- C6: in HID-collection mode, for every button usage id `u` in 1..32 and every state in
which bit `u - 1` of `buttons` is clear, the sequence `hid_input_begin`; any number of
`hid_input_data` calls with value 0 (on any usages, in particular on other usages);
`hid_input_data((9 << 16) | u, 1)`; `hid_input_end` ends with bit `u - 1` of `buttons` set and
`joystickEvent` true. -/
theorem C6_hid_button_press_sequence (s : State) (u : Nat) (usages : List Nat)
    (topusage type : Nat) (lgmin lgmax : Int)
    (h1 : 1 ≤ u) (h2 : u ≤ 32) (hclear : s.buttons.testBit (u - 1) = false) :
    (hid_input_end (hid_input_data
        (hid_input_zeros (hid_input_begin s topusage type lgmin lgmax) usages)
        ((9 <<< 16) ||| u) 1)).buttons.testBit (u - 1) = true ∧
    (hid_input_end (hid_input_data
        (hid_input_zeros (hid_input_begin s topusage type lgmin lgmax) usages)
        ((9 <<< 16) ||| u) 1)).joystickEvent = true := by
  have hz := hid_input_zeros_keeps_clear usages (hid_input_begin s topusage type lgmin lgmax)
    (u - 1) hclear
  have hsplit := button_usage_split u h1 h2
  rw [hid_input_data_button _ _ u 1 hsplit.1 hsplit.2 h1 h2]
  simp [hz, hid_input_end, Nat.testBit_or, Nat.testBit_two_pow]

/-- C6 at the instance of the spec: usage 5 after three unrelated zero-value triples sets
bit 4 and raises the event. -/
theorem C6_hid_button_press_sequence_witness :
    (hid_input_end (hid_input_data
        (hid_input_zeros (hid_input_begin State.fresh 0x10005 0 0 255)
          [0x90001, 0x10030, 0x90007])
        ((9 <<< 16) ||| 5) 1)).buttons.testBit 4 = true ∧
    (hid_input_end (hid_input_data
        (hid_input_zeros (hid_input_begin State.fresh 0x10005 0 0 255)
          [0x90001, 0x10030, 0x90007])
        ((9 <<< 16) ||| 5) 1)).joystickEvent = true :=
  C6_hid_button_press_sequence State.fresh 5 [0x90001, 0x10030, 0x90007] 0x10005 0 0 255
    (by decide) (by decide) (by decide)

/-- C7: the pending-event flag is committed only at the end marker: `hid_input_data` leaves
`joystickEvent` unchanged for every usage and value; `hid_input_end` sets it to true exactly
when `anychange` is true and otherwise leaves it unchanged; so a begin/end pair with no values
in a state with `anychange = false` leaves `joystickEvent` as it was. -/
theorem C7_event_committed_at_end :
    (∀ (s : State) (usage : Nat) (value : Int),
      (hid_input_data s usage value).joystickEvent = s.joystickEvent) ∧
    (∀ s : State, (hid_input_end s).joystickEvent = (s.anychange || s.joystickEvent)) ∧
    (∀ (s : State) (topusage type : Nat) (lgmin lgmax : Int), s.anychange = false →
      (hid_input_end (hid_input_begin s topusage type lgmin lgmax)).joystickEvent
        = s.joystickEvent) := by
  refine ⟨?_, ?_, ?_⟩
  · intro s usage value
    unfold hid_input_data
    simp only
    split_ifs <;> rfl
  · intro s
    unfold hid_input_end
    cases h : s.anychange <;> simp
  · intro s topusage type lgmin lgmax h
    simp [hid_input_end, hid_input_begin, h]

/-- C7 at a concrete state: an empty report on a fresh controller raises no event. -/
theorem C7_event_committed_at_end_witness :
    (hid_input_end (hid_input_begin State.fresh 0x10005 0 0 255)).joystickEvent = false :=
  C7_event_committed_at_end.2.2 State.fresh 0x10005 0 0 255 rfl

/-- C8: for a usage on page 9 with usage id `u` in 1..32 and every value `v`, `hid_input_data`
makes bit `u - 1` of `buttons` equal to `v != 0`, leaves every other bit of the 32-bit
`buttons`, every axis channel, `axis_mask_` and `axis_changed_mask_` unchanged, and sets
`anychange` if that bit changed and leaves it unchanged otherwise. -/
theorem C8_hid_button_bit (s : State) (usage u : Nat) (v : Int)
    (hpage : usage >>> 16 = 9) (hid : usage &&& 0xFFFF = u) (h1 : 1 ≤ u) (h2 : u ≤ 32)
    (hb : s.buttons < 2 ^ 32) :
    (hid_input_data s usage v).buttons.testBit (u - 1) = decide (v ≠ 0) ∧
    (∀ j, j ≠ u - 1 →
      (hid_input_data s usage v).buttons.testBit j = s.buttons.testBit j) ∧
    (hid_input_data s usage v).axis = s.axis ∧
    (hid_input_data s usage v).axis_mask_ = s.axis_mask_ ∧
    (hid_input_data s usage v).axis_changed_mask_ = s.axis_changed_mask_ ∧
    (hid_input_data s usage v).anychange =
      (if s.buttons.testBit (u - 1) = decide (v ≠ 0) then s.anychange else true) := by
  rw [hid_input_data_button s usage u v hpage hid h1 h2]
  have hhi : ∀ j, 32 ≤ j → s.buttons.testBit j = false := by
    intro j hj
    apply Nat.testBit_eq_false_of_lt
    exact lt_of_lt_of_le hb (Nat.pow_le_pow_right (by decide) hj)
  have hmask : (0xFFFFFFFF : Nat) = 2 ^ 32 - 1 := by norm_num
  by_cases hv : v = 0
  · by_cases ht : s.buttons.testBit (u - 1) = true
    · rw [if_pos hv, if_pos ht, hmask]
      refine ⟨?_, ?_, rfl, rfl, rfl, ?_⟩
      · have hlt : u - 1 < 32 := by omega
        simp only [Nat.testBit_and, Nat.testBit_xor, Nat.testBit_two_pow_self,
          Nat.testBit_two_pow_sub_one, ht, hv, hlt]
        simp
      · intro j hj
        simp only [Nat.testBit_and, Nat.testBit_xor, Nat.testBit_two_pow,
          Nat.testBit_two_pow_sub_one]
        by_cases hj32 : j < 32
        · have : ¬ (u - 1 = j) := fun h => hj h.symm
          simp [this, hj32]
        · rw [hhi j (by omega)]; simp
      · simp [ht, hv]
    · have ht' : s.buttons.testBit (u - 1) = false := by simpa using ht
      rw [if_pos hv, if_neg ht]
      simp [hv, ht']
  · by_cases ht : s.buttons.testBit (u - 1) = false
    · rw [if_neg hv, if_pos ht]
      refine ⟨?_, ?_, rfl, rfl, rfl, ?_⟩
      · simp [Nat.testBit_or, Nat.testBit_two_pow, hv]
      · intro j hj
        have : ¬ (u - 1 = j) := fun h => hj h.symm
        simp [Nat.testBit_or, Nat.testBit_two_pow, this]
      · simp [hv, ht]
    · have ht' : s.buttons.testBit (u - 1) = true := by simpa using ht
      rw [if_neg hv, if_neg ht]
      simp [hv, ht']

/-- C8 at concrete inputs: releasing button 3 in a state with buttons `0b1111`. -/
theorem C8_hid_button_bit_witness :
    (hid_input_data { State.fresh with buttons := 0xF } 0x90003 0).buttons.testBit 2
      = false ∧
    (hid_input_data { State.fresh with buttons := 0xF } 0x90003 0).anychange = true :=
  ⟨(C8_hid_button_bit { State.fresh with buttons := 0xF } 0x90003 3 0
      (by decide) (by decide) (by decide) (by decide) (by decide)).1,
   (C8_hid_button_bit { State.fresh with buttons := 0xF } 0x90003 3 0
      (by decide) (by decide) (by decide) (by decide) (by decide)).2.2.2.2.2⟩

/-- Updating a function at a point with the value it already has changes nothing. -/
theorem update_of_eq {α : Type} (f : Nat → α) (i : Nat) (v : α) (h : f i = v) :
    Function.update f i v = f := by
  rw [← h]; exact Function.update_eq_self i f

/-- The axis array after `hid_input_data`, branch by branch. -/
theorem hid_input_data_axis (s : State) (usage : Nat) (value : Int) :
    (hid_input_data s usage value).axis =
      if usage >>> 16 = 9 ∧ usage &&& 0xFFFF ≥ 1 ∧ usage &&& 0xFFFF ≤ 32 then s.axis
      else if usage >>> 16 = 1 ∧ usage &&& 0xFFFF ≥ 0x30 ∧ usage &&& 0xFFFF ≤ 0x39 then
        Function.update s.axis ((usage &&& 0xFFFF) - 0x30) value
      else if usage >>> 16 = s.additional_axis_usage_page_ ∧
          usage &&& 0xFFFF ≥ s.additional_axis_usage_start_ ∧
          usage &&& 0xFFFF < s.additional_axis_usage_start_ + s.additional_axis_usage_count_ ∧
          ((usage &&& 0xFFFF) - s.additional_axis_usage_start_ + 10) % 2 ^ 16 < 64 then
        Function.update s.axis
          (((usage &&& 0xFFFF) - s.additional_axis_usage_start_ + 10) % 2 ^ 16) value
      else s.axis := by
  unfold hid_input_data
  simp only [STANDARD_AXIS_COUNT, TOTAL_AXIS_COUNT]
  split_ifs <;> first
    | rfl
    | (exfalso; simp_all; done)
    | (exfalso; omega)
    | simp_all [update_of_eq]

/-- C9: the usage-to-channel mapping of `hid_input_data`.
(1) A usage on page 1 with id in 0x30..0x39 stores the value in `axis[id - 0x30]`.
(2) A usage inside the extended window (page `P`, start `S`, count `N`) that is not taken by
the button or standard-axis branch stores the value in `axis[id - S + 10]` when that index is
below 64, and writes no channel when the index is 64 or more (and fits the 16-bit index).
(3) A usage that is neither a standard axis nor inside the window writes no channel.
(4) No channel at index 64 or above is ever written.
(5) For the three windows set by `claim_collection` a usage inside the window is stored in
`axis[id - S + 10]`, and that index lies in 10..63.
(6) `claim_collection` sets page 1, start 0x100, count 39 for PS3 and PS3_MOTION, page 0xFF00,
start 0x21, count 54 for PS4, and page 9, start 0x21, count 5 for every other family.
In (1), (2) and (5) the new array is the old one updated at that one index, so no other
channel is modified. -/
theorem C9_hid_axis_channel_mapping :
    (∀ (s : State) (usage : Nat) (value : Int),
      usage >>> 16 = 1 → 0x30 ≤ usage &&& 0xFFFF → usage &&& 0xFFFF ≤ 0x39 →
      (hid_input_data s usage value).axis =
        Function.update s.axis ((usage &&& 0xFFFF) - 0x30) value) ∧
    (∀ (s : State) (usage : Nat) (value : Int),
      ¬ (usage >>> 16 = 9 ∧ 1 ≤ usage &&& 0xFFFF ∧ usage &&& 0xFFFF ≤ 32) →
      ¬ (usage >>> 16 = 1 ∧ 0x30 ≤ usage &&& 0xFFFF ∧ usage &&& 0xFFFF ≤ 0x39) →
      usage >>> 16 = s.additional_axis_usage_page_ →
      s.additional_axis_usage_start_ ≤ usage &&& 0xFFFF →
      usage &&& 0xFFFF < s.additional_axis_usage_start_ + s.additional_axis_usage_count_ →
      ((usage &&& 0xFFFF) - s.additional_axis_usage_start_ + 10 < 64 →
        (hid_input_data s usage value).axis =
          Function.update s.axis ((usage &&& 0xFFFF) - s.additional_axis_usage_start_ + 10)
            value) ∧
      (64 ≤ (usage &&& 0xFFFF) - s.additional_axis_usage_start_ + 10 →
        (usage &&& 0xFFFF) - s.additional_axis_usage_start_ + 10 < 2 ^ 16 →
        (hid_input_data s usage value).axis = s.axis)) ∧
    (∀ (s : State) (usage : Nat) (value : Int),
      ¬ (usage >>> 16 = 1 ∧ 0x30 ≤ usage &&& 0xFFFF ∧ usage &&& 0xFFFF ≤ 0x39) →
      ¬ (usage >>> 16 = s.additional_axis_usage_page_ ∧
          s.additional_axis_usage_start_ ≤ usage &&& 0xFFFF ∧
          usage &&& 0xFFFF < s.additional_axis_usage_start_ + s.additional_axis_usage_count_) →
      (hid_input_data s usage value).axis = s.axis) ∧
    (∀ (s : State) (usage : Nat) (value : Int) (j : Nat), 64 ≤ j →
      (hid_input_data s usage value).axis j = s.axis j) ∧
    (∀ (s : State) (usage : Nat) (value : Int),
      (s.additional_axis_usage_page_ = 0x1 ∧ s.additional_axis_usage_start_ = 0x100 ∧
          s.additional_axis_usage_count_ = 39) ∨
        (s.additional_axis_usage_page_ = 0xFF00 ∧ s.additional_axis_usage_start_ = 0x21 ∧
          s.additional_axis_usage_count_ = 54) ∨
        (s.additional_axis_usage_page_ = 0x09 ∧ s.additional_axis_usage_start_ = 0x21 ∧
          s.additional_axis_usage_count_ = 5) →
      usage >>> 16 = s.additional_axis_usage_page_ →
      s.additional_axis_usage_start_ ≤ usage &&& 0xFFFF →
      usage &&& 0xFFFF < s.additional_axis_usage_start_ + s.additional_axis_usage_count_ →
      10 ≤ (usage &&& 0xFFFF) - s.additional_axis_usage_start_ + 10 ∧
      (usage &&& 0xFFFF) - s.additional_axis_usage_start_ + 10 ≤ 63 ∧
      (hid_input_data s usage value).axis =
        Function.update s.axis ((usage &&& 0xFFFF) - s.additional_axis_usage_start_ + 10)
          value) ∧
    (∀ (s : State) (dev : Device_t) (topusage : Nat),
      (claim_collection s dev topusage).2 = hidclaim_t.CLAIM_REPORT →
      ((claim_collection s dev topusage).1.joystickType_ = PS3 ∨
        (claim_collection s dev topusage).1.joystickType_ = PS3_MOTION →
        (claim_collection s dev topusage).1.additional_axis_usage_page_ = 0x1 ∧
        (claim_collection s dev topusage).1.additional_axis_usage_start_ = 0x100 ∧
        (claim_collection s dev topusage).1.additional_axis_usage_count_ = 39) ∧
      ((claim_collection s dev topusage).1.joystickType_ = PS4 →
        (claim_collection s dev topusage).1.additional_axis_usage_page_ = 0xFF00 ∧
        (claim_collection s dev topusage).1.additional_axis_usage_start_ = 0x21 ∧
        (claim_collection s dev topusage).1.additional_axis_usage_count_ = 54) ∧
      ((claim_collection s dev topusage).1.joystickType_ ≠ PS3 →
        (claim_collection s dev topusage).1.joystickType_ ≠ PS3_MOTION →
        (claim_collection s dev topusage).1.joystickType_ ≠ PS4 →
        (claim_collection s dev topusage).1.additional_axis_usage_page_ = 0x09 ∧
        (claim_collection s dev topusage).1.additional_axis_usage_start_ = 0x21 ∧
        (claim_collection s dev topusage).1.additional_axis_usage_count_ = 5)) := by
  refine ⟨?_, ?_, ?_, ?_, ?_, ?_⟩
  · intro s usage value hp h1 h2
    rw [hid_input_data_axis]
    have hnb : ¬ (usage >>> 16 = 9 ∧ usage &&& 0xFFFF ≥ 1 ∧ usage &&& 0xFFFF ≤ 32) := by
      rw [hp]; simp
    rw [if_neg hnb, if_pos ⟨hp, h1, h2⟩]
  · intro s usage value hnb hna hp hs hc
    rw [hid_input_data_axis, if_neg hnb, if_neg hna]
    constructor
    · intro hlt
      have hm : ((usage &&& 0xFFFF) - s.additional_axis_usage_start_ + 10) % 2 ^ 16
          = (usage &&& 0xFFFF) - s.additional_axis_usage_start_ + 10 :=
        Nat.mod_eq_of_lt (by omega)
      rw [hm, if_pos ⟨hp, hs, hc, hlt⟩]
    · intro hge hlt
      have hm : ((usage &&& 0xFFFF) - s.additional_axis_usage_start_ + 10) % 2 ^ 16
          = (usage &&& 0xFFFF) - s.additional_axis_usage_start_ + 10 :=
        Nat.mod_eq_of_lt hlt
      rw [hm, if_neg (fun h => by omega)]
  · intro s usage value hna hnw
    rw [hid_input_data_axis, if_neg hna]
    split_ifs with h1 h2
    · rfl
    · exact absurd ⟨h2.1, h2.2.1, h2.2.2.1⟩ hnw
    · rfl
  · intro s usage value j hj
    rw [hid_input_data_axis]
    split_ifs with h1 h2 h3
    · rfl
    · rw [Function.update_noteq (by omega)]
    · rw [Function.update_noteq (by omega)]
    · rfl
  · intro s usage value hw hp hs hc
    have hnb : ¬ (usage >>> 16 = 9 ∧ usage &&& 0xFFFF ≥ 1 ∧ usage &&& 0xFFFF ≤ 32) := by
      rcases hw with ⟨h1, h2, h3⟩ | ⟨h1, h2, h3⟩ | ⟨h1, h2, h3⟩ <;> omega
    have hna : ¬ (usage >>> 16 = 1 ∧ usage &&& 0xFFFF ≥ 0x30 ∧ usage &&& 0xFFFF ≤ 0x39) := by
      rcases hw with ⟨h1, h2, h3⟩ | ⟨h1, h2, h3⟩ | ⟨h1, h2, h3⟩ <;> omega
    have hlt : (usage &&& 0xFFFF) - s.additional_axis_usage_start_ + 10 ≤ 63 := by
      rcases hw with ⟨h1, h2, h3⟩ | ⟨h1, h2, h3⟩ | ⟨h1, h2, h3⟩ <;> omega
    have hm : ((usage &&& 0xFFFF) - s.additional_axis_usage_start_ + 10) % 2 ^ 16
        = (usage &&& 0xFFFF) - s.additional_axis_usage_start_ + 10 :=
      Nat.mod_eq_of_lt (by omega)
    refine ⟨by omega, hlt, ?_⟩
    rw [hid_input_data_axis, if_neg hnb, if_neg hna, hm, if_pos ⟨hp, hs, hc, by omega⟩]
  · intro s dev topusage hr
    unfold claim_collection at hr ⊢
    split_ifs at hr ⊢ with h1 h2 h3
    all_goals first
      | (exfalso; simp at hr; done)
      | (clear hr
         generalize mapVIDPIDtoJoystickType dev.idVendor dev.idProduct false = jt
         cases jt <;> simp)

/-- C9 at a concrete input: on a PS4 window the last usage `0xFF00:0x56` goes to channel 63. -/
theorem C9_hid_axis_channel_mapping_witness :
    (hid_input_data
      { State.fresh with additional_axis_usage_page_ := 0xFF00,
                         additional_axis_usage_start_ := 0x21,
                         additional_axis_usage_count_ := 54 } 0xFF000056 77).axis =
      Function.update State.fresh.axis 63 77 :=
  (C9_hid_axis_channel_mapping.2.2.2.2.1
    { State.fresh with additional_axis_usage_page_ := 0xFF00,
                       additional_axis_usage_start_ := 0x21,
                       additional_axis_usage_count_ := 54 } 0xFF000056 77
    (Or.inr (Or.inl ⟨rfl, rfl, rfl⟩)) (by decide) (by decide) (by decide)).2.2

/-- After `axis_store` the channel array is the old one updated at index `i`. -/
theorem axis_store_axis (flag : Bool) (i : Nat) (v : Int) (s : State) :
    (axis_store flag i v s).axis = Function.update s.axis i v := by
  unfold axis_store
  by_cases h : s.axis i = v
  · simp [h, update_of_eq]
  · simp [h]

/-- Storing the value a channel already holds changes nothing. -/
theorem axis_store_noop (flag : Bool) (i : Nat) (v : Int) (s : State) (h : s.axis i = v) :
    axis_store flag i v s = s := by
  unfold axis_store
  simp [h]

/-- The statement `axis_store` does not touch the family. -/
theorem axis_store_joystickType (flag : Bool) (i : Nat) (v : Int) (s : State) :
    (axis_store flag i v s).joystickType_ = s.joystickType_ := by
  unfold axis_store
  split_ifs <;> rfl

/-- The channels after the XBOXONE decoder accepted a buffer. -/
theorem rx_data_xboxone_axis (s : State) (t : Transfer_t)
    (h : u8 t.buffer 0 = 0x20 ∧ t.length ≥ 18) :
    (rx_data_xboxone s t).axis =
      Function.update (Function.update (Function.update (Function.update (Function.update
        (Function.update s.axis 3 (u16 t.buffer 6 : Int)) 4 (u16 t.buffer 8 : Int))
        0 (i16 t.buffer 10)) 1 (i16 t.buffer 12)) 2 (i16 t.buffer 14)) 5 (i16 t.buffer 16) := by
  unfold rx_data_xboxone
  simp only [h, and_self, if_true]
  simp only [xbox_axis_order_mapping, List.length, List.range, List.range.loop, List.foldl,
    axis_store_axis, List.getD_cons_zero, List.getD_cons_succ, Nat.reduceLT, Nat.reduceMul,
    Nat.reduceAdd, if_true, if_false]
  split_ifs <;> rfl

/-- When the six channels already hold the decoded values, the XBOXONE decoder leaves the changed mask empty. -/
theorem rx_data_xboxone_fix (s : State) (t : Transfer_t)
    (h3 : s.axis 3 = (u16 t.buffer 6 : Int)) (h4 : s.axis 4 = (u16 t.buffer 8 : Int))
    (h0 : s.axis 0 = i16 t.buffer 10) (h1 : s.axis 1 = i16 t.buffer 12)
    (h2 : s.axis 2 = i16 t.buffer 14) (h5 : s.axis 5 = i16 t.buffer 16) :
    (rx_data_xboxone s t).axis_changed_mask_ = 0 := by
  unfold rx_data_xboxone
  simp only [xbox_axis_order_mapping, List.length, List.range, List.range.loop, List.foldl,
    List.getD_cons_zero, List.getD_cons_succ, Nat.reduceLT, Nat.reduceMul,
    Nat.reduceAdd, if_true, if_false]
  split_ifs <;> simp [axis_store, h0, h1, h2, h3, h4, h5]

/-- The XBOXONE decoder does not touch the family. -/
theorem rx_data_xboxone_joystickType (s : State) (t : Transfer_t) :
    (rx_data_xboxone s t).joystickType_ = s.joystickType_ := by
  unfold rx_data_xboxone
  simp only [xbox_axis_order_mapping, List.length, List.range, List.range.loop, List.foldl]
  split_ifs <;> simp [axis_store_joystickType]

/-- The channels after the XBOX360 controller-data block. -/
theorem rx_data_xbox360_block_axis (ob ol oa : Nat) (s : State) (t : Transfer_t) :
    (rx_data_xbox360_block ob ol oa s t).axis =
      Function.update (Function.update (Function.update (Function.update (Function.update
        (Function.update s.axis 0 (i16 t.buffer (oa + 2 * 0))) 1 (i16 t.buffer (oa + 2 * 1)))
        2 (i16 t.buffer (oa + 2 * 2))) 3 (i16 t.buffer (oa + 2 * 3)))
        4 (u8 t.buffer ol : Int)) 5 (u8 t.buffer (ol + 1) : Int) := by
  unfold rx_data_xbox360_block
  simp only [List.range, List.range.loop, List.foldl, axis_store_axis]
  split_ifs <;> simp [axis_store_axis]

/-- The XBOX360 controller-data block does not touch the family. -/
theorem rx_data_xbox360_block_joystickType (ob ol oa : Nat) (s : State) (t : Transfer_t) :
    (rx_data_xbox360_block ob ol oa s t).joystickType_ = s.joystickType_ := by
  unfold rx_data_xbox360_block
  simp only [List.range, List.range.loop, List.foldl]
  split_ifs <;> simp [axis_store_joystickType]

/-- When the six channels already hold the decoded values, the XBOX360 controller-data block leaves the changed mask empty. -/
theorem rx_data_xbox360_block_fix (ob ol oa : Nat) (s : State) (t : Transfer_t)
    (h0 : s.axis 0 = i16 t.buffer (oa + 2 * 0)) (h1 : s.axis 1 = i16 t.buffer (oa + 2 * 1))
    (h2 : s.axis 2 = i16 t.buffer (oa + 2 * 2)) (h3 : s.axis 3 = i16 t.buffer (oa + 2 * 3))
    (h4 : s.axis 4 = (u8 t.buffer ol : Int)) (h5 : s.axis 5 = (u8 t.buffer (ol + 1) : Int)) :
    (rx_data_xbox360_block ob ol oa s t).axis_changed_mask_ = 0 := by
  unfold rx_data_xbox360_block
  simp only [List.range, List.range.loop, List.foldl]
  split_ifs <;> simp [axis_store, h0, h1, h2, h3, h4, h5]

/-- Running the XBOX360 controller-data block on channels it produced from the same buffer leaves the changed mask empty. -/
theorem rx_data_xbox360_block_twice (ob ol oa : Nat) (s s1 : State) (t : Transfer_t)
    (h : s1.axis = (rx_data_xbox360_block ob ol oa s t).axis) :
    (rx_data_xbox360_block ob ol oa s1 t).axis_changed_mask_ = 0 := by
  rw [rx_data_xbox360_block_axis] at h
  apply rx_data_xbox360_block_fix <;> rw [h] <;> simp [Function.update]

/-- Running the XBOXONE decoder on channels it produced from the same buffer leaves the changed mask empty. -/
theorem rx_data_xboxone_twice (s s1 : State) (t : Transfer_t) (ht : xboxone_input_report t)
    (h : s1.axis = (rx_data_xboxone s t).axis) :
    (rx_data_xboxone s1 t).axis_changed_mask_ = 0 := by
  rw [rx_data_xboxone_axis s t ht] at h
  apply rx_data_xboxone_fix <;> rw [h] <;> simp [Function.update]

/-- One step of the chatpad LED loop only queues a packet. -/
theorem rx_data_chatpad_led_step_frame (h : Header) (s : State) (i : Nat) :
    (rx_data_chatpad_led_step h s i).axis = s.axis ∧
    (rx_data_chatpad_led_step h s i).axis_changed_mask_ = s.axis_changed_mask_ ∧
    (rx_data_chatpad_led_step h s i).joystickType_ = s.joystickType_ := by
  unfold rx_data_chatpad_led_step queue_const
  split_ifs <;> exact ⟨rfl, rfl, rfl⟩

/-- The chatpad LED loop leaves channels, changed mask and family alone. -/
theorem rx_data_chatpad_led_loop_frame (h : Header) (l : List Nat) (s : State) :
    (l.foldl (rx_data_chatpad_led_step h) s).axis = s.axis ∧
    (l.foldl (rx_data_chatpad_led_step h) s).axis_changed_mask_ = s.axis_changed_mask_ ∧
    (l.foldl (rx_data_chatpad_led_step h) s).joystickType_ = s.joystickType_ := by
  induction l generalizing s with
  | nil => exact ⟨rfl, rfl, rfl⟩
  | cons i rest ih =>
    rw [List.foldl_cons]
    obtain ⟨a1, a2, a3⟩ := ih (rx_data_chatpad_led_step h s i)
    obtain ⟨b1, b2, b3⟩ := rx_data_chatpad_led_step_frame h s i
    exact ⟨a1.trans b1, a2.trans b2, a3.trans b3⟩

/-- The chatpad LED status block leaves channels, changed mask and family alone. -/
theorem rx_data_chatpad_leds_frame (h : Header) (s : State) (t : Transfer_t) :
    (rx_data_chatpad_leds h s t).axis = s.axis ∧
    (rx_data_chatpad_leds h s t).axis_changed_mask_ = s.axis_changed_mask_ ∧
    (rx_data_chatpad_leds h s t).joystickType_ = s.joystickType_ := by
  unfold rx_data_chatpad_leds
  simp only
  by_cases hl : u8 t.buffer 26 &&& 0x80 ≠ 0
  · rw [if_pos hl]
    exact rx_data_chatpad_led_loop_frame h _ _
  · rw [if_neg hl]
    exact ⟨rfl, rfl, rfl⟩

/-- On a controller-input report the XBOX360 branch changes channels and changed mask exactly as its controller-data block does, and keeps the family. -/
theorem rx_data_xbox360_input (h : Header) (s : State) (t : Transfer_t)
    (ht : xbox360_input_report t) :
    (rx_data_xbox360 h s t).axis = (rx_data_xbox360_block 6 8 10 s t).axis ∧
    (rx_data_xbox360 h s t).axis_changed_mask_ =
      (rx_data_xbox360_block 6 8 10 s t).axis_changed_mask_ ∧
    (rx_data_xbox360 h s t).joystickType_ = s.joystickType_ := by
  obtain ⟨n1, n2, n3, n4, n5, p6, p7⟩ := ht
  unfold rx_data_xbox360
  simp only
  rw [if_neg n1, if_neg n2, if_neg n3, if_neg n4, if_neg n5, if_pos p6, if_pos p7]
  rw [← rx_data_xbox360_block_joystickType 6 8 10 s t]
  generalize rx_data_xbox360_block 6 8 10 s t = r
  split_ifs
  all_goals first
    | exact ⟨rfl, rfl, rfl⟩
    | exact rx_data_chatpad_leds_frame h r t
    | exact rx_data_chatpad_leds_frame h (queue_const xbox360w_chatpad_init r) t

/-- On a controller-input report the XBOX360_WIRED branch is its controller-data block. -/
theorem rx_data_xbox360_wired_input (h : Header) (s : State) (t : Transfer_t)
    (ht : xbox360_wired_input_report t) :
    rx_data_xbox360_wired h s t = rx_data_xbox360_block 2 4 6 s t := by
  obtain ⟨n1, n2, p3⟩ := ht
  unfold rx_data_xbox360_wired
  simp only
  rw [if_neg n1, if_neg n2, if_pos p3]

/-- The channels after the XBOXDUKE decoder accepted a buffer. -/
theorem rx_data_xboxduke_axis (s : State) (t : Transfer_t) (ht : xboxduke_input_report t) :
    (rx_data_xboxduke s t).axis =
      Function.update (Function.update (Function.update (Function.update
      (Function.update (Function.update (Function.update (Function.update
      (Function.update (Function.update (Function.update (Function.update s.axis
        0 (u8 t.buffer 4 : Int)) 1 (u8 t.buffer 5 : Int)) 2 (u8 t.buffer 6 : Int))
        3 (u8 t.buffer 7 : Int)) 4 (u8 t.buffer 8 : Int)) 5 (u8 t.buffer 9 : Int))
        6 (u8 t.buffer 10 : Int)) 7 (u8 t.buffer 11 : Int))
        8 (i16 t.buffer 12)) 9 (i16 t.buffer 14)) 10 (i16 t.buffer 16))
        11 (i16 t.buffer 18) := by
  unfold rx_data_xboxduke xboxduke_input_report at *
  simp only [ht, and_self, if_true]
  simp only [List.range, List.range.loop, List.range', List.foldl, axis_store_axis]
  split_ifs <;> simp [axis_store_axis]

/-- The XBOXDUKE decoder does not touch the family. -/
theorem rx_data_xboxduke_joystickType (s : State) (t : Transfer_t) :
    (rx_data_xboxduke s t).joystickType_ = s.joystickType_ := by
  unfold rx_data_xboxduke
  simp only [List.range, List.range.loop, List.range', List.foldl]
  split_ifs <;> simp [axis_store_joystickType]

/-- When the twelve channels already hold the decoded values, the XBOXDUKE decoder leaves the changed mask empty. -/
theorem rx_data_xboxduke_fix (s : State) (t : Transfer_t) (ht : xboxduke_input_report t)
    (h0 : s.axis 0 = (u8 t.buffer 4 : Int)) (h1 : s.axis 1 = (u8 t.buffer 5 : Int))
    (h2 : s.axis 2 = (u8 t.buffer 6 : Int)) (h3 : s.axis 3 = (u8 t.buffer 7 : Int))
    (h4 : s.axis 4 = (u8 t.buffer 8 : Int)) (h5 : s.axis 5 = (u8 t.buffer 9 : Int))
    (h6 : s.axis 6 = (u8 t.buffer 10 : Int)) (h7 : s.axis 7 = (u8 t.buffer 11 : Int))
    (h8 : s.axis 8 = i16 t.buffer 12) (h9 : s.axis 9 = i16 t.buffer 14)
    (h10 : s.axis 10 = i16 t.buffer 16) (h11 : s.axis 11 = i16 t.buffer 18) :
    (rx_data_xboxduke s t).axis_changed_mask_ = 0 := by
  unfold rx_data_xboxduke xboxduke_input_report at *
  simp only [ht, and_self, if_true]
  simp only [List.range, List.range.loop, List.range', List.foldl]
  split_ifs <;> simp_all [axis_store]

/-- Running the XBOXDUKE decoder on channels it produced from the same buffer leaves the changed mask empty. -/
theorem rx_data_xboxduke_twice (s s1 : State) (t : Transfer_t) (ht : xboxduke_input_report t)
    (h : s1.axis = (rx_data_xboxduke s t).axis) :
    (rx_data_xboxduke s1 t).axis_changed_mask_ = 0 := by
  rw [rx_data_xboxduke_axis s t ht] at h
  apply rx_data_xboxduke_fix s1 t ht <;> rw [h] <;> simp [Function.update]

/-- C10: raw class-specific decode is idempotent on change flags: for each of the families
XBOXONE, XBOX360 (wireless), XBOX360_WIRED and XBOXDUKE, every prior state and every receive
buffer the family's branch of `rx_data` decodes as a controller-input report, calling `rx_data`
twice in a row with the same bytes and length leaves `axis_changed_mask_` equal to 0 after the
second call. -/
theorem C10_raw_decode_twice_no_change (h : Header) (s : State) (t : Transfer_t) :
    (s.joystickType_ = XBOXONE → xboxone_input_report t →
      (rx_data h (rx_data h s t) t).axis_changed_mask_ = 0) ∧
    (s.joystickType_ = XBOX360 → xbox360_input_report t →
      (rx_data h (rx_data h s t) t).axis_changed_mask_ = 0) ∧
    (s.joystickType_ = XBOX360_WIRED → xbox360_wired_input_report t →
      (rx_data h (rx_data h s t) t).axis_changed_mask_ = 0) ∧
    (s.joystickType_ = XBOXDUKE → xboxduke_input_report t →
      (rx_data h (rx_data h s t) t).axis_changed_mask_ = 0) := by
  refine ⟨?_, ?_, ?_, ?_⟩
  · intro hf ht
    have h1 : (rx_data h s t).joystickType_ = XBOXONE := by
      simp [rx_data, hf, rx_data_xboxone_joystickType]
    have h2 : (rx_data h s t).axis = (rx_data_xboxone s t).axis := by
      simp [rx_data, hf]
    have h3 := rx_data_xboxone_twice s (rx_data h s t) t ht h2
    generalize rx_data h s t = s1 at h1 h3
    simp [rx_data, h1, h3]
  · intro hf ht
    obtain ⟨a1, _, a3⟩ := rx_data_xbox360_input h s t ht
    have h1 : (rx_data h s t).joystickType_ = XBOX360 := by
      simp [rx_data, hf, a3]
    have h2 : (rx_data h s t).axis = (rx_data_xbox360_block 6 8 10 s t).axis := by
      simp [rx_data, hf, a1]
    have h3 := rx_data_xbox360_block_twice 6 8 10 s (rx_data h s t) t h2
    generalize rx_data h s t = s1 at h1 h3
    obtain ⟨_, b2, _⟩ := rx_data_xbox360_input h s1 t ht
    simp [rx_data, h1, b2, h3]
  · intro hf ht
    have h1 : (rx_data h s t).joystickType_ = XBOX360_WIRED := by
      simp [rx_data, hf, rx_data_xbox360_wired_input h s t ht,
        rx_data_xbox360_block_joystickType]
    have h2 : (rx_data h s t).axis = (rx_data_xbox360_block 2 4 6 s t).axis := by
      simp [rx_data, hf, rx_data_xbox360_wired_input h s t ht]
    have h3 := rx_data_xbox360_block_twice 2 4 6 s (rx_data h s t) t h2
    generalize rx_data h s t = s1 at h1 h3
    simp [rx_data, h1, rx_data_xbox360_wired_input h s1 t ht, h3]
  · intro hf ht
    have h1 : (rx_data h s t).joystickType_ = XBOXDUKE := by
      simp [rx_data, hf, rx_data_xboxduke_joystickType]
    have h2 : (rx_data h s t).axis = (rx_data_xboxduke s t).axis := by
      simp [rx_data, hf]
    have h3 := rx_data_xboxduke_twice s (rx_data h s t) t ht h2
    generalize rx_data h s t = s1 at h1 h3
    simp [rx_data, h1, h3]

/-- C10 at concrete inputs, one controller-input report per family: an XBOXONE report
(`20 00 ..`, 18 bytes), an XBOX360 wireless report (`00 01 00 F0 00 13 ..`), an XBOX360 wired
report (`00 14 ..`) and a Duke report (`00 14 ..`), each decoded twice from a fresh state. -/
theorem C10_raw_decode_twice_no_change_witness :
    (rx_data Header.sample
      (rx_data Header.sample { State.fresh with joystickType_ := XBOXONE }
        ⟨buffer_of [0x20, 0x00, 0xC5, 0x0E, 0x40, 0x00, 0x10, 0x00, 0x00, 0x00, 0xF0, 0x06,
                    0xAD, 0xFB, 0x7A, 0x0A, 0xDD, 0xF7], 18⟩)
      ⟨buffer_of [0x20, 0x00, 0xC5, 0x0E, 0x40, 0x00, 0x10, 0x00, 0x00, 0x00, 0xF0, 0x06,
                  0xAD, 0xFB, 0x7A, 0x0A, 0xDD, 0xF7], 18⟩).axis_changed_mask_ = 0 ∧
    (rx_data Header.sample
      (rx_data Header.sample { State.fresh with joystickType_ := XBOX360 }
        ⟨buffer_of [0x00, 0x01, 0x00, 0xF0, 0x00, 0x13, 0x01, 0x10, 0x7F, 0x00, 0x34, 0x12,
                    0x00, 0x80, 0xFF, 0x7F, 0x01, 0x00], 29⟩)
      ⟨buffer_of [0x00, 0x01, 0x00, 0xF0, 0x00, 0x13, 0x01, 0x10, 0x7F, 0x00, 0x34, 0x12,
                  0x00, 0x80, 0xFF, 0x7F, 0x01, 0x00], 29⟩).axis_changed_mask_ = 0 ∧
    (rx_data Header.sample
      (rx_data Header.sample { State.fresh with joystickType_ := XBOX360_WIRED }
        ⟨buffer_of [0x00, 0x14, 0x01, 0x10, 0x7F, 0x00, 0x34, 0x12, 0x00, 0x80, 0xFF, 0x7F,
                    0x01, 0x00], 20⟩)
      ⟨buffer_of [0x00, 0x14, 0x01, 0x10, 0x7F, 0x00, 0x34, 0x12, 0x00, 0x80, 0xFF, 0x7F,
                  0x01, 0x00], 20⟩).axis_changed_mask_ = 0 ∧
    (rx_data Header.sample
      (rx_data Header.sample { State.fresh with joystickType_ := XBOXDUKE }
        ⟨buffer_of [0x00, 0x14, 0x01, 0x00, 0xFF, 0x00, 0x10, 0x00, 0x00, 0x00, 0x7F, 0x80,
                    0x34, 0x12, 0x00, 0x80, 0xFF, 0x7F, 0x01, 0x00], 20⟩)
      ⟨buffer_of [0x00, 0x14, 0x01, 0x00, 0xFF, 0x00, 0x10, 0x00, 0x00, 0x00, 0x7F, 0x80,
                  0x34, 0x12, 0x00, 0x80, 0xFF, 0x7F, 0x01, 0x00], 20⟩).axis_changed_mask_ = 0 :=
  ⟨(C10_raw_decode_twice_no_change Header.sample { State.fresh with joystickType_ := XBOXONE }
      ⟨buffer_of [0x20, 0x00, 0xC5, 0x0E, 0x40, 0x00, 0x10, 0x00, 0x00, 0x00, 0xF0, 0x06,
                  0xAD, 0xFB, 0x7A, 0x0A, 0xDD, 0xF7], 18⟩).1 rfl
      (by unfold xboxone_input_report; decide),
   (C10_raw_decode_twice_no_change Header.sample { State.fresh with joystickType_ := XBOX360 }
      ⟨buffer_of [0x00, 0x01, 0x00, 0xF0, 0x00, 0x13, 0x01, 0x10, 0x7F, 0x00, 0x34, 0x12,
                  0x00, 0x80, 0xFF, 0x7F, 0x01, 0x00], 29⟩).2.1 rfl
      (by unfold xbox360_input_report; decide),
   (C10_raw_decode_twice_no_change Header.sample
      { State.fresh with joystickType_ := XBOX360_WIRED }
      ⟨buffer_of [0x00, 0x14, 0x01, 0x10, 0x7F, 0x00, 0x34, 0x12, 0x00, 0x80, 0xFF, 0x7F,
                  0x01, 0x00], 20⟩).2.2.1 rfl
      (by unfold xbox360_wired_input_report; decide),
   (C10_raw_decode_twice_no_change Header.sample { State.fresh with joystickType_ := XBOXDUKE }
      ⟨buffer_of [0x00, 0x14, 0x01, 0x00, 0xFF, 0x00, 0x10, 0x00, 0x00, 0x00, 0x7F, 0x80,
                  0x34, 0x12, 0x00, 0x80, 0xFF, 0x7F, 0x01, 0x00], 20⟩).2.2.2 rfl
      (by unfold xboxduke_input_report; decide)⟩

/-- The statement `axis_store` does not touch `buttons`. -/
theorem axis_store_buttons (flag : Bool) (i : Nat) (v : Int) (s : State) :
    (axis_store flag i v s).buttons = s.buttons := by
  unfold axis_store
  split_ifs <;> rfl

/-- The statement `bt_buttons` leaves channels, both masks and the family alone. -/
theorem bt_buttons_frame (c : Nat) (s : State) :
    (bt_buttons c s).axis = s.axis ∧
    (bt_buttons c s).axis_changed_mask_ = s.axis_changed_mask_ ∧
    (bt_buttons c s).axis_mask_ = s.axis_mask_ ∧
    (bt_buttons c s).joystickType_ = s.joystickType_ := by
  unfold bt_buttons
  split_ifs <;> exact ⟨rfl, rfl, rfl, rfl⟩

/-- The Bluetooth channel loop leaves `buttons` and the family alone. -/
theorem bt_axis_loop_frame (src : Nat → Nat) (shift : Nat) (n i mask : Nat) (s : State) :
    (bt_axis_loop src shift n i mask s).buttons = s.buttons ∧
    (bt_axis_loop src shift n i mask s).joystickType_ = s.joystickType_ := by
  induction n generalizing i mask s with
  | zero => exact ⟨rfl, rfl⟩
  | succ n ih =>
    unfold bt_axis_loop
    simp only
    split_ifs
    · exact ih _ _ _
    · exact ih _ _ _

/-- The statements of `bt_sticks` leave `buttons` and the family alone. -/
theorem bt_sticks_frame (src : Nat → Nat) (a b c d : Nat) (s : State) :
    (bt_sticks src a b c d s).buttons = s.buttons ∧
    (bt_sticks src a b c d s).joystickType_ = s.joystickType_ := by
  unfold bt_sticks
  simp only [List.range, List.range.loop, List.foldl, axis_store_buttons,
    axis_store_joystickType, and_self]

/-- The decode of report 0x01 does not touch the family. -/
theorem bt_report01_frame (s : State) (data : Nat → Nat) (length : Nat) :
    (bt_report01 s data length).joystickType_ = s.joystickType_ := by
  unfold bt_report01
  split_ifs <;>
    simp [(bt_axis_loop_frame _ _ _ _ _ _).2, (bt_sticks_frame _ _ _ _ _ _).2,
      (bt_buttons_frame _ _).2.2.2]

/-- For report id 0x01 the channels, buttons and masks after `process_bluetooth_HID_data` are
those after `bt_report01` on the limited length, and the family is kept. -/
theorem process_bluetooth_report01 (stack : Nat → Nat) (s : State) (data : Nat → Nat)
    (length : Nat) (h1 : u8 data 0 = 1) :
    (process_bluetooth_HID_data stack s data length).1.axis =
      (bt_report01 s data (if length > TOTAL_AXIS_COUNT then TOTAL_AXIS_COUNT
        else length)).axis ∧
    (process_bluetooth_HID_data stack s data length).1.buttons =
      (bt_report01 s data (if length > TOTAL_AXIS_COUNT then TOTAL_AXIS_COUNT
        else length)).buttons ∧
    (process_bluetooth_HID_data stack s data length).1.axis_changed_mask_ =
      (bt_report01 s data (if length > TOTAL_AXIS_COUNT then TOTAL_AXIS_COUNT
        else length)).axis_changed_mask_ ∧
    (process_bluetooth_HID_data stack s data length).1.axis_mask_ =
      (bt_report01 s data (if length > TOTAL_AXIS_COUNT then TOTAL_AXIS_COUNT
        else length)).axis_mask_ ∧
    (process_bluetooth_HID_data stack s data length).1.joystickType_ = s.joystickType_ := by
  unfold process_bluetooth_HID_data
  rw [if_pos h1]
  simp only
  rw [← bt_report01_frame s data (if length > TOTAL_AXIS_COUNT then TOTAL_AXIS_COUNT
    else length)]
  split_ifs <;> exact ⟨rfl, rfl, rfl, rfl, rfl⟩

/-- C13, the code at the failing input: a PS3_MOTION connection in a fresh state (changed mask
0) decodes the report-0x01 block `01 00 00 00 00 07` of length 6.  Channel `axis[0]` changes
from 0 to 7, yet bit 0 of `axis_changed_mask_` stays clear; the mask is `1 << 10`, although
`axis[10]` did not change. -/
theorem C13_ps3_motion_changed_bit_offset :
    ({ State.fresh with joystickType_ := PS3_MOTION } : State).axis_changed_mask_ = 0 ∧
    (process_bluetooth_HID_data (fun _ => 0) { State.fresh with joystickType_ := PS3_MOTION }
      (buffer_of [0x01, 0x00, 0x00, 0x00, 0x00, 0x07]) 6).1.axis 0 = 7 ∧
    ({ State.fresh with joystickType_ := PS3_MOTION } : State).axis 0 = 0 ∧
    (process_bluetooth_HID_data (fun _ => 0) { State.fresh with joystickType_ := PS3_MOTION }
      (buffer_of [0x01, 0x00, 0x00, 0x00, 0x00, 0x07]) 6).1.axis_changed_mask_.testBit 0
        = false ∧
    (process_bluetooth_HID_data (fun _ => 0) { State.fresh with joystickType_ := PS3_MOTION }
      (buffer_of [0x01, 0x00, 0x00, 0x00, 0x00, 0x07]) 6).1.axis_changed_mask_ = 2 ^ 10 ∧
    (process_bluetooth_HID_data (fun _ => 0) { State.fresh with joystickType_ := PS3_MOTION }
      (buffer_of [0x01, 0x00, 0x00, 0x00, 0x00, 0x07]) 6).1.axis 10 = 0 := by
  decide

/-- One `axis_store` on a channel not written before keeps the changed mask equal to the set of
channels that differ from the reference array. -/
theorem axis_store_tracks (a0 : Nat → Int) (flag : Bool) (i : Nat) (v : Int) (s : State)
    (htrack : ∀ j, s.axis_changed_mask_.testBit j = decide (s.axis j ≠ a0 j))
    (hi : s.axis i = a0 i) :
    ∀ j, (axis_store flag i v s).axis_changed_mask_.testBit j =
      decide ((axis_store flag i v s).axis j ≠ a0 j) := by
  intro j
  unfold axis_store
  by_cases h : s.axis i = v
  · simp only [ne_eq, h, not_true_eq_false, if_false]
    exact htrack j
  · simp only [ne_eq, h, not_false_eq_true, if_true]
    rw [Nat.testBit_or, Nat.one_shiftLeft, Nat.testBit_two_pow, htrack j]
    by_cases hj : j = i
    · subst hj
      have : v ≠ a0 j := fun e => h (hi.trans e.symm)
      simp [this]
    · have hne : ¬ (i = j) := fun e => hj e.symm
      simp [Function.update_noteq hj, hne]

/-- After the XBOX360 controller-data block the changed mask is the set of channels that differ
from their value before the block. -/
theorem rx_data_xbox360_block_tracks (ob ol oa : Nat) (s : State) (t : Transfer_t) :
    ∀ j, (rx_data_xbox360_block ob ol oa s t).axis_changed_mask_.testBit j =
      decide ((rx_data_xbox360_block ob ol oa s t).axis j ≠ s.axis j) := by
  unfold rx_data_xbox360_block
  simp only [List.range, List.range.loop, List.foldl]
  have base : ∀ s0 : State, s0.axis = s.axis → s0.axis_changed_mask_ = 0 →
      ∀ j, (axis_store true 5 (u8 t.buffer (ol + 1))
        (axis_store true 4 (u8 t.buffer ol)
        (axis_store true 3 (i16 t.buffer (oa + 2 * 3))
        (axis_store true 2 (i16 t.buffer (oa + 2 * 2))
        (axis_store true 1 (i16 t.buffer (oa + 2 * 1))
        (axis_store true 0 (i16 t.buffer (oa + 2 * 0)) s0)))))).axis_changed_mask_.testBit j =
      decide ((axis_store true 5 (u8 t.buffer (ol + 1))
        (axis_store true 4 (u8 t.buffer ol)
        (axis_store true 3 (i16 t.buffer (oa + 2 * 3))
        (axis_store true 2 (i16 t.buffer (oa + 2 * 2))
        (axis_store true 1 (i16 t.buffer (oa + 2 * 1))
        (axis_store true 0 (i16 t.buffer (oa + 2 * 0)) s0)))))).axis j ≠ s.axis j) := by
    intro s0 hax hcm
    refine axis_store_tracks _ _ _ _ _ (axis_store_tracks _ _ _ _ _ (axis_store_tracks _ _ _ _ _
      (axis_store_tracks _ _ _ _ _ (axis_store_tracks _ _ _ _ _
      (axis_store_tracks _ _ _ _ _ ?_ ?_) ?_) ?_) ?_) ?_) ?_
    · intro j
      simp [hcm, hax]
    all_goals simp [axis_store_axis, hax]
  split_ifs <;> exact base _ rfl rfl

/-- After the XBOXONE decoder accepted a buffer the changed mask is the set of channels that
differ from their value before the call. -/
theorem rx_data_xboxone_tracks (s : State) (t : Transfer_t) (ht : xboxone_input_report t) :
    ∀ j, (rx_data_xboxone s t).axis_changed_mask_.testBit j =
      decide ((rx_data_xboxone s t).axis j ≠ s.axis j) := by
  unfold rx_data_xboxone xboxone_input_report at *
  simp only [ht, and_self, if_true]
  simp only [xbox_axis_order_mapping, List.length, List.range, List.range.loop, List.foldl,
    List.getD_cons_zero, List.getD_cons_succ, Nat.reduceLT, Nat.reduceMul,
    Nat.reduceAdd, if_true, if_false]
  have base : ∀ s0 : State, s0.axis = s.axis → s0.axis_changed_mask_ = 0 →
      ∀ j, (axis_store true 5 (i16 t.buffer 16)
        (axis_store true 2 (i16 t.buffer 14)
        (axis_store true 1 (i16 t.buffer 12)
        (axis_store true 0 (i16 t.buffer 10)
        (axis_store true 4 (u16 t.buffer 8 : Int)
        (axis_store true 3 (u16 t.buffer 6 : Int) s0)))))).axis_changed_mask_.testBit j =
      decide ((axis_store true 5 (i16 t.buffer 16)
        (axis_store true 2 (i16 t.buffer 14)
        (axis_store true 1 (i16 t.buffer 12)
        (axis_store true 0 (i16 t.buffer 10)
        (axis_store true 4 (u16 t.buffer 8 : Int)
        (axis_store true 3 (u16 t.buffer 6 : Int) s0)))))).axis j ≠ s.axis j) := by
    intro s0 hax hcm
    refine axis_store_tracks _ _ _ _ _ (axis_store_tracks _ _ _ _ _ (axis_store_tracks _ _ _ _ _
      (axis_store_tracks _ _ _ _ _ (axis_store_tracks _ _ _ _ _
      (axis_store_tracks _ _ _ _ _ ?_ ?_) ?_) ?_) ?_) ?_) ?_
    · intro j
      simp [hcm, hax]
    all_goals simp [axis_store_axis, hax]
  split_ifs <;> exact base _ rfl rfl

/-- After the XBOXDUKE decoder accepted a buffer the changed mask is the set of channels that
differ from their value before the call. -/
theorem rx_data_xboxduke_tracks (s : State) (t : Transfer_t) (ht : xboxduke_input_report t) :
    ∀ j, (rx_data_xboxduke s t).axis_changed_mask_.testBit j =
      decide ((rx_data_xboxduke s t).axis j ≠ s.axis j) := by
  unfold rx_data_xboxduke xboxduke_input_report at *
  simp only [ht, and_self, if_true]
  simp only [List.range, List.range.loop, List.range', List.foldl, Nat.reduceAdd,
    Nat.reduceSub, Nat.reduceMul]
  have base : ∀ s0 : State, s0.axis = s.axis → s0.axis_changed_mask_ = 0 →
      ∀ j, (axis_store false 11 (i16 t.buffer 18)
        (axis_store false 10 (i16 t.buffer 16)
        (axis_store false 9 (i16 t.buffer 14)
        (axis_store false 8 (i16 t.buffer 12)
        (axis_store false 7 (u8 t.buffer 11 : Int)
        (axis_store false 6 (u8 t.buffer 10 : Int)
        (axis_store false 5 (u8 t.buffer 9 : Int)
        (axis_store false 4 (u8 t.buffer 8 : Int)
        (axis_store false 3 (u8 t.buffer 7 : Int)
        (axis_store false 2 (u8 t.buffer 6 : Int)
        (axis_store false 1 (u8 t.buffer 5 : Int)
        (axis_store false 0 (u8 t.buffer 4 : Int)
          s0)))))))))))).axis_changed_mask_.testBit j =
      decide ((axis_store false 11 (i16 t.buffer 18)
        (axis_store false 10 (i16 t.buffer 16)
        (axis_store false 9 (i16 t.buffer 14)
        (axis_store false 8 (i16 t.buffer 12)
        (axis_store false 7 (u8 t.buffer 11 : Int)
        (axis_store false 6 (u8 t.buffer 10 : Int)
        (axis_store false 5 (u8 t.buffer 9 : Int)
        (axis_store false 4 (u8 t.buffer 8 : Int)
        (axis_store false 3 (u8 t.buffer 7 : Int)
        (axis_store false 2 (u8 t.buffer 6 : Int)
        (axis_store false 1 (u8 t.buffer 5 : Int)
        (axis_store false 0 (u8 t.buffer 4 : Int)
          s0)))))))))))).axis j ≠ s.axis j) := by
    intro s0 hax hcm
    refine axis_store_tracks _ _ _ _ _ (axis_store_tracks _ _ _ _ _ (axis_store_tracks _ _ _ _ _
      (axis_store_tracks _ _ _ _ _ (axis_store_tracks _ _ _ _ _ (axis_store_tracks _ _ _ _ _
      (axis_store_tracks _ _ _ _ _ (axis_store_tracks _ _ _ _ _ (axis_store_tracks _ _ _ _ _
      (axis_store_tracks _ _ _ _ _ (axis_store_tracks _ _ _ _ _
      (axis_store_tracks _ _ _ _ _ ?_ ?_) ?_) ?_) ?_) ?_) ?_) ?_) ?_) ?_) ?_) ?_) ?_
    · intro j
      simp [hcm, hax]
    all_goals simp [axis_store_axis, hax]
  split_ifs <;> exact base _ rfl rfl

/-- C12: for each raw family (XBOXONE, XBOX360 wireless, XBOX360_WIRED, XBOXDUKE), every prior
state and every buffer accepted as a controller-input report, after `rx_data` bit `i` of
`axis_changed_mask_` is set exactly when `axis[i]` after the call differs from `axis[i]` before
the call (for XBOXONE the channels are reached through `xbox_axis_order_mapping`). -/
theorem C12_raw_changed_mask_exact (h : Header) (s : State) (t : Transfer_t) :
    (s.joystickType_ = XBOXONE → xboxone_input_report t →
      ∀ i, (rx_data h s t).axis_changed_mask_.testBit i =
        decide ((rx_data h s t).axis i ≠ s.axis i)) ∧
    (s.joystickType_ = XBOX360 → xbox360_input_report t →
      ∀ i, (rx_data h s t).axis_changed_mask_.testBit i =
        decide ((rx_data h s t).axis i ≠ s.axis i)) ∧
    (s.joystickType_ = XBOX360_WIRED → xbox360_wired_input_report t →
      ∀ i, (rx_data h s t).axis_changed_mask_.testBit i =
        decide ((rx_data h s t).axis i ≠ s.axis i)) ∧
    (s.joystickType_ = XBOXDUKE → xboxduke_input_report t →
      ∀ i, (rx_data h s t).axis_changed_mask_.testBit i =
        decide ((rx_data h s t).axis i ≠ s.axis i)) := by
  refine ⟨?_, ?_, ?_, ?_⟩
  · intro hf ht i
    have := rx_data_xboxone_tracks s t ht i
    simpa [rx_data, hf] using this
  · intro hf ht i
    obtain ⟨a1, a2, _⟩ := rx_data_xbox360_input h s t ht
    have := rx_data_xbox360_block_tracks 6 8 10 s t i
    simpa [rx_data, hf, a1, a2] using this
  · intro hf ht i
    have := rx_data_xbox360_block_tracks 2 4 6 s t i
    simpa [rx_data, hf, rx_data_xbox360_wired_input h s t ht] using this
  · intro hf ht i
    have := rx_data_xboxduke_tracks s t ht i
    simpa [rx_data, hf] using this

/-- C12 at a concrete input: an XBOXONE report decoded from a fresh state; bit 3 (left
trigger) of the changed mask tells whether `axis[3]` changed. -/
theorem C12_raw_changed_mask_exact_witness :
    (rx_data Header.sample { State.fresh with joystickType_ := XBOXONE }
      ⟨buffer_of [0x20, 0x00, 0xC5, 0x0E, 0x40, 0x00, 0x10, 0x00, 0x00, 0x00, 0xF0, 0x06,
                  0xAD, 0xFB, 0x7A, 0x0A, 0xDD, 0xF7], 18⟩).axis_changed_mask_.testBit 3 =
      decide ((rx_data Header.sample { State.fresh with joystickType_ := XBOXONE }
        ⟨buffer_of [0x20, 0x00, 0xC5, 0x0E, 0x40, 0x00, 0x10, 0x00, 0x00, 0x00, 0xF0, 0x06,
                    0xAD, 0xFB, 0x7A, 0x0A, 0xDD, 0xF7], 18⟩).axis 3 ≠
        ({ State.fresh with joystickType_ := XBOXONE } : State).axis 3) :=
  (C12_raw_changed_mask_exact Header.sample { State.fresh with joystickType_ := XBOXONE }
    ⟨buffer_of [0x20, 0x00, 0xC5, 0x0E, 0x40, 0x00, 0x10, 0x00, 0x00, 0x00, 0xF0, 0x06,
                0xAD, 0xFB, 0x7A, 0x0A, 0xDD, 0xF7], 18⟩).1 rfl
    (by unfold xboxone_input_report; decide) 3

/-- Writing a byte of `txbuf_` leaves both axis masks alone. -/
theorem poke_masks (i v : Nat) (s : State) :
    (poke i v s).axis_mask_ = s.axis_mask_ ∧
    (poke i v s).axis_changed_mask_ = s.axis_changed_mask_ := ⟨rfl, rfl⟩

/-- Copying into `txbuf_` leaves both axis masks alone. -/
theorem memcpy_txbuf_masks (off : Nat) (src : List Nat) (n : Nat) (s : State) :
    (memcpy_txbuf off src n s).axis_mask_ = s.axis_mask_ ∧
    (memcpy_txbuf off src n s).axis_changed_mask_ = s.axis_changed_mask_ := ⟨rfl, rfl⟩

/-- Queueing `txbuf_` leaves both axis masks alone. -/
theorem queue_txbuf_masks (n : Nat) (s : State) :
    (queue_txbuf n s).axis_mask_ = s.axis_mask_ ∧
    (queue_txbuf n s).axis_changed_mask_ = s.axis_changed_mask_ := ⟨rfl, rfl⟩

/-- Queueing a constant packet leaves both axis masks alone. -/
theorem queue_const_masks (d : List Nat) (s : State) :
    (queue_const d s).axis_mask_ = s.axis_mask_ ∧
    (queue_const d s).axis_changed_mask_ = s.axis_changed_mask_ := ⟨rfl, rfl⟩

/-- The PS3 feedback message leaves both axis masks alone. -/
theorem transmitPS3_masks (s : State) :
    (transmitPS3UserFeedbackMsg s).1.axis_mask_ = s.axis_mask_ ∧
    (transmitPS3UserFeedbackMsg s).1.axis_changed_mask_ = s.axis_changed_mask_ := by
  unfold transmitPS3UserFeedbackMsg
  split_ifs <;>
    simp only [(poke_masks _ _ _).1, (poke_masks _ _ _).2, (memcpy_txbuf_masks _ _ _ _).1,
      (memcpy_txbuf_masks _ _ _ _).2, and_self]

/-- The PS3 Motion feedback message leaves both axis masks alone. -/
theorem transmitPS3Motion_masks (s : State) :
    (transmitPS3MotionUserFeedbackMsg s).1.axis_mask_ = s.axis_mask_ ∧
    (transmitPS3MotionUserFeedbackMsg s).1.axis_changed_mask_ = s.axis_changed_mask_ := by
  unfold transmitPS3MotionUserFeedbackMsg
  split_ifs <;>
    simp only [(poke_masks _ _ _).1, (poke_masks _ _ _).2, and_self]

/-- The PS4 feedback message leaves both axis masks alone. -/
theorem transmitPS4_masks (s : State) :
    (transmitPS4UserFeedbackMsg s).1.axis_mask_ = s.axis_mask_ ∧
    (transmitPS4UserFeedbackMsg s).1.axis_changed_mask_ = s.axis_changed_mask_ := by
  unfold transmitPS4UserFeedbackMsg
  split_ifs <;> simp only [and_self]

/-- The function `setLEDs` leaves both axis masks alone. -/
theorem setLEDs_masks (s : State) (lr lg lb : Nat) :
    (setLEDs s lr lg lb).1.axis_mask_ = s.axis_mask_ ∧
    (setLEDs s lr lg lb).1.axis_changed_mask_ = s.axis_changed_mask_ := by
  unfold setLEDs
  split_ifs
  · simp only
    split
    · exact transmitPS3_masks _
    · exact transmitPS3Motion_masks _
    · exact transmitPS4_masks _
    · simp only [(poke_masks _ _ _).1, (poke_masks _ _ _).2, (queue_txbuf_masks _ _).1,
        (queue_txbuf_masks _ _).2, and_self]
    · simp only [(poke_masks _ _ _).1, (poke_masks _ _ _).2, (queue_txbuf_masks _ _).1,
        (queue_txbuf_masks _ _).2, and_self]
    · exact ⟨rfl, rfl⟩
  · exact ⟨rfl, rfl⟩

/-- The one-argument `setLEDs` leaves both axis masks alone. -/
theorem setLEDs1_masks (h : Header) (s : State) (leds : Nat) :
    (setLEDs1 h s leds).axis_mask_ = s.axis_mask_ ∧
    (setLEDs1 h s leds).axis_changed_mask_ = s.axis_changed_mask_ := by
  unfold setLEDs1
  exact setLEDs_masks _ _ _ _

/-- The function `setRumble` leaves both axis masks alone. -/
theorem setRumble_masks (s : State) (l r t : Nat) :
    (setRumble s l r t).1.axis_mask_ = s.axis_mask_ ∧
    (setRumble s l r t).1.axis_changed_mask_ = s.axis_changed_mask_ := by
  unfold setRumble
  simp only
  split
  · exact transmitPS3_masks _
  · exact transmitPS3Motion_masks _
  · exact transmitPS4_masks _
  all_goals
    simp only [(poke_masks _ _ _).1, (poke_masks _ _ _).2, (queue_txbuf_masks _ _).1,
      (queue_txbuf_masks _ _).2, and_self]

/-- The statement `axis_store` does not touch `axis_mask_`. -/
theorem axis_store_axis_mask (flag : Bool) (i : Nat) (v : Int) (s : State) :
    (axis_store flag i v s).axis_mask_ = s.axis_mask_ := by
  unfold axis_store
  split_ifs <;> rfl

/-- The chatpad LED loop does not touch `axis_mask_`. -/
theorem rx_data_chatpad_led_loop_axis_mask (h : Header) (l : List Nat) (s : State) :
    (l.foldl (rx_data_chatpad_led_step h) s).axis_mask_ = s.axis_mask_ := by
  induction l generalizing s with
  | nil => rfl
  | cons i rest ih =>
    rw [List.foldl_cons, ih]
    unfold rx_data_chatpad_led_step queue_const
    split_ifs <;> rfl

/-- The chatpad LED status block does not touch `axis_mask_`. -/
theorem rx_data_chatpad_leds_axis_mask (h : Header) (s : State) (t : Transfer_t) :
    (rx_data_chatpad_leds h s t).axis_mask_ = s.axis_mask_ := by
  unfold rx_data_chatpad_leds
  simp only
  by_cases hl : u8 t.buffer 26 &&& 0x80 ≠ 0
  · rw [if_pos hl]
    exact rx_data_chatpad_led_loop_axis_mask h _ _
  · rw [if_neg hl]

/-- The XBOX360 controller-data block sets `axis_mask_` to 0x3f. -/
theorem rx_data_xbox360_block_axis_mask (ob ol oa : Nat) (s : State) (t : Transfer_t) :
    (rx_data_xbox360_block ob ol oa s t).axis_mask_ = 0x3f := by
  unfold rx_data_xbox360_block
  simp only [List.range, List.range.loop, List.foldl]
  split_ifs <;> simp [axis_store_axis_mask]

/-- The changed mask after the XBOX360 controller-data block does not depend on the changed mask
before it. -/
theorem rx_data_xbox360_block_reset (ob ol oa : Nat) (s : State) (t : Transfer_t) :
    (rx_data_xbox360_block ob ol oa { s with axis_changed_mask_ := 0 } t).axis_changed_mask_ =
      (rx_data_xbox360_block ob ol oa s t).axis_changed_mask_ := by
  apply Nat.eq_of_testBit_eq
  intro j
  rw [rx_data_xbox360_block_tracks, rx_data_xbox360_block_tracks,
    rx_data_xbox360_block_axis, rx_data_xbox360_block_axis]

/-- The XBOXONE decoder forgets the changed mask it starts from. -/
theorem rx_data_xboxone_reset (s : State) (t : Transfer_t) :
    rx_data_xboxone { s with axis_changed_mask_ := 0 } t = rx_data_xboxone s t := by
  unfold rx_data_xboxone
  rfl

/-- The XBOXONE decoder sets `axis_mask_` to 0x3f. -/
theorem rx_data_xboxone_axis_mask (s : State) (t : Transfer_t) :
    (rx_data_xboxone s t).axis_mask_ = 0x3f := by
  unfold rx_data_xboxone
  simp only [xbox_axis_order_mapping, List.length, List.range, List.range.loop, List.foldl]
  split_ifs <;> simp [axis_store_axis_mask]

/-- The changed mask after the XBOXDUKE decoder accepted a buffer does not depend on the changed
mask before it. -/
theorem rx_data_xboxduke_reset (s : State) (t : Transfer_t) (ht : xboxduke_input_report t) :
    (rx_data_xboxduke { s with axis_changed_mask_ := 0 } t).axis_changed_mask_ =
      (rx_data_xboxduke s t).axis_changed_mask_ := by
  apply Nat.eq_of_testBit_eq
  intro j
  rw [rx_data_xboxduke_tracks _ t ht, rx_data_xboxduke_tracks _ t ht,
    rx_data_xboxduke_axis _ t ht, rx_data_xboxduke_axis _ t ht]

/-- The XBOXDUKE branch either leaves both masks alone or decodes an accepted report and sets
`axis_mask_` to 0x3f. -/
theorem rx_data_xboxduke_masks (s : State) (t : Transfer_t) :
    ((rx_data_xboxduke s t).axis_mask_ = s.axis_mask_ ∧
      (rx_data_xboxduke s t).axis_changed_mask_ = s.axis_changed_mask_) ∨
    ((rx_data_xboxduke s t).axis_mask_ = 0x3f ∧ xboxduke_input_report t) := by
  unfold rx_data_xboxduke xboxduke_input_report
  by_cases ht : u8 t.buffer 0 = 0x00 ∧ u8 t.buffer 1 = 0x14
  · right
    refine ⟨?_, ht⟩
    simp only [ht, and_self, if_true]
    simp only [List.range, List.range.loop, List.range', List.foldl]
    split_ifs <;> simp [axis_store_axis_mask]
  · left
    simp only [ht, if_false, and_self]

/-- On a controller-input report the XBOX360 branch sets `axis_mask_` to 0x3f. -/
theorem rx_data_xbox360_input_axis_mask (h : Header) (s : State) (t : Transfer_t)
    (ht : xbox360_input_report t) : (rx_data_xbox360 h s t).axis_mask_ = 0x3f := by
  obtain ⟨n1, n2, n3, n4, n5, p6, p7⟩ := ht
  unfold rx_data_xbox360
  simp only
  rw [if_neg n1, if_neg n2, if_neg n3, if_neg n4, if_neg n5, if_pos p6, if_pos p7]
  rw [← rx_data_xbox360_block_axis_mask 6 8 10 s t]
  generalize rx_data_xbox360_block 6 8 10 s t = r
  split_ifs
  all_goals first
    | rfl
    | exact rx_data_chatpad_leds_axis_mask h r t
    | exact rx_data_chatpad_leds_axis_mask h (queue_const xbox360w_chatpad_init r) t

/-- The XBOX360 branch either leaves both masks alone or decodes an accepted report and sets
`axis_mask_` to 0x3f. -/
theorem rx_data_xbox360_masks (h : Header) (s : State) (t : Transfer_t) :
    ((rx_data_xbox360 h s t).axis_mask_ = s.axis_mask_ ∧
      (rx_data_xbox360 h s t).axis_changed_mask_ = s.axis_changed_mask_) ∨
    ((rx_data_xbox360 h s t).axis_mask_ = 0x3f ∧ xbox360_input_report t) := by
  by_cases ht : xbox360_input_report t
  · exact Or.inr ⟨rx_data_xbox360_input_axis_mask h s t ht, ht⟩
  · left
    unfold xbox360_input_report at ht
    unfold rx_data_xbox360
    simp only
    by_cases c1 : u8 t.buffer 0 = 0x08 ∧ u8 t.buffer 3 = 0xF0
    · rw [if_pos c1]
      by_cases c1a : u8 t.buffer 1 ≠ s.connected_
      · rw [if_pos c1a]
        by_cases c1b : u8 t.buffer 1 ≠ 0
        · rw [if_pos c1b]
          exact ⟨((setLEDs1_masks h _ _).1.trans (setLEDs1_masks h _ _).1),
            ((setLEDs1_masks h _ _).2.trans (setLEDs1_masks h _ _).2)⟩
        · rw [if_neg c1b]
          exact setLEDs1_masks h _ _
      · rw [if_neg c1a]
        exact ⟨rfl, rfl⟩
    · rw [if_neg c1]
      by_cases c2 : u8 t.buffer 1 = 0x00 ∧ u8 t.buffer 3 &&& 0x13 ≠ 0 ∧ u8 t.buffer 4 ≥ 0x22
      · rw [if_pos c2]; exact ⟨rfl, rfl⟩
      · rw [if_neg c2]
        by_cases c3 : u8 t.buffer 1 = 0x00 ∧ u8 t.buffer 3 = 0xF0
        · rw [if_pos c3]; exact ⟨rfl, rfl⟩
        · rw [if_neg c3]
          by_cases c4 : u8 t.buffer 1 = 0x0F ∧ u8 t.buffer 3 = 0xF0
          · rw [if_pos c4]; exact ⟨rfl, rfl⟩
          · rw [if_neg c4]
            by_cases c5 : u8 t.buffer 1 = 0xF8
            · rw [if_pos c5]; exact ⟨rfl, rfl⟩
            · rw [if_neg c5]
              by_cases c6 : u8 t.buffer 1 &&& 3 ≠ 0
              · rw [if_pos c6]
                have c7 : ¬ (u8 t.buffer 1 &&& 1 ≠ 0 ∧ u8 t.buffer 5 = 0x13) :=
                  fun c7 => ht ⟨c1, c2, c3, c4, c5, c6, c7⟩
                rw [if_neg c7]
                split_ifs
                all_goals first
                  | exact ⟨rfl, rfl⟩
                  | exact ⟨rx_data_chatpad_leds_axis_mask h _ t,
                      (rx_data_chatpad_leds_frame h _ t).2.1⟩
              · rw [if_neg c6]; exact ⟨rfl, rfl⟩

/-- The XBOX360_WIRED branch either leaves both masks alone or decodes an accepted report and
sets `axis_mask_` to 0x3f. -/
theorem rx_data_xbox360_wired_masks (h : Header) (s : State) (t : Transfer_t) :
    ((rx_data_xbox360_wired h s t).axis_mask_ = s.axis_mask_ ∧
      (rx_data_xbox360_wired h s t).axis_changed_mask_ = s.axis_changed_mask_) ∨
    ((rx_data_xbox360_wired h s t).axis_mask_ = 0x3f ∧ xbox360_wired_input_report t) := by
  by_cases ht : xbox360_wired_input_report t
  · right
    rw [rx_data_xbox360_wired_input h s t ht]
    exact ⟨rx_data_xbox360_block_axis_mask 2 4 6 s t, ht⟩
  · left
    unfold xbox360_wired_input_report at ht
    unfold rx_data_xbox360_wired
    simp only
    by_cases c1 : u8 t.buffer 0 = 0x03 ∧ u8 t.buffer 1 = 0x03
    · rw [if_pos c1]
      exact setRumble_masks s 0 0 0
    · rw [if_neg c1]
      by_cases c2 : u8 t.buffer 0 = 0x01 ∧ u8 t.buffer 1 = 0x03
      · rw [if_pos c2]
        by_cases c2a : u8 t.buffer 2 = 0x0E
        · rw [if_pos c2a]
          exact ⟨((setLEDs1_masks h _ _).1.trans (setLEDs1_masks h _ _).1),
            ((setLEDs1_masks h _ _).2.trans (setLEDs1_masks h _ _).2)⟩
        · rw [if_neg c2a]
          exact ⟨rfl, rfl⟩
      · rw [if_neg c2]
        have c3 : ¬ (u8 t.buffer 0 = 0x00 ∧ u8 t.buffer 1 = 0x14) := fun c3 => ht ⟨c1, c2, c3⟩
        rw [if_neg c3]
        exact ⟨rfl, rfl⟩

/-- What `rx_data` does to the two masks: `axis_mask_` is kept or becomes 0x3f, the changed mask
is kept or recomputed without regard to its old value. -/
theorem rx_data_masks (h : Header) (s : State) (t : Transfer_t) :
    ((rx_data h s t).axis_mask_ = s.axis_mask_ ∨ (rx_data h s t).axis_mask_ = 0x3f) ∧
    ((rx_data h s t).axis_changed_mask_ = s.axis_changed_mask_ ∨
      (rx_data h s t).axis_changed_mask_ =
        (rx_data h { s with axis_changed_mask_ := 0 } t).axis_changed_mask_) := by
  by_cases f1 : s.joystickType_ = XBOXONE
  · have e1 : (rx_data h s t).axis_mask_ = (rx_data_xboxone s t).axis_mask_ := by
      simp [rx_data, f1]
    have e2 : (rx_data h s t).axis_changed_mask_ = (rx_data_xboxone s t).axis_changed_mask_ := by
      simp [rx_data, f1]
    have e3 : (rx_data h { s with axis_changed_mask_ := 0 } t).axis_changed_mask_ =
        (rx_data_xboxone { s with axis_changed_mask_ := 0 } t).axis_changed_mask_ := by
      simp [rx_data, f1]
    rw [e1, e2, e3, rx_data_xboxone_reset, rx_data_xboxone_axis_mask]
    exact ⟨Or.inr rfl, Or.inr rfl⟩
  · by_cases f2 : s.joystickType_ = XBOX360
    · have e1 : (rx_data h s t).axis_mask_ = (rx_data_xbox360 h s t).axis_mask_ := by
        simp [rx_data, f2]
      have e2 : (rx_data h s t).axis_changed_mask_ =
          (rx_data_xbox360 h s t).axis_changed_mask_ := by
        simp [rx_data, f2]
      have e3 : (rx_data h { s with axis_changed_mask_ := 0 } t).axis_changed_mask_ =
          (rx_data_xbox360 h { s with axis_changed_mask_ := 0 } t).axis_changed_mask_ := by
        simp [rx_data, f2]
      rw [e1, e2, e3]
      rcases rx_data_xbox360_masks h s t with ⟨a, b⟩ | ⟨a, ht⟩
      · exact ⟨Or.inl a, Or.inl b⟩
      · refine ⟨Or.inr a, Or.inr ?_⟩
        rw [(rx_data_xbox360_input h s t ht).2.1, (rx_data_xbox360_input h _ t ht).2.1,
          rx_data_xbox360_block_reset]
    · by_cases f3 : s.joystickType_ = XBOX360_WIRED
      · have e1 : (rx_data h s t).axis_mask_ = (rx_data_xbox360_wired h s t).axis_mask_ := by
          simp [rx_data, f3]
        have e2 : (rx_data h s t).axis_changed_mask_ =
            (rx_data_xbox360_wired h s t).axis_changed_mask_ := by
          simp [rx_data, f3]
        have e3 : (rx_data h { s with axis_changed_mask_ := 0 } t).axis_changed_mask_ =
            (rx_data_xbox360_wired h { s with axis_changed_mask_ := 0 } t).axis_changed_mask_ := by
          simp [rx_data, f3]
        rw [e1, e2, e3]
        rcases rx_data_xbox360_wired_masks h s t with ⟨a, b⟩ | ⟨a, ht⟩
        · exact ⟨Or.inl a, Or.inl b⟩
        · refine ⟨Or.inr a, Or.inr ?_⟩
          rw [rx_data_xbox360_wired_input h s t ht, rx_data_xbox360_wired_input h _ t ht,
            rx_data_xbox360_block_reset]
      · by_cases f4 : s.joystickType_ = XBOXDUKE
        · have e1 : (rx_data h s t).axis_mask_ = (rx_data_xboxduke s t).axis_mask_ := by
            simp [rx_data, f4]
          have e2 : (rx_data h s t).axis_changed_mask_ =
              (rx_data_xboxduke s t).axis_changed_mask_ := by
            simp [rx_data, f4]
          have e3 : (rx_data h { s with axis_changed_mask_ := 0 } t).axis_changed_mask_ =
              (rx_data_xboxduke { s with axis_changed_mask_ := 0 } t).axis_changed_mask_ := by
            simp [rx_data, f4]
          rw [e1, e2, e3]
          rcases rx_data_xboxduke_masks s t with ⟨a, b⟩ | ⟨a, ht⟩
          · exact ⟨Or.inl a, Or.inl b⟩
          · exact ⟨Or.inr a, Or.inr (rx_data_xboxduke_reset s t ht).symm⟩
        · have e : rx_data h s t =
              { s with out := s.out ++ [Request.queue_receive s.rx_size_] } := by
            simp [rx_data, f1, f2, f3, f4]
          rw [e]
          exact ⟨Or.inl rfl, Or.inl rfl⟩

/-- The function `hid_input_data` never clears a bit of either axis mask. -/
theorem hid_input_data_masks_mono (s : State) (usage : Nat) (value : Int) (j : Nat) :
    (s.axis_mask_.testBit j = true →
      (hid_input_data s usage value).axis_mask_.testBit j = true) ∧
    (s.axis_changed_mask_.testBit j = true →
      (hid_input_data s usage value).axis_changed_mask_.testBit j = true) := by
  unfold hid_input_data
  simp only
  split_ifs <;> constructor <;> intro hbit <;> simp [Nat.testBit_or, hbit]

/-- The statement `axis_store` never clears a bit of the changed mask. -/
theorem axis_store_changed_mono (flag : Bool) (i : Nat) (v : Int) (s : State) (j : Nat)
    (hbit : s.axis_changed_mask_.testBit j = true) :
    (axis_store flag i v s).axis_changed_mask_.testBit j = true := by
  unfold axis_store
  split_ifs <;> simp [Nat.testBit_or, hbit]

/-- The Bluetooth channel loop never clears a bit of the changed mask. -/
theorem bt_axis_loop_changed_mono (src : Nat → Nat) (shift : Nat) (n i mask : Nat) (s : State)
    (j : Nat) (hbit : s.axis_changed_mask_.testBit j = true) :
    (bt_axis_loop src shift n i mask s).axis_changed_mask_.testBit j = true := by
  induction n generalizing i mask s with
  | zero => exact hbit
  | succ n ih =>
    unfold bt_axis_loop
    simp only
    apply ih
    split_ifs <;> simp [Nat.testBit_or, hbit]

/-- The statements of `bt_sticks` never clear a bit of the changed mask. -/
theorem bt_sticks_changed_mono (src : Nat → Nat) (a b c d : Nat) (s : State) (j : Nat)
    (hbit : s.axis_changed_mask_.testBit j = true) :
    (bt_sticks src a b c d s).axis_changed_mask_.testBit j = true := by
  unfold bt_sticks
  simp only [List.range, List.range.loop, List.foldl]
  exact axis_store_changed_mono _ _ _ _ _ (axis_store_changed_mono _ _ _ _ _
    (axis_store_changed_mono _ _ _ _ _ (axis_store_changed_mono _ _ _ _ _
    (axis_store_changed_mono _ _ _ _ _ (axis_store_changed_mono _ _ _ _ _ hbit)))))

/-- The decode of report 0x01 never clears a bit of the changed mask. -/
theorem bt_report01_changed_mono (s : State) (data : Nat → Nat) (length : Nat) (j : Nat)
    (hbit : s.axis_changed_mask_.testBit j = true) :
    (bt_report01 s data length).axis_changed_mask_.testBit j = true := by
  unfold bt_report01
  split_ifs
  · apply bt_axis_loop_changed_mono
    apply bt_sticks_changed_mono
    rw [(bt_buttons_frame _ _).2.1]
    exact hbit
  · apply bt_axis_loop_changed_mono
    change (bt_buttons _ s).axis_changed_mask_.testBit j = true
    rw [(bt_buttons_frame _ _).2.1]
    exact hbit
  · apply bt_axis_loop_changed_mono
    exact hbit

/-- The statement `bt_buttons` commutes with an assignment to `axis_mask_`. -/
theorem bt_buttons_axis_mask_reset (c x : Nat) (s : State) :
    bt_buttons c { s with axis_mask_ := x } = { bt_buttons c s with axis_mask_ := x } := by
  unfold bt_buttons
  split_ifs <;> rfl

/-- The statements of `bt_sticks` forget the `axis_mask_` they start from. -/
theorem bt_sticks_axis_mask_reset (src : Nat → Nat) (a b c d x : Nat) (s : State) :
    bt_sticks src a b c d { s with axis_mask_ := x } = bt_sticks src a b c d s := by
  unfold bt_sticks
  rfl

/-- The decode of report 0x01 forgets the `axis_mask_` it starts from. -/
theorem bt_report01_axis_mask_reset (x : Nat) (s : State) (data : Nat → Nat) (length : Nat) :
    bt_report01 { s with axis_mask_ := x } data length = bt_report01 s data length := by
  unfold bt_report01
  simp only [bt_buttons_axis_mask_reset, bt_sticks_axis_mask_reset]

/-- For report ids 0x01 and 0x11 `process_bluetooth_HID_data` forgets the `axis_mask_` it starts
from. -/
theorem process_bluetooth_axis_mask_reset (stack : Nat → Nat) (s : State) (data : Nat → Nat)
    (length : Nat) (hid : u8 data 0 = 1 ∨ u8 data 0 = 0x11) :
    process_bluetooth_HID_data stack { s with axis_mask_ := 0 } data length =
      process_bluetooth_HID_data stack s data length := by
  unfold process_bluetooth_HID_data
  rcases hid with h1 | h11
  · rw [if_pos h1, if_pos h1]
    simp only [bt_report01_axis_mask_reset]
  · have h1 : ¬ u8 data 0 = 1 := by rw [h11]; decide
    rw [if_neg h1, if_neg h1, if_pos h11, if_pos h11]
    rfl

/-- For report id 0x11 `process_bluetooth_HID_data` forgets the changed mask it starts from. -/
theorem process_bluetooth_changed_mask_reset (stack : Nat → Nat) (s : State)
    (data : Nat → Nat) (length : Nat) (h11 : u8 data 0 = 0x11) :
    process_bluetooth_HID_data stack { s with axis_changed_mask_ := 0 } data length =
      process_bluetooth_HID_data stack s data length := by
  unfold process_bluetooth_HID_data
  have h1 : ¬ u8 data 0 = 1 := by rw [h11]; decide
  rw [if_neg h1, if_neg h1, if_pos h11, if_pos h11]
  rfl

/-- A block with a report id other than 0x01 and 0x11 changes nothing. -/
theorem process_bluetooth_other_id (stack : Nat → Nat) (s : State) (data : Nat → Nat)
    (length : Nat) (h1 : u8 data 0 ≠ 1) (h11 : u8 data 0 ≠ 0x11) :
    (process_bluetooth_HID_data stack s data length).1 = s := by
  unfold process_bluetooth_HID_data
  rw [if_neg h1, if_neg h11]

/-- C14, counterexample: three operations other than `disconnect` drop a set bit of
`axis_mask_`: `joystickDataClear` (bit 0 of mask 1), `rx_data` on an XBOXONE connection (bit 6
of mask 0x40), and `process_bluetooth_HID_data` on a one-byte report-0x01 block (bit 5 of mask
0x20). -/
theorem C14_axis_mask_shrinks_counterexample :
    (({ State.fresh with axis_mask_ := 1 } : State).axis_mask_.testBit 0 = true ∧
      (joystickDataClear { State.fresh with axis_mask_ := 1 }).axis_mask_.testBit 0 = false) ∧
    (({ State.fresh with joystickType_ := XBOXONE, axis_mask_ := 0x40 } : State).axis_mask_.testBit
        6 = true ∧
      (rx_data Header.sample { State.fresh with joystickType_ := XBOXONE, axis_mask_ := 0x40 }
        ⟨buffer_of [0x20, 0x00], 18⟩).axis_mask_.testBit 6 = false) ∧
    (({ State.fresh with joystickType_ := PS4, axis_mask_ := 0x20 } : State).axis_mask_.testBit
        5 = true ∧
      (process_bluetooth_HID_data (fun _ => 0)
        { State.fresh with joystickType_ := PS4, axis_mask_ := 0x20 }
        (buffer_of [0x01]) 1).1.axis_mask_.testBit 5 = false) := by
  decide

/-- C14, amended: what each operation does to `axis_mask_`.  `hid_input_data` never clears a
bit of it and `hid_input_end` leaves it unchanged; `joystickDataClear` sets it to 0; `rx_data`
either leaves it unchanged or overwrites it with 0x3f; `process_bluetooth_HID_data` overwrites
it for report ids 0x01 and 0x11 (the result does not depend on the previous value) and changes
nothing for any other report id. -/
theorem C14_axis_mask_by_operation :
    (∀ (s : State) (usage : Nat) (value : Int) (j : Nat), s.axis_mask_.testBit j = true →
      (hid_input_data s usage value).axis_mask_.testBit j = true) ∧
    (∀ s : State, (hid_input_end s).axis_mask_ = s.axis_mask_) ∧
    (∀ s : State, (joystickDataClear s).axis_mask_ = 0) ∧
    (∀ (h : Header) (s : State) (t : Transfer_t),
      (rx_data h s t).axis_mask_ = s.axis_mask_ ∨ (rx_data h s t).axis_mask_ = 0x3f) ∧
    (∀ (stack : Nat → Nat) (s : State) (data : Nat → Nat) (length : Nat),
      u8 data 0 = 1 ∨ u8 data 0 = 0x11 →
      process_bluetooth_HID_data stack { s with axis_mask_ := 0 } data length =
        process_bluetooth_HID_data stack s data length) ∧
    (∀ (stack : Nat → Nat) (s : State) (data : Nat → Nat) (length : Nat),
      u8 data 0 ≠ 1 → u8 data 0 ≠ 0x11 →
      (process_bluetooth_HID_data stack s data length).1 = s) := by
  refine ⟨?_, ?_, ?_, ?_, ?_, ?_⟩
  · intro s usage value j hbit
    exact (hid_input_data_masks_mono s usage value j).1 hbit
  · intro s
    unfold hid_input_end
    split_ifs <;> rfl
  · intro s
    rfl
  · intro h s t
    exact (rx_data_masks h s t).1
  · intro stack s data length hid
    exact process_bluetooth_axis_mask_reset stack s data length hid
  · intro stack s data length h1 h11
    exact process_bluetooth_other_id stack s data length h1 h11

/-- C14, amended, at a concrete input: bit 10 survives a `hid_input_data` call on usage
`1:0x31`. -/
theorem C14_axis_mask_by_operation_witness :
    (hid_input_data { State.fresh with axis_mask_ := 0x400 } 0x10031 5).axis_mask_.testBit 10
      = true :=
  C14_axis_mask_by_operation.1 { State.fresh with axis_mask_ := 0x400 } 0x10031 5 10
    (by decide)

/-- Outside the cases in which `rx_data` recomputes `axis_changed_mask_` it leaves it unchanged:
on XBOX360, XBOX360_WIRED and XBOXDUKE for a buffer that is not an accepted controller-input
report, and on every family that is none of the four raw ones. -/
theorem rx_data_changed_mask_unchanged (h : Header) (s : State) (t : Transfer_t) :
    (s.joystickType_ = XBOX360 → ¬ xbox360_input_report t →
      (rx_data h s t).axis_changed_mask_ = s.axis_changed_mask_) ∧
    (s.joystickType_ = XBOX360_WIRED → ¬ xbox360_wired_input_report t →
      (rx_data h s t).axis_changed_mask_ = s.axis_changed_mask_) ∧
    (s.joystickType_ = XBOXDUKE → ¬ xboxduke_input_report t →
      (rx_data h s t).axis_changed_mask_ = s.axis_changed_mask_) ∧
    (s.joystickType_ ≠ XBOXONE → s.joystickType_ ≠ XBOX360 →
      s.joystickType_ ≠ XBOX360_WIRED → s.joystickType_ ≠ XBOXDUKE →
      (rx_data h s t).axis_changed_mask_ = s.axis_changed_mask_) := by
  refine ⟨?_, ?_, ?_, ?_⟩
  · intro f hn
    have e : (rx_data h s t).axis_changed_mask_ =
        (rx_data_xbox360 h s t).axis_changed_mask_ := by
      simp [rx_data, f]
    rw [e]
    rcases rx_data_xbox360_masks h s t with hl | hr
    · exact hl.2
    · exact absurd hr.2 hn
  · intro f hn
    have e : (rx_data h s t).axis_changed_mask_ =
        (rx_data_xbox360_wired h s t).axis_changed_mask_ := by
      simp [rx_data, f]
    rw [e]
    rcases rx_data_xbox360_wired_masks h s t with hl | hr
    · exact hl.2
    · exact absurd hr.2 hn
  · intro f hn
    have e : (rx_data h s t).axis_changed_mask_ =
        (rx_data_xboxduke s t).axis_changed_mask_ := by
      simp [rx_data, f]
    rw [e]
    rcases rx_data_xboxduke_masks s t with hl | hr
    · exact hl.2
    · exact absurd hr.2 hn
  · intro f1 f2 f3 f4
    simp [rx_data, f1, f2, f3, f4]

set_option maxRecDepth 8000 in
/-- C15, counterexample: two decode entry points clear a set bit of `axis_changed_mask_`:
`rx_data` on an XBOXONE connection (bit 0, buffer `03 00`), and
`process_bluetooth_HID_data` on a report-0x11 block (bit 63). -/
theorem C15_changed_mask_cleared_counterexample :
    (({ State.fresh with joystickType_ := XBOXONE, axis_changed_mask_ := 1 } :
        State).axis_changed_mask_.testBit 0 = true ∧
      (rx_data Header.sample
        { State.fresh with joystickType_ := XBOXONE, axis_changed_mask_ := 1 }
        ⟨buffer_of [0x03, 0x00], 2⟩).axis_changed_mask_.testBit 0 = false) ∧
    (({ State.fresh with joystickType_ := PS4, axis_changed_mask_ := 2 ^ 63 } :
        State).axis_changed_mask_.testBit 63 = true ∧
      (process_bluetooth_HID_data (fun _ => 0)
        { State.fresh with joystickType_ := PS4, axis_changed_mask_ := 2 ^ 63 }
        (buffer_of [0x11, 0xC0]) 2).1.axis_changed_mask_.testBit 63 = false) := by
  decide

/-- C15, amended: what each operation does to `axis_changed_mask_`.  `hid_input_data` never
clears a bit of it, `hid_input_end` leaves it unchanged, and `process_bluetooth_HID_data` never
clears a bit of it for a report id other than 0x11; `joystickDataClear` sets it to 0; `rx_data`
either leaves it unchanged or recomputes it without regard to the previous value: it
recomputes it on an XBOXONE connection for every buffer and on the other three raw families
for every accepted controller-input report, and it leaves it unchanged on those three
families for every other buffer and on every family that is none of the four;
`process_bluetooth_HID_data` on report id 0x11 likewise forgets the previous value. -/
theorem C15_changed_mask_by_operation :
    (∀ (s : State) (usage : Nat) (value : Int) (j : Nat),
      s.axis_changed_mask_.testBit j = true →
      (hid_input_data s usage value).axis_changed_mask_.testBit j = true) ∧
    (∀ s : State, (hid_input_end s).axis_changed_mask_ = s.axis_changed_mask_) ∧
    (∀ (stack : Nat → Nat) (s : State) (data : Nat → Nat) (length : Nat) (j : Nat),
      u8 data 0 ≠ 0x11 → s.axis_changed_mask_.testBit j = true →
      (process_bluetooth_HID_data stack s data length).1.axis_changed_mask_.testBit j = true) ∧
    (∀ s : State, (joystickDataClear s).axis_changed_mask_ = 0) ∧
    (∀ (h : Header) (s : State) (t : Transfer_t),
      (rx_data h s t).axis_changed_mask_ = s.axis_changed_mask_ ∨
      (rx_data h s t).axis_changed_mask_ =
        (rx_data h { s with axis_changed_mask_ := 0 } t).axis_changed_mask_) ∧
    (∀ (h : Header) (s : State) (t : Transfer_t),
      s.joystickType_ = XBOXONE ∨
        (s.joystickType_ = XBOX360 ∧ xbox360_input_report t) ∨
        (s.joystickType_ = XBOX360_WIRED ∧ xbox360_wired_input_report t) ∨
        (s.joystickType_ = XBOXDUKE ∧ xboxduke_input_report t) →
      (rx_data h s t).axis_changed_mask_ =
        (rx_data h { s with axis_changed_mask_ := 0 } t).axis_changed_mask_) ∧
    (∀ (stack : Nat → Nat) (s : State) (data : Nat → Nat) (length : Nat),
      u8 data 0 = 0x11 →
      process_bluetooth_HID_data stack { s with axis_changed_mask_ := 0 } data length =
        process_bluetooth_HID_data stack s data length) ∧
    (∀ (h : Header) (s : State) (t : Transfer_t),
      (s.joystickType_ = XBOX360 → ¬ xbox360_input_report t →
        (rx_data h s t).axis_changed_mask_ = s.axis_changed_mask_) ∧
      (s.joystickType_ = XBOX360_WIRED → ¬ xbox360_wired_input_report t →
        (rx_data h s t).axis_changed_mask_ = s.axis_changed_mask_) ∧
      (s.joystickType_ = XBOXDUKE → ¬ xboxduke_input_report t →
        (rx_data h s t).axis_changed_mask_ = s.axis_changed_mask_) ∧
      (s.joystickType_ ≠ XBOXONE → s.joystickType_ ≠ XBOX360 →
        s.joystickType_ ≠ XBOX360_WIRED → s.joystickType_ ≠ XBOXDUKE →
        (rx_data h s t).axis_changed_mask_ = s.axis_changed_mask_)) := by
  refine ⟨?_, ?_, ?_, ?_, ?_, ?_, ?_, ?_⟩
  · intro s usage value j hbit
    exact (hid_input_data_masks_mono s usage value j).2 hbit
  · intro s
    unfold hid_input_end
    split_ifs <;> rfl
  · intro stack s data length j h11 hbit
    by_cases h1 : u8 data 0 = 1
    · rw [(process_bluetooth_report01 stack s data length h1).2.2.1]
      exact bt_report01_changed_mono s data _ j hbit
    · rw [process_bluetooth_other_id stack s data length h1 h11]
      exact hbit
  · intro s
    rfl
  · intro h s t
    exact (rx_data_masks h s t).2
  · intro h s t hf
    rcases hf with f1 | ⟨f2, ht⟩ | ⟨f3, ht⟩ | ⟨f4, ht⟩
    · have e2 : (rx_data h s t).axis_changed_mask_ =
          (rx_data_xboxone s t).axis_changed_mask_ := by
        simp [rx_data, f1]
      have e3 : (rx_data h { s with axis_changed_mask_ := 0 } t).axis_changed_mask_ =
          (rx_data_xboxone { s with axis_changed_mask_ := 0 } t).axis_changed_mask_ := by
        simp [rx_data, f1]
      rw [e2, e3, rx_data_xboxone_reset]
    · have e2 : (rx_data h s t).axis_changed_mask_ =
          (rx_data_xbox360 h s t).axis_changed_mask_ := by
        simp [rx_data, f2]
      have e3 : (rx_data h { s with axis_changed_mask_ := 0 } t).axis_changed_mask_ =
          (rx_data_xbox360 h { s with axis_changed_mask_ := 0 } t).axis_changed_mask_ := by
        simp [rx_data, f2]
      rw [e2, e3, (rx_data_xbox360_input h s t ht).2.1, (rx_data_xbox360_input h _ t ht).2.1,
        rx_data_xbox360_block_reset]
    · have e2 : (rx_data h s t).axis_changed_mask_ =
          (rx_data_xbox360_wired h s t).axis_changed_mask_ := by
        simp [rx_data, f3]
      have e3 : (rx_data h { s with axis_changed_mask_ := 0 } t).axis_changed_mask_ =
          (rx_data_xbox360_wired h { s with axis_changed_mask_ := 0 } t).axis_changed_mask_ := by
        simp [rx_data, f3]
      rw [e2, e3, rx_data_xbox360_wired_input h s t ht, rx_data_xbox360_wired_input h _ t ht,
        rx_data_xbox360_block_reset]
    · have e2 : (rx_data h s t).axis_changed_mask_ =
          (rx_data_xboxduke s t).axis_changed_mask_ := by
        simp [rx_data, f4]
      have e3 : (rx_data h { s with axis_changed_mask_ := 0 } t).axis_changed_mask_ =
          (rx_data_xboxduke { s with axis_changed_mask_ := 0 } t).axis_changed_mask_ := by
        simp [rx_data, f4]
      rw [e2, e3, rx_data_xboxduke_reset s t ht]
  · intro stack s data length h11
    exact process_bluetooth_changed_mask_reset stack s data length h11
  · intro h s t
    exact rx_data_changed_mask_unchanged h s t

/-- C15, amended, at concrete inputs: bit 40 survives a report-0x01 decode on a PS3
connection; on an XBOX360_WIRED connection with changed mask 0x15 the LED status buffer
`01 03 00` leaves the mask at 0x15, and the controller-input report `00 14 01 10 7F ..` gives
the mask it gives from an empty one. -/
theorem C15_changed_mask_by_operation_witness :
    (process_bluetooth_HID_data (fun _ => 0)
      { State.fresh with joystickType_ := PS3, axis_changed_mask_ := 2 ^ 40 }
      (buffer_of [0x01, 0x00, 0x01]) 3).1.axis_changed_mask_.testBit 40 = true ∧
    (rx_data Header.sample
      { State.fresh with joystickType_ := XBOX360_WIRED, axis_changed_mask_ := 0x15 }
      ⟨buffer_of [0x01, 0x03, 0x00], 3⟩).axis_changed_mask_ = 0x15 ∧
    (rx_data Header.sample
      { State.fresh with joystickType_ := XBOX360_WIRED, axis_changed_mask_ := 0x15 }
      ⟨buffer_of [0x00, 0x14, 0x01, 0x10, 0x7F, 0x00, 0x34, 0x12, 0x00, 0x80, 0xFF, 0x7F,
                  0x01, 0x00], 20⟩).axis_changed_mask_ =
      (rx_data Header.sample
        { State.fresh with joystickType_ := XBOX360_WIRED }
        ⟨buffer_of [0x00, 0x14, 0x01, 0x10, 0x7F, 0x00, 0x34, 0x12, 0x00, 0x80, 0xFF, 0x7F,
                    0x01, 0x00], 20⟩).axis_changed_mask_ :=
  ⟨C15_changed_mask_by_operation.2.2.1 (fun _ => 0)
    { State.fresh with joystickType_ := PS3, axis_changed_mask_ := 2 ^ 40 }
    (buffer_of [0x01, 0x00, 0x01]) 3 40 (by decide) (by decide),
   (C15_changed_mask_by_operation.2.2.2.2.2.2.2 Header.sample
    { State.fresh with joystickType_ := XBOX360_WIRED, axis_changed_mask_ := 0x15 }
    ⟨buffer_of [0x01, 0x03, 0x00], 3⟩).2.1 rfl
    (by unfold xbox360_wired_input_report; decide),
   C15_changed_mask_by_operation.2.2.2.2.2.1 Header.sample
    { State.fresh with joystickType_ := XBOX360_WIRED, axis_changed_mask_ := 0x15 }
    ⟨buffer_of [0x00, 0x14, 0x01, 0x10, 0x7F, 0x00, 0x34, 0x12, 0x00, 0x80, 0xFF, 0x7F,
                0x01, 0x00], 20⟩
    (Or.inr (Or.inr (Or.inl ⟨rfl, by unfold xbox360_wired_input_report; decide⟩)))⟩

/-- C16: `disconnect` sets `axis_mask_` and `axis_changed_mask_` to 0 and stops the periodic
timer from every state, in particular from one in which the timer is not running, and it is
idempotent: the state after two calls equals the state after one. -/
theorem C16_disconnect_clears_and_is_idempotent :
    (∀ s : State, (disconnect s).axis_mask_ = 0 ∧ (disconnect s).axis_changed_mask_ = 0 ∧
      (disconnect s).JoystickPeriodicTimer = none) ∧
    (∀ s : State, s.JoystickPeriodicTimer = none →
      (disconnect s).JoystickPeriodicTimer = none) ∧
    (∀ s : State, disconnect (disconnect s) = disconnect s) := by
  refine ⟨fun s => ⟨rfl, rfl, rfl⟩, fun s _ => rfl, fun s => rfl⟩

/-- C16 at a concrete state: `disconnect` on a controller whose timer was never started. -/
theorem C16_disconnect_clears_and_is_idempotent_witness :
    (disconnect State.fresh).JoystickPeriodicTimer = none :=
  C16_disconnect_clears_and_is_idempotent.2.1 State.fresh rfl

/-- After the XBOXONE decoder accepted a buffer, `buttons` is the 16-bit word at offset 4. -/
theorem rx_data_xboxone_buttons (s : State) (t : Transfer_t)
    (h : u8 t.buffer 0 = 0x20 ∧ t.length ≥ 18) :
    (rx_data_xboxone s t).buttons = u16 t.buffer 4 := by
  unfold rx_data_xboxone
  simp only [h, and_self, if_true]
  simp only [xbox_axis_order_mapping, List.length, List.range, List.range.loop, List.foldl,
    axis_store_buttons]
  split_ifs with hb
  · rfl
  · exact (not_not.mp hb).symm

/-- C18: for every device, prior state, claim type, length and descriptor block whose
endpoint-count octet `descriptors[4]` is less than 2, `claim` returns false. -/
theorem C18_claim_rejects_fewer_than_two_endpoints (h : Header) (s : State) (dev : Device_t)
    (type : Int) (descriptors : Nat → Nat) (len : Nat) (hc : u8 descriptors 4 < 2) :
    (claim h s dev type descriptors len).2 = false := by
  unfold claim
  by_cases c1 : s.mydevice.isSome
  · rw [if_pos c1]
  · rw [if_neg c1]
    by_cases c2 : s.device.isSome
    · rw [if_pos c2]
    · rw [if_neg c2]
      by_cases c3 : type ≠ 1
      · rw [if_pos c3]
      · rw [if_neg c3]
        by_cases c4 : len < 9 + 7 + 7
        · rw [if_pos c4]
        · rw [if_neg c4]
          simp only
          rw [if_pos hc]

/-- C18 at a concrete input: an Xbox 360 wired interface descriptor that announces one endpoint. -/
theorem C18_claim_rejects_fewer_than_two_endpoints_witness :
    (claim Header.sample State.fresh ⟨1, 0x045E, 0x028E⟩ 1
      (buffer_of [0x09, 0x04, 0x00, 0x00, 0x01, 0xFF, 0x5D, 0x01, 0x00,
                  0x07, 0x05, 0x81, 0x03, 0x20, 0x00, 0x04,
                  0x07, 0x05, 0x01, 0x03, 0x20, 0x00, 0x08]) 23).2 = false :=
  C18_claim_rejects_fewer_than_two_endpoints Header.sample State.fresh ⟨1, 0x045E, 0x028E⟩ 1
    (buffer_of [0x09, 0x04, 0x00, 0x00, 0x01, 0xFF, 0x5D, 0x01, 0x00,
                0x07, 0x05, 0x81, 0x03, 0x20, 0x00, 0x04,
                0x07, 0x05, 0x01, 0x03, 0x20, 0x00, 0x08]) 23 (by decide)

/-- When the pipe stage of `claim` fails, it has changed only `rxpipe_`, `txpipe_` and the log,
and has logged only pipe allocations. -/
theorem claim_pipes_false_frame (h : Header) (s : State) (dev : Device_t) (jtype : joytype_t)
    (e : EndpointScan) (hf : (claim_pipes h s dev jtype e).2 = false) :
    ∃ (rxp txp : Bool) (l : List Request),
      (claim_pipes h s dev jtype e).1 =
        { s with rxpipe_ := rxp, txpipe_ := txp, out := s.out ++ l } ∧
      ∀ r ∈ l, ∃ a b c d e, r = Request.new_Pipe a b c d e := by
  unfold claim_pipes at hf ⊢
  by_cases c8 : e.rx_ep_ = 0 ∨ e.txep = 0
  · rw [if_pos c8]
    exact ⟨s.rxpipe_, s.txpipe_, [], by simp, by simp⟩
  · rw [if_neg c8] at hf ⊢
    unfold new_Pipe at hf ⊢
    simp only at hf ⊢
    by_cases c9 : s.answer = false
    · rw [if_pos c9]
      exact ⟨s.answer, s.txpipe_,
        [Request.new_Pipe 3 (e.rx_ep_ &&& 15) 1 e.rx_size_ e.rx_interval], rfl, by simp⟩
    · rw [if_neg c9] at hf ⊢
      split_ifs at hf ⊢ with c10
      · refine ⟨s.answer,
          s.transport
            (s.out ++ [Request.new_Pipe 3 (e.rx_ep_ &&& 15) 1 e.rx_size_ e.rx_interval]).length,
          [Request.new_Pipe 3 (e.rx_ep_ &&& 15) 1 e.rx_size_ e.rx_interval,
            Request.new_Pipe 3 e.txep 0 e.tx_size_ e.tx_interval], ?_, by simp⟩
        simp only [List.append_assoc, List.singleton_append]
        rfl

/-- When `claim` returns false, it has changed at most `rx_ep_`, `rx_size_`, `tx_size_`, `rxpipe_`,
`txpipe_` and the log, and has logged only pipe allocations. -/
theorem claim_false_frame (h : Header) (s : State) (dev : Device_t) (type : Int)
    (descriptors : Nat → Nat) (len : Nat)
    (hf : (claim h s dev type descriptors len).2 = false) :
    ∃ (rx_ep rx_size tx_size : Nat) (rxp txp : Bool) (l : List Request),
      (claim h s dev type descriptors len).1 =
        { s with rx_ep_ := rx_ep, rx_size_ := rx_size, tx_size_ := tx_size,
                 rxpipe_ := rxp, txpipe_ := txp, out := s.out ++ l } ∧
      ∀ r ∈ l, ∃ a b c d e, r = Request.new_Pipe a b c d e := by
  have triv : ∃ (rx_ep rx_size tx_size : Nat) (rxp txp : Bool) (l : List Request),
      s = { s with rx_ep_ := rx_ep, rx_size_ := rx_size, tx_size_ := tx_size,
                   rxpipe_ := rxp, txpipe_ := txp, out := s.out ++ l } ∧
      ∀ r ∈ l, ∃ a b c d e, r = Request.new_Pipe a b c d e :=
    ⟨s.rx_ep_, s.rx_size_, s.tx_size_, s.rxpipe_, s.txpipe_, [], by simp, by simp⟩
  unfold claim at hf ⊢
  by_cases c1 : s.mydevice.isSome
  · rw [if_pos c1]; exact triv
  · rw [if_neg c1] at hf ⊢
    by_cases c2 : s.device.isSome
    · rw [if_pos c2]; exact triv
    · rw [if_neg c2] at hf ⊢
      by_cases c3 : type ≠ 1
      · rw [if_pos c3]; exact triv
      · rw [if_neg c3] at hf ⊢
        by_cases c4 : len < 9 + 7 + 7
        · rw [if_pos c4]; exact triv
        · rw [if_neg c4] at hf ⊢
          simp only at hf ⊢
          by_cases c5 : u8 descriptors 4 < 2
          · rw [if_pos c5]; exact triv
          · rw [if_neg c5] at hf ⊢
            by_cases c6 : claim_jtype dev descriptors = UNKNOWN
            · rw [if_pos c6]; exact triv
            · rw [if_neg c6] at hf ⊢
              generalize claim_endpoints descriptors (claim_jtype dev descriptors)
                (u8 descriptors 4)
                ⟨if u8 descriptors (9 + 1) ≠ 0x05 then 9 + u8 descriptors 9 else 9,
                  0, 0, 0, 0, 0, 0⟩ = scan at hf ⊢
              by_cases c7 : scan.1 = false
              · rw [if_pos c7]
                exact ⟨scan.2.rx_ep_, scan.2.rx_size_, scan.2.tx_size_, s.rxpipe_, s.txpipe_, [],
                  by simp, by simp⟩
              · rw [if_neg c7] at hf ⊢
                obtain ⟨rxp, txp, l, e1, e2⟩ := claim_pipes_false_frame h _ dev _ scan.2 hf
                rw [e1]
                exact ⟨_, _, _, rxp, txp, l, rfl, e2⟩

/-- C19: whenever `claim` returns false, `joystickType_`, `connected_`, `buttons`, `axis`,
`axis_mask_` and `axis_changed_mask_` are unchanged, the periodic timer is as it was (not
started), and nothing but pipe allocation requests has been handed to the transport: no packet
has been queued. -/
theorem C19_claim_failure_leaves_unclaimed (h : Header) (s : State) (dev : Device_t)
    (type : Int) (descriptors : Nat → Nat) (len : Nat)
    (hf : (claim h s dev type descriptors len).2 = false) :
    (claim h s dev type descriptors len).1.joystickType_ = s.joystickType_ ∧
    (claim h s dev type descriptors len).1.connected_ = s.connected_ ∧
    (claim h s dev type descriptors len).1.buttons = s.buttons ∧
    (claim h s dev type descriptors len).1.axis = s.axis ∧
    (claim h s dev type descriptors len).1.axis_mask_ = s.axis_mask_ ∧
    (claim h s dev type descriptors len).1.axis_changed_mask_ = s.axis_changed_mask_ ∧
    (claim h s dev type descriptors len).1.JoystickPeriodicTimer = s.JoystickPeriodicTimer ∧
    ∃ l : List Request, (claim h s dev type descriptors len).1.out = s.out ++ l ∧
      ∀ r ∈ l, ∃ a b c d e, r = Request.new_Pipe a b c d e := by
  obtain ⟨rx_ep, rx_size, tx_size, rxp, txp, l, e1, e2⟩ :=
    claim_false_frame h s dev type descriptors len hf
  rw [e1]
  exact ⟨rfl, rfl, rfl, rfl, rfl, rfl, rfl, l, rfl, e2⟩

/-- C19 at a concrete input: an Xbox 360 wired descriptor on a host that refuses to allocate the
receive pipe. -/
theorem C19_claim_failure_leaves_unclaimed_witness :
    (claim Header.sample { State.fresh with transport := fun _ => false }
      ⟨1, 0x045E, 0x028E⟩ 1
      (buffer_of [0x09, 0x04, 0x00, 0x00, 0x02, 0xFF, 0x5D, 0x01, 0x00,
                  0x07, 0x05, 0x81, 0x03, 0x20, 0x00, 0x04,
                  0x07, 0x05, 0x01, 0x03, 0x20, 0x00, 0x08]) 23).1.joystickType_ = UNKNOWN ∧
    (claim Header.sample { State.fresh with transport := fun _ => false }
      ⟨1, 0x045E, 0x028E⟩ 1
      (buffer_of [0x09, 0x04, 0x00, 0x00, 0x02, 0xFF, 0x5D, 0x01, 0x00,
                  0x07, 0x05, 0x81, 0x03, 0x20, 0x00, 0x04,
                  0x07, 0x05, 0x01, 0x03, 0x20, 0x00, 0x08]) 23).1.JoystickPeriodicTimer = none :=
  ⟨(C19_claim_failure_leaves_unclaimed Header.sample
      { State.fresh with transport := fun _ => false } ⟨1, 0x045E, 0x028E⟩ 1
      (buffer_of [0x09, 0x04, 0x00, 0x00, 0x02, 0xFF, 0x5D, 0x01, 0x00,
                  0x07, 0x05, 0x81, 0x03, 0x20, 0x00, 0x04,
                  0x07, 0x05, 0x01, 0x03, 0x20, 0x00, 0x08]) 23 (by decide)).1,
   (C19_claim_failure_leaves_unclaimed Header.sample
      { State.fresh with transport := fun _ => false } ⟨1, 0x045E, 0x028E⟩ 1
      (buffer_of [0x09, 0x04, 0x00, 0x00, 0x02, 0xFF, 0x5D, 0x01, 0x00,
                  0x07, 0x05, 0x81, 0x03, 0x20, 0x00, 0x04,
                  0x07, 0x05, 0x01, 0x03, 0x20, 0x00, 0x08]) 23 (by decide)).2.2.2.2.2.2.1⟩

/-- Writing a byte of `txbuf_` leaves the family alone. -/
theorem poke_joystickType (i v : Nat) (s : State) :
    (poke i v s).joystickType_ = s.joystickType_ := rfl

/-- Queueing `txbuf_` leaves the family alone. -/
theorem queue_txbuf_joystickType (n : Nat) (s : State) :
    (queue_txbuf n s).joystickType_ = s.joystickType_ := rfl

/-- Queueing a constant packet leaves the family alone. -/
theorem queue_const_joystickType (d : List Nat) (s : State) :
    (queue_const d s).joystickType_ = s.joystickType_ := rfl

/-- Copying into `txbuf_` leaves the family alone. -/
theorem memcpy_txbuf_joystickType (off : Nat) (src : List Nat) (n : Nat) (s : State) :
    (memcpy_txbuf off src n s).joystickType_ = s.joystickType_ := rfl

/-- The function `setLEDs` leaves the family alone. -/
theorem setLEDs_joystickType (s : State) (lr lg lb : Nat) :
    (setLEDs s lr lg lb).1.joystickType_ = s.joystickType_ := by
  unfold setLEDs
  split_ifs
  · simp only
    split
    · unfold transmitPS3UserFeedbackMsg
      split_ifs <;> simp only [poke_joystickType, memcpy_txbuf_joystickType]
    · unfold transmitPS3MotionUserFeedbackMsg
      split_ifs <;> simp only [poke_joystickType]
    · unfold transmitPS4UserFeedbackMsg
      split_ifs <;> simp only
    · simp only [poke_joystickType, queue_txbuf_joystickType]
    · simp only [poke_joystickType, queue_txbuf_joystickType]
    · rfl
  · rfl

/-- The one-argument `setLEDs` leaves the family alone. -/
theorem setLEDs1_joystickType (h : Header) (s : State) (leds : Nat) :
    (setLEDs1 h s leds).joystickType_ = s.joystickType_ := by
  unfold setLEDs1
  exact setLEDs_joystickType _ _ _ _

/-- The family-specific part of `claim` leaves the family alone. -/
theorem claim_init_joystickType (h : Header) (s : State) (dev : Device_t) (jtype : joytype_t) :
    (claim_init h s dev jtype).joystickType_ = s.joystickType_ := by
  unfold claim_init
  split_ifs <;>
    simp only [setLEDs1_joystickType, queue_const_joystickType]

/-- The end of a successful `claim` stores the selected family. -/
theorem claim_finish_joystickType (h : Header) (s : State) (dev : Device_t)
    (jtype : joytype_t) : (claim_finish h s dev jtype).joystickType_ = jtype := by
  unfold claim_finish
  simp only [claim_init_joystickType]

/-- When the pipe stage of `claim` succeeds, the selected family is stored. -/
theorem claim_pipes_true (h : Header) (s : State) (dev : Device_t) (jtype : joytype_t)
    (e : EndpointScan) (ht : (claim_pipes h s dev jtype e).2 = true) :
    (claim_pipes h s dev jtype e).1.joystickType_ = jtype := by
  unfold claim_pipes at ht ⊢
  simp only at ht ⊢
  split_ifs at ht ⊢
  exact claim_finish_joystickType _ _ _ _

/-- When `claim` returns true, the stored family is the selected one, the length is at least 23
and at least two endpoints are announced. -/
theorem claim_true (h : Header) (s : State) (dev : Device_t) (type : Int)
    (descriptors : Nat → Nat) (len : Nat)
    (ht : (claim h s dev type descriptors len).2 = true) :
    (claim h s dev type descriptors len).1.joystickType_ = claim_jtype dev descriptors ∧
    23 ≤ len ∧ 2 ≤ u8 descriptors 4 := by
  unfold claim at ht ⊢
  by_cases c1 : s.mydevice.isSome
  · rw [if_pos c1] at ht; simp at ht
  · rw [if_neg c1] at ht ⊢
    by_cases c2 : s.device.isSome
    · rw [if_pos c2] at ht; simp at ht
    · rw [if_neg c2] at ht ⊢
      by_cases c3 : type ≠ 1
      · rw [if_pos c3] at ht; simp at ht
      · rw [if_neg c3] at ht ⊢
        by_cases c4 : len < 9 + 7 + 7
        · rw [if_pos c4] at ht; simp at ht
        · rw [if_neg c4] at ht ⊢
          simp only at ht ⊢
          by_cases c5 : u8 descriptors 4 < 2
          · rw [if_pos c5] at ht; simp at ht
          · rw [if_neg c5] at ht ⊢
            by_cases c6 : claim_jtype dev descriptors = UNKNOWN
            · rw [if_pos c6] at ht; simp at ht
            · rw [if_neg c6] at ht ⊢
              generalize claim_endpoints descriptors (claim_jtype dev descriptors)
                (u8 descriptors 4)
                ⟨if u8 descriptors (9 + 1) ≠ 0x05 then 9 + u8 descriptors 9 else 9,
                  0, 0, 0, 0, 0, 0⟩ = scan at ht ⊢
              by_cases c7 : scan.1 = false
              · rw [if_pos c7] at ht; simp at ht
              · rw [if_neg c7] at ht ⊢
                exact ⟨claim_pipes_true _ _ _ _ _ ht, by omega, by omega⟩

/-- C20: the family selected by `claim` (sequential overwriting, last match wins) equals the
first matching test in the priority order XBOX360_WIRED, XBOX360 wireless, XBOXONE, XBOXDUKE,
and the table result when none matches; the four tests are pairwise mutually exclusive; and
whenever `claim` returns true (which needs a length of at least 23 and at least 2 endpoints)
the stored `joystickType_` is that first match. -/
theorem C20_claim_family_first_match :
    (∀ (dev : Device_t) (descriptors : Nat → Nat),
      claim_jtype dev descriptors = claim_jtype_first_match dev descriptors) ∧
    (∀ descriptors : Nat → Nat,
      ¬ ((u8 descriptors 6 = 0x5D ∧ u8 descriptors 7 = 0x01) ∧
         (u8 descriptors 6 = 0x5D ∧ u8 descriptors 7 = 0x81)) ∧
      ¬ ((u8 descriptors 6 = 0x5D ∧ u8 descriptors 7 = 0x01) ∧
         (u8 descriptors 6 = 0x47 ∧ u8 descriptors 7 = 0xD0 ∧
          u8 descriptors 15 = 0x04 ∧ u8 descriptors 22 = 0x04)) ∧
      ¬ ((u8 descriptors 6 = 0x5D ∧ u8 descriptors 7 = 0x01) ∧
         (u8 descriptors 5 = 0x58 ∧ u8 descriptors 6 = 0x42)) ∧
      ¬ ((u8 descriptors 6 = 0x5D ∧ u8 descriptors 7 = 0x81) ∧
         (u8 descriptors 6 = 0x47 ∧ u8 descriptors 7 = 0xD0 ∧
          u8 descriptors 15 = 0x04 ∧ u8 descriptors 22 = 0x04)) ∧
      ¬ ((u8 descriptors 6 = 0x5D ∧ u8 descriptors 7 = 0x81) ∧
         (u8 descriptors 5 = 0x58 ∧ u8 descriptors 6 = 0x42)) ∧
      ¬ ((u8 descriptors 6 = 0x47 ∧ u8 descriptors 7 = 0xD0 ∧
          u8 descriptors 15 = 0x04 ∧ u8 descriptors 22 = 0x04) ∧
         (u8 descriptors 5 = 0x58 ∧ u8 descriptors 6 = 0x42))) ∧
    (∀ (h : Header) (s : State) (dev : Device_t) (type : Int) (descriptors : Nat → Nat)
        (len : Nat), (claim h s dev type descriptors len).2 = true →
      23 ≤ len ∧ 2 ≤ u8 descriptors 4 ∧
      (claim h s dev type descriptors len).1.joystickType_ =
        claim_jtype_first_match dev descriptors) := by
  have part1 : ∀ (dev : Device_t) (descriptors : Nat → Nat),
      claim_jtype dev descriptors = claim_jtype_first_match dev descriptors := by
    intro dev descriptors
    unfold claim_jtype claim_jtype_first_match
    simp only
    split_ifs <;> first | rfl | (exfalso; omega)
  refine ⟨part1, ?_, ?_⟩
  · intro descriptors
    refine ⟨?_, ?_, ?_, ?_, ?_, ?_⟩ <;> omega
  · intro h s dev type descriptors len ht
    obtain ⟨a, b, c⟩ := claim_true h s dev type descriptors len ht
    exact ⟨b, c, a.trans (part1 dev descriptors)⟩

/-- C20 at a concrete input: an Xbox 360 wired interface descriptor is claimed as
XBOX360_WIRED. -/
theorem C20_claim_family_first_match_witness :
    (claim Header.sample State.fresh ⟨1, 0x045E, 0x028E⟩ 1
      (buffer_of [0x09, 0x04, 0x00, 0x00, 0x02, 0xFF, 0x5D, 0x01, 0x00,
                  0x07, 0x05, 0x81, 0x03, 0x20, 0x00, 0x04,
                  0x07, 0x05, 0x01, 0x03, 0x20, 0x00, 0x08]) 23).1.joystickType_ =
      XBOX360_WIRED :=
  (C20_claim_family_first_match.2.2 Header.sample State.fresh ⟨1, 0x045E, 0x028E⟩ 1
    (buffer_of [0x09, 0x04, 0x00, 0x00, 0x02, 0xFF, 0x5D, 0x01, 0x00,
                0x07, 0x05, 0x81, 0x03, 0x20, 0x00, 0x04,
                0x07, 0x05, 0x01, 0x03, 0x20, 0x00, 0x08]) 23 (by decide)).2.2

/-- Over rows that are all marked as HID devices the lookup with the exclude flag finds `UNKNOWN`. -/
theorem mapVIDPIDloop_exclude_hid (v p : Nat) :
    ∀ rows : List product_vendor_mapping_t, (∀ e ∈ rows, e.hidDevice = true) →
      mapVIDPIDloop v p true rows = UNKNOWN := by
  intro rows
  induction rows with
  | nil => intro _; rfl
  | cons e rest ih =>
    intro h
    have he : e.hidDevice = true := h e (List.mem_cons_self _ _)
    have hrest : ∀ x ∈ rest, x.hidDevice = true := fun x hx => h x (List.mem_cons_of_mem _ hx)
    by_cases hm : v = e.idVendor ∧ p = e.idProduct
    · simp only [mapVIDPIDloop, hm, he, and_self, if_true, Bool.and_self]
    · simp only [mapVIDPIDloop, hm, if_false]
      exact ih hrest

/-- C21: every one of the seven rows of `pid_vid_mapping` is marked as a HID device, a row so
marked is answered with `UNKNOWN` when `exclude_hid_devices` is set, and therefore
`mapVIDPIDtoJoystickType v p true = UNKNOWN` for every pair `(v, p)`. -/
theorem C21_mapVIDPID_exclude_hid_all_unknown :
    pid_vid_mapping.length = 7 ∧
    (∀ e ∈ pid_vid_mapping, e.hidDevice = true) ∧
    (∀ e ∈ pid_vid_mapping, e.hidDevice = true →
        mapVIDPIDtoJoystickType e.idVendor e.idProduct true = UNKNOWN) ∧
    (∀ v p : Nat, mapVIDPIDtoJoystickType v p true = UNKNOWN) := by
  have hall : ∀ e ∈ pid_vid_mapping, e.hidDevice = true := by decide
  have hmain : ∀ v p : Nat, mapVIDPIDtoJoystickType v p true = UNKNOWN :=
    fun v p => mapVIDPIDloop_exclude_hid v p pid_vid_mapping hall
  exact ⟨rfl, hall, fun e _ _ => hmain _ _, hmain⟩

/-- C21 at concrete inputs: the PS4 row `054C:09CC`, which maps to PS4 without the flag, and
the unlisted pair `045E:02EA`. -/
theorem C21_mapVIDPID_exclude_hid_all_unknown_witness :
    mapVIDPIDtoJoystickType 0x054C 0x09CC false = PS4 ∧
    mapVIDPIDtoJoystickType 0x054C 0x09CC true = UNKNOWN ∧
    mapVIDPIDtoJoystickType 0x045E 0x02EA true = UNKNOWN :=
  ⟨by decide,
   C21_mapVIDPID_exclude_hid_all_unknown.2.2.1 ⟨0x054C, 0x09CC, PS4, true⟩ (by decide) rfl,
   C21_mapVIDPID_exclude_hid_all_unknown.2.2.2 0x045E 0x02EA⟩

/-- For a literal without a NUL byte, `strncmp(name, literal, strlen(literal)) == 0` says that the
name begins with the literal. -/
theorem strncmp_eq_zero_iff_begins :
    ∀ (lit name : List Nat), (∀ c ∈ lit, c ≠ 0) →
      (strncmp name lit lit.length = 0 ↔ lit <+: name) := by
  intro lit
  induction lit with
  | nil => intro name _; simp [strncmp]
  | cons c rest ih =>
    intro name hnz
    have hc : c ≠ 0 := hnz c (List.mem_cons_self _ _)
    have hrest : ∀ x ∈ rest, x ≠ 0 := fun x hx => hnz x (List.mem_cons_of_mem _ hx)
    cases name with
    | nil =>
      have : (0 : Nat) ≠ c := fun h => hc h.symm
      simp only [List.length_cons, strncmp, List.headD_nil, List.headD_cons, ne_eq, this,
        not_false_eq_true, if_true]
      constructor
      · intro h
        exfalso
        have : (c : Int) = 0 := by omega
        exact hc (by exact_mod_cast this)
      · intro h
        simp at h
    | cons a as =>
      simp only [List.length_cons, strncmp, List.headD_cons, ne_eq, List.tail_cons]
      by_cases hac : a = c
      · subst hac
        simp only [not_true_eq_false, if_false, hc]
        rw [ih as hrest]
        simp [List.cons_prefix_cons]
      · simp only [hac, not_false_eq_true, if_true]
        constructor
        · intro h
          exfalso
          have : (a : Int) = c := by omega
          exact hac (by exact_mod_cast this)
        · intro h
          rw [List.cons_prefix_cons] at h
          exact absurd h.1.symm hac

/-- When at most one element of a list satisfies a test, the first match is the same in every
order of the list. -/
theorem find?_perm_of_unique {α : Type} (P : α → Bool) (l l' : List α) (hp : l'.Perm l)
    (hu : ∀ a ∈ l, ∀ b ∈ l, P a = true → P b = true → a = b) :
    l'.find? P = l.find? P := by
  cases h : l.find? P with
  | none =>
    rw [List.find?_eq_none] at h ⊢
    intro x hx
    exact h x (hp.mem_iff.mp hx)
  | some a =>
    have ha : a ∈ l := List.mem_of_find?_eq_some h
    have hPa : P a = true := List.find?_some h
    cases h' : l'.find? P with
    | none =>
      rw [List.find?_eq_none] at h'
      exact absurd hPa (h' a (hp.mem_iff.mpr ha))
    | some b =>
      have hb : b ∈ l := hp.mem_iff.mp (List.mem_of_find?_eq_some h')
      have hPb : P b = true := List.find?_some h'
      rw [hu b hb a ha hPb hPa]

/-- No prefix of `name_rules` begins with another one, so a name begins with at most one of them. -/
theorem name_rules_exclusive (name : List Nat) :
    ∀ p ∈ name_rules, ∀ q ∈ name_rules, p.1 <+: name → q.1 <+: name → p = q := by
  have hpair : ∀ p ∈ name_rules, ∀ q ∈ name_rules, p.1 <+: q.1 → p = q := by decide
  intro p hp q hq h1 h2
  rcases List.prefix_or_prefix_of_prefix h1 h2 with h | h
  · exact hpair p hp q hq h
  · exact (hpair q hq p hp h).symm

/-- The boolean prefix test decides the prefix relation. -/
theorem isPrefixOf_eq_decide (p l : List Nat) : p.isPrefixOf l = decide (p <+: l) := by
  rw [Bool.eq_iff_iff]
  simp [ List.isPrefixOf_iff_prefix]

/-- The function `mapNameToJoystickType` assigns the family of the first rule of `name_rules`
whose prefix the name begins with, keeps the stored family when there is none, and returns
true. -/
theorem mapNameToJoystickType_eq (s : State) (name : List Nat) :
    mapNameToJoystickType s name =
      ({ s with joystickType_ := (family_of_name name_rules name).getD s.joystickType_ },
        true) := by
  have h1 : strncmp name (c_str "Wireless Controller") 19 = 0 ↔
      c_str "Wireless Controller" <+: name :=
    strncmp_eq_zero_iff_begins (c_str "Wireless Controller") name (by decide)
  have h2 : strncmp name (c_str "PLAYSTATION(R)3") 15 = 0 ↔
      c_str "PLAYSTATION(R)3" <+: name :=
    strncmp_eq_zero_iff_begins (c_str "PLAYSTATION(R)3") name (by decide)
  have h3 : strncmp name (c_str "Navigation Controller") 21 = 0 ↔
      c_str "Navigation Controller" <+: name :=
    strncmp_eq_zero_iff_begins (c_str "Navigation Controller") name (by decide)
  have h4 : strncmp name (c_str "Motion Controller") 17 = 0 ↔
      c_str "Motion Controller" <+: name :=
    strncmp_eq_zero_iff_begins (c_str "Motion Controller") name (by decide)
  have h5 : strncmp name (c_str "Xbox Wireless") 13 = 0 ↔
      c_str "Xbox Wireless" <+: name :=
    strncmp_eq_zero_iff_begins (c_str "Xbox Wireless") name (by decide)
  simp only [mapNameToJoystickType, h1, h2, h3, h4, h5, family_of_name, name_rules,
    List.find?_cons, isPrefixOf_eq_decide, List.find?_nil]
  by_cases p1 : c_str "Wireless Controller" <+: name
  · simp only [p1, if_true, decide_True, Option.map_some', Option.getD_some]
  · by_cases p2 : c_str "PLAYSTATION(R)3" <+: name
    · simp only [p1, p2, if_true, if_false, decide_True, decide_False, Option.map_some',
        Option.getD_some]
    · by_cases p3 : c_str "Navigation Controller" <+: name
      · simp only [p1, p2, p3, if_true, if_false, decide_True, decide_False, Option.map_some',
          Option.getD_some]
      · by_cases p4 : c_str "Motion Controller" <+: name
        · simp only [p1, p2, p3, p4, if_true, if_false, decide_True, decide_False,
            Option.map_some', Option.getD_some]
        · by_cases p5 : c_str "Xbox Wireless" <+: name
          · simp only [p1, p2, p3, p4, p5, if_true, if_false, decide_True, decide_False,
              Option.map_some', Option.getD_some]
          · simp only [p1, p2, p3, p4, p5, if_false, decide_False, Option.map_none',
              Option.getD_none]

/-- A name that begins with the prefix of a rule gets the family of that rule. -/
theorem family_of_name_of_rule (name : List Nat) (r : List Nat × joytype_t)
    (hr : r ∈ name_rules) (hp : r.1 <+: name) :
    family_of_name name_rules name = some r.2 := by
  unfold family_of_name
  cases h : name_rules.find? (fun r => r.1.isPrefixOf name) with
  | none =>
    rw [List.find?_eq_none] at h
    exact absurd (List.isPrefixOf_iff_prefix.mpr hp) (h r hr)
  | some b =>
    have hb : b ∈ name_rules := List.mem_of_find?_eq_some h
    have hPb : b.1.isPrefixOf name = true :=
      @List.find?_some _ (fun r : List Nat × joytype_t => r.1.isPrefixOf name) b name_rules h
    rw [name_rules_exclusive name b hb r hr (List.isPrefixOf_iff_prefix.mp hPb) hp]
    rfl

/-- The family given by the rules of `name_rules` does not depend on their order. -/
theorem family_of_name_perm (name : List Nat) (rules : List (List Nat × joytype_t))
    (hperm : rules.Perm name_rules) :
    family_of_name rules name = family_of_name name_rules name := by
  unfold family_of_name
  rw [find?_perm_of_unique _ name_rules rules hperm]
  intro a ha b hb hPa hPb
  exact name_rules_exclusive name a ha b hb (List.isPrefixOf_iff_prefix.mp hPa)
    (List.isPrefixOf_iff_prefix.mp hPb)

/-- C22: `mapNameToJoystickType` sets the family by the prefix of the remote name: a name
beginning with "Wireless Controller" gives PS4, with "PLAYSTATION(R)3" PS3, with "Navigation
Controller" PS3, with "Motion Controller" PS3_MOTION, with "Xbox Wireless" XBOXONE.  No listed
prefix begins with another one, so at most one rule applies to a name, and the family set is
the one the rules give in any order of the list (the stored family stays when no rule
applies). -/
theorem C22_mapName_family_by_name_rules (s : State) (name : List Nat) :
    (c_str "Wireless Controller" <+: name →
      (mapNameToJoystickType s name).1.joystickType_ = PS4) ∧
    (c_str "PLAYSTATION(R)3" <+: name →
      (mapNameToJoystickType s name).1.joystickType_ = PS3) ∧
    (c_str "Navigation Controller" <+: name →
      (mapNameToJoystickType s name).1.joystickType_ = PS3) ∧
    (c_str "Motion Controller" <+: name →
      (mapNameToJoystickType s name).1.joystickType_ = PS3_MOTION) ∧
    (c_str "Xbox Wireless" <+: name →
      (mapNameToJoystickType s name).1.joystickType_ = XBOXONE) ∧
    (∀ p ∈ name_rules, ∀ q ∈ name_rules, p.1 <+: q.1 → p = q) ∧
    (∀ p ∈ name_rules, ∀ q ∈ name_rules, p.1 <+: name → q.1 <+: name → p = q) ∧
    (∀ rules : List (List Nat × joytype_t), rules.Perm name_rules →
      (mapNameToJoystickType s name).1.joystickType_ =
        (family_of_name rules name).getD s.joystickType_) := by
  have key : ∀ r ∈ name_rules, r.1 <+: name →
      (mapNameToJoystickType s name).1.joystickType_ = r.2 := by
    intro r hr hp
    rw [mapNameToJoystickType_eq, family_of_name_of_rule name r hr hp]
    rfl
  refine ⟨key (c_str "Wireless Controller", PS4) (by decide),
    key (c_str "PLAYSTATION(R)3", PS3) (by decide),
    key (c_str "Navigation Controller", PS3) (by decide),
    key (c_str "Motion Controller", PS3_MOTION) (by decide),
    key (c_str "Xbox Wireless", XBOXONE) (by decide),
    by decide, name_rules_exclusive name, ?_⟩
  intro rules hperm
  rw [mapNameToJoystickType_eq, family_of_name_perm name rules hperm]

/-- C22 at concrete inputs: the name "Xbox Wireless Controller" on a fresh controller object
becomes XBOXONE (it contains "Wireless Controller", but does not begin with it), also when the
rules are taken in the reverse order. -/
theorem C22_mapName_family_by_name_rules_witness :
    (mapNameToJoystickType State.fresh (c_str "Xbox Wireless Controller")).1.joystickType_ =
      XBOXONE ∧
    (family_of_name name_rules.reverse (c_str "Xbox Wireless Controller")).getD UNKNOWN =
      XBOXONE :=
  ⟨(C22_mapName_family_by_name_rules State.fresh (c_str "Xbox Wireless Controller")).2.2.2.2.1
      (by decide),
   ((C22_mapName_family_by_name_rules State.fresh
      (c_str "Xbox Wireless Controller")).2.2.2.2.2.2.2 name_rules.reverse
      (List.reverse_perm name_rules)).symm.trans
     ((C22_mapName_family_by_name_rules State.fresh (c_str "Xbox Wireless Controller")).2.2.2.2.1
      (by decide))⟩

/-- C23 fails on the code: a controller object that served a PS3 pad ("PLAYSTATION(R)3
Controller", claimed through the name rule) and was released keeps `joystickType_ = PS3`;
when a device of class 0 named "Gamepad" is offered next, the class test fails and the name
begins with none of the five prefixes, yet `claim_bluetooth` returns true, records the driver
and leaves the family PS3.  On an object whose stored family is XBOXONE the same offer is
refused, but the family stays XBOXONE and not UNKNOWN. -/
theorem C23_claim_bluetooth_unknown_name_stale_family :
    let s0 : State := (claim_bluetooth Header.sample State.fresh 0
      (some (c_str "PLAYSTATION(R)3 Controller"))).1
    let s1 : State := release_bluetooth s0
    let r := claim_bluetooth Header.sample s1 0 (some (c_str "Gamepad"))
    let r' := claim_bluetooth Header.sample { State.fresh with joystickType_ := XBOXONE } 0
      (some (c_str "Gamepad"))
    ¬ (((0 : Nat) &&& 0xff00 = 0x2500 ∨ (0 : Nat) &&& 0xff00 = 0x500) ∧
        (0 : Nat) &&& 0x3C = 0x08) ∧
    (∀ p ∈ name_rules, ¬ p.1 <+: c_str "Gamepad") ∧
    s1.joystickType_ = PS3 ∧ s1.btdriver_ = false ∧
    r.2 = true ∧ r.1.joystickType_ = PS3 ∧ r.1.btdriver_ = true ∧
    r'.2 = false ∧ r'.1.joystickType_ = XBOXONE := by
  decide

/-- Calling `setLEDs` with the stored triple returns false and changes nothing. -/
theorem setLEDs_same (s : State) (lr lg lb : Nat)
    (h : s.leds_ 0 = lr ∧ s.leds_ 1 = lg ∧ s.leds_ 2 = lb) :
    setLEDs s lr lg lb = (s, false) := by
  unfold setLEDs
  rw [if_neg]
  rintro (h0 | h1 | h2)
  · exact h0 h.1
  · exact h1 h.2.1
  · exact h2 h.2.2

/-- For a family without an LED packet `setLEDs` returns false and logs no request. -/
theorem setLEDs_unsupported (s : State) (lr lg lb : Nat)
    (h : s.joystickType_ ≠ PS3 ∧ s.joystickType_ ≠ PS3_MOTION ∧ s.joystickType_ ≠ PS4 ∧
      s.joystickType_ ≠ XBOX360 ∧ s.joystickType_ ≠ XBOX360_WIRED) :
    (setLEDs s lr lg lb).2 = false ∧ (setLEDs s lr lg lb).1.out = s.out := by
  obtain ⟨h1, h2, h3, h4, h5⟩ := h
  unfold setLEDs
  by_cases hd : s.leds_ 0 ≠ lr ∨ s.leds_ 1 ≠ lg ∨ s.leds_ 2 ≠ lb
  · rw [if_pos hd]
    cases hj : s.joystickType_ <;> first
      | exact absurd hj h1
      | exact absurd hj h2
      | exact absurd hj h3
      | exact absurd hj h4
      | exact absurd hj h5
      | simp [hj]
  · rw [if_neg hd]
    exact ⟨rfl, rfl⟩

/-- C24: `setLEDs(lr, lg, lb)` hands a packet to a collaborator only when the triple differs
from the stored `leds_` and the family is one of PS3, PS3_MOTION, PS4, XBOX360, XBOX360_WIRED;
when the triple equals the stored one it returns false and the whole state, request log
included, is unchanged, for any family; and when the family is none of the five (XBOXONE,
XBOXDUKE, UNKNOWN, SpaceNav) it returns false and sends nothing. -/
theorem C24_setLEDs_dispatch_conditions (s : State) (lr lg lb : Nat) :
    ((setLEDs s lr lg lb).1.out ≠ s.out →
      (s.leds_ 0 ≠ lr ∨ s.leds_ 1 ≠ lg ∨ s.leds_ 2 ≠ lb) ∧
      (s.joystickType_ = PS3 ∨ s.joystickType_ = PS3_MOTION ∨ s.joystickType_ = PS4 ∨
        s.joystickType_ = XBOX360 ∨ s.joystickType_ = XBOX360_WIRED)) ∧
    (s.leds_ 0 = lr ∧ s.leds_ 1 = lg ∧ s.leds_ 2 = lb → setLEDs s lr lg lb = (s, false)) ∧
    (s.joystickType_ ≠ PS3 ∧ s.joystickType_ ≠ PS3_MOTION ∧ s.joystickType_ ≠ PS4 ∧
      s.joystickType_ ≠ XBOX360 ∧ s.joystickType_ ≠ XBOX360_WIRED →
      (setLEDs s lr lg lb).2 = false ∧ (setLEDs s lr lg lb).1.out = s.out) := by
  refine ⟨?_, setLEDs_same s lr lg lb, setLEDs_unsupported s lr lg lb⟩
  intro hout
  constructor
  · by_contra hd
    have hsame : s.leds_ 0 = lr ∧ s.leds_ 1 = lg ∧ s.leds_ 2 = lb := by
      refine ⟨?_, ?_, ?_⟩
      · by_contra h0; exact hd (Or.inl h0)
      · by_contra h1; exact hd (Or.inr (Or.inl h1))
      · by_contra h2; exact hd (Or.inr (Or.inr h2))
    apply hout
    rw [setLEDs_same s lr lg lb hsame]
  · by_contra hf
    apply hout
    refine (setLEDs_unsupported s lr lg lb ⟨?_, ?_, ?_, ?_, ?_⟩).2
    · intro h; exact hf (Or.inl h)
    · intro h; exact hf (Or.inr (Or.inl h))
    · intro h; exact hf (Or.inr (Or.inr (Or.inl h)))
    · intro h; exact hf (Or.inr (Or.inr (Or.inr (Or.inl h))))
    · intro h; exact hf (Or.inr (Or.inr (Or.inr (Or.inr h))))

/-- C24 at concrete inputs: on a fresh XBOX360_WIRED object `setLEDs(0, 0, 2)` queues the
packet `01 03 02`, and the triple differs and the family is a supported one; `setLEDs(0, 0, 0)`
on the same object changes nothing; and on an XBOXONE object `setLEDs(0, 0, 2)` sends
nothing. -/
theorem C24_setLEDs_dispatch_conditions_witness :
    (setLEDs { State.fresh with joystickType_ := XBOX360_WIRED } 0 0 2).1.out =
      [Request.queue_Data_Transfer Pipe.txpipe_ [0x01, 0x03, 0x02]] ∧
    (({ State.fresh with joystickType_ := XBOX360_WIRED } : State).leds_ 0 ≠ 0 ∨
      ({ State.fresh with joystickType_ := XBOX360_WIRED } : State).leds_ 1 ≠ 0 ∨
      ({ State.fresh with joystickType_ := XBOX360_WIRED } : State).leds_ 2 ≠ 2) ∧
    setLEDs { State.fresh with joystickType_ := XBOX360_WIRED } 0 0 0 =
      ({ State.fresh with joystickType_ := XBOX360_WIRED }, false) ∧
    (setLEDs { State.fresh with joystickType_ := XBOXONE } 0 0 2).2 = false ∧
    (setLEDs { State.fresh with joystickType_ := XBOXONE } 0 0 2).1.out = [] :=
  ⟨by decide,
   ((C24_setLEDs_dispatch_conditions { State.fresh with joystickType_ := XBOX360_WIRED }
      0 0 2).1 (by decide)).1,
   (C24_setLEDs_dispatch_conditions { State.fresh with joystickType_ := XBOX360_WIRED }
      0 0 0).2.1 ⟨rfl, rfl, rfl⟩,
   (C24_setLEDs_dispatch_conditions { State.fresh with joystickType_ := XBOXONE }
      0 0 2).2.2 (by decide)⟩

/-- One execution of `timer_event` for the object's own timer (`whichTimer` matches), with the
static `toggle` holding 0 or 1 as it does from its initial value 1 on: for family XBOX360
`timer_event` queues the connection-refresh packet, the controller-info packet and one
keep-alive payload, `00 00 0C 1F` when `toggle` was 0 and `00 00 0C 1E` when it was 1, and
flips `toggle`, so the next XBOX360 expiry that runs queues the other payload; for every other
family it queues nothing and leaves `toggle` alone; in every case the timer is started with
2000000 microseconds. -/
theorem timer_event_keepalive_by_toggle (toggle : Nat) (s s' : State) (htoggle : toggle ≤ 1) :
    (s.joystickType_ = XBOX360 →
      (timer_event toggle s true).2.out = s.out ++
        [Request.queue_Data_Transfer Pipe.txpipe_ xbox360w_connection_refresh,
         Request.queue_Data_Transfer Pipe.txpipe_ xbox360w_controller_info,
         Request.queue_Data_Transfer Pipe.txpipe_
           (if toggle = 0 then xbox360w_chatpad_keepalive1
            else xbox360w_chatpad_keepalive2)] ∧
      (timer_event toggle s true).1 = 1 - toggle) ∧
    (s.joystickType_ = XBOX360 → s'.joystickType_ = XBOX360 →
      ∃ k k' : List Nat, k ≠ k' ∧
        (k = xbox360w_chatpad_keepalive1 ∨ k = xbox360w_chatpad_keepalive2) ∧
        (k' = xbox360w_chatpad_keepalive1 ∨ k' = xbox360w_chatpad_keepalive2) ∧
        (timer_event toggle s true).2.out = s.out ++
          [Request.queue_Data_Transfer Pipe.txpipe_ xbox360w_connection_refresh,
           Request.queue_Data_Transfer Pipe.txpipe_ xbox360w_controller_info,
           Request.queue_Data_Transfer Pipe.txpipe_ k] ∧
        (timer_event (timer_event toggle s true).1 s' true).2.out = s'.out ++
          [Request.queue_Data_Transfer Pipe.txpipe_ xbox360w_connection_refresh,
           Request.queue_Data_Transfer Pipe.txpipe_ xbox360w_controller_info,
           Request.queue_Data_Transfer Pipe.txpipe_ k']) ∧
    (s.joystickType_ ≠ XBOX360 →
      (timer_event toggle s true).2.out = s.out ∧ (timer_event toggle s true).1 = toggle) ∧
    (timer_event toggle s true).2.JoystickPeriodicTimer = some 2000000 ∧
    (timer_event toggle s true).1 ≤ 1 := by
  have hx : ∀ (tg : Nat) (u : State), tg ≤ 1 → u.joystickType_ = XBOX360 →
      (timer_event tg u true).2.out = u.out ++
        [Request.queue_Data_Transfer Pipe.txpipe_ xbox360w_connection_refresh,
         Request.queue_Data_Transfer Pipe.txpipe_ xbox360w_controller_info,
         Request.queue_Data_Transfer Pipe.txpipe_
           (if tg = 0 then xbox360w_chatpad_keepalive1
            else xbox360w_chatpad_keepalive2)] ∧
      (timer_event tg u true).1 = 1 - tg := by
    intro tg u htg hu
    interval_cases tg
    · simp [timer_event, hu, queue_const]
    · simp [timer_event, hu, queue_const]
  refine ⟨hx toggle s htoggle, ?_, ?_, ?_, ?_⟩
  · intro hs hs'
    have h1 := hx toggle s htoggle hs
    have h2 := hx (1 - toggle) s' (by omega) hs'
    refine ⟨if toggle = 0 then xbox360w_chatpad_keepalive1 else xbox360w_chatpad_keepalive2,
      if 1 - toggle = 0 then xbox360w_chatpad_keepalive1 else xbox360w_chatpad_keepalive2,
      ?_, ?_, ?_, h1.1, ?_⟩
    · interval_cases toggle <;> decide
    · interval_cases toggle <;> simp
    · interval_cases toggle <;> simp
    · rw [h1.2]; exact h2.1
  · intro hs
    simp [timer_event, hs]
  · by_cases hs : s.joystickType_ = XBOX360
    · interval_cases toggle <;> simp [timer_event, hs, queue_const, USBDriverTimer.start]
    · simp [timer_event, hs, USBDriverTimer.start]
  · by_cases hs : s.joystickType_ = XBOX360
    · rw [(hx toggle s htoggle hs).2]; omega
    · simp [timer_event, hs]; exact htoggle

/-- The first expiry of a fresh XBOX360 object, starting from the initial value of `toggle`:
it queues the refresh, the info and the keep-alive `00 00 0C 1E`, leaves `toggle` at 0, and the
timer is restarted with 2000000 microseconds. -/
theorem timer_event_keepalive_first_expiry :
    (timer_event timer_event_toggle_init { State.fresh with joystickType_ := XBOX360 }
      true).2.out =
      [Request.queue_Data_Transfer Pipe.txpipe_ [0x08, 0x00, 0x00, 0x00],
       Request.queue_Data_Transfer Pipe.txpipe_ [0x00, 0x00, 0x00, 0x40],
       Request.queue_Data_Transfer Pipe.txpipe_ [0x00, 0x00, 0x0C, 0x1E]] ∧
    (timer_event timer_event_toggle_init { State.fresh with joystickType_ := XBOX360 }
      true).1 = 0 ∧
    (timer_event timer_event_toggle_init { State.fresh with joystickType_ := XBOX360 }
      true).2.JoystickPeriodicTimer = some 2000000 :=
  ⟨((timer_event_keepalive_by_toggle timer_event_toggle_init
      { State.fresh with joystickType_ := XBOX360 } State.fresh (by decide)).1 rfl).1,
   ((timer_event_keepalive_by_toggle timer_event_toggle_init
      { State.fresh with joystickType_ := XBOX360 } State.fresh (by decide)).1 rfl).2,
   (timer_event_keepalive_by_toggle timer_event_toggle_init
      { State.fresh with joystickType_ := XBOX360 } State.fresh (by decide)).2.2.2.1⟩

/-- C25 fails on the code: the `toggle` that picks the keep-alive is static, one copy for all
controller objects, so the expiries of one connection alternate only while no other XBOX360
object's timer expires in between.  Two XBOX360 wireless objects A and B, `toggle` at its
initial value, timers expiring in the order A, B, A: A queues the connection refresh, the
controller info and the keep-alive `00 00 0C 1E` at its first expiry, and the same three
packets, again with `00 00 0C 1E`, at its second, consecutive expiry; the timer is restarted
with 2000000 microseconds each time. -/
theorem C25_consecutive_expiries_same_keepalive :
    let A : State := { State.fresh with joystickType_ := XBOX360, rx_ep_ := 0x81 }
    let B : State := { State.fresh with joystickType_ := XBOX360, rx_ep_ := 0x83 }
    let a1 := timer_event timer_event_toggle_init A true
    let b1 := timer_event a1.1 B true
    let a2 := timer_event b1.1 a1.2 true
    a1.2.out =
      [Request.queue_Data_Transfer Pipe.txpipe_ [0x08, 0x00, 0x00, 0x00],
       Request.queue_Data_Transfer Pipe.txpipe_ [0x00, 0x00, 0x00, 0x40],
       Request.queue_Data_Transfer Pipe.txpipe_ [0x00, 0x00, 0x0C, 0x1E]] ∧
    a2.2.out = a1.2.out ++
      [Request.queue_Data_Transfer Pipe.txpipe_ [0x08, 0x00, 0x00, 0x00],
       Request.queue_Data_Transfer Pipe.txpipe_ [0x00, 0x00, 0x00, 0x40],
       Request.queue_Data_Transfer Pipe.txpipe_ [0x00, 0x00, 0x0C, 0x1E]] ∧
    b1.2.out =
      [Request.queue_Data_Transfer Pipe.txpipe_ [0x08, 0x00, 0x00, 0x00],
       Request.queue_Data_Transfer Pipe.txpipe_ [0x00, 0x00, 0x00, 0x40],
       Request.queue_Data_Transfer Pipe.txpipe_ [0x00, 0x00, 0x0C, 0x1F]] ∧
    a1.2.JoystickPeriodicTimer = some 2000000 ∧ a2.2.JoystickPeriodicTimer = some 2000000 := by
  decide

/-- C26 fails on the code: the variable `toggle` of `timer_event` is static, one copy for all
controller objects.  Two XBOX360 wireless objects A and B, `toggle` at its initial value: when
A's timer expires next, A queues the keep-alive `00 00 0C 1E`; when B's timer expires first and
then A's, A queues `00 00 0C 1F`. -/
theorem C26_keepalive_depends_on_other_connection :
    let A : State := { State.fresh with joystickType_ := XBOX360, rx_ep_ := 1 }
    let B : State := { State.fresh with joystickType_ := XBOX360, rx_ep_ := 3 }
    (timer_event timer_event_toggle_init A true).2.out =
      [Request.queue_Data_Transfer Pipe.txpipe_ xbox360w_connection_refresh,
       Request.queue_Data_Transfer Pipe.txpipe_ xbox360w_controller_info,
       Request.queue_Data_Transfer Pipe.txpipe_ [0x00, 0x00, 0x0C, 0x1E]] ∧
    (timer_event (timer_event timer_event_toggle_init B true).1 A true).2.out =
      [Request.queue_Data_Transfer Pipe.txpipe_ xbox360w_connection_refresh,
       Request.queue_Data_Transfer Pipe.txpipe_ xbox360w_controller_info,
       Request.queue_Data_Transfer Pipe.txpipe_ [0x00, 0x00, 0x0C, 0x1F]] := by
  decide

set_option maxRecDepth 8000 in
/-- C27 fails on the code: on a PS3 connection a block with report id 0x01 and length 10 is
read at the indices 18 and 19 (channels 3 and 4 take `data[18]` and `data[19]` whatever the
length), so the channel 3 decoded depends on the byte 8 places past the end of the block; and
the decode of report 0x11 reads its working copy up to index 63, also for a block of length 12
whose working copy has 10 bytes. -/
theorem C27_bluetooth_decode_reads_past_length :
    let s : State := { State.fresh with joystickType_ := PS3 }
    let block : List Nat := [0x01, 0, 0, 0, 0, 0, 0, 0, 0, 0]
    block.length = 10 ∧
    18 ∈ process_bluetooth_HID_data_reads s (buffer_of block) 10 ∧
    19 ∈ process_bluetooth_HID_data_reads s (buffer_of block) 10 ∧
    ¬ (∀ i ∈ process_bluetooth_HID_data_reads s (buffer_of block) 10, i < 10) ∧
    (process_bluetooth_HID_data (fun _ => 0) s
      (buffer_of (block ++ [0, 0, 0, 0, 0, 0, 0, 0, 0x55])) 10).1.axis 3 = 0x55 ∧
    (process_bluetooth_HID_data (fun _ => 0) s
      (buffer_of (block ++ [0, 0, 0, 0, 0, 0, 0, 0, 0x66])) 10).1.axis 3 = 0x66 ∧
    63 ∈ bt_report11_tmp_reads ∧
    ¬ (∀ i ∈ bt_report11_tmp_reads, i < 12 - 2) ∧
    (process_bluetooth_HID_data (fun i => if i = 63 then 0x77 else 0) State.fresh
      (buffer_of [0x11, 0, 0, 0, 0, 0, 0, 0, 0, 0, 0, 0]) 12).1.axis 63 = 0x77 := by
  decide

/-- C28 fails on the code for three of the four raw families: only the XBOXONE branch of
`rx_data` compares the transfer length with the size of its structure.  A transfer of length 2
whose receive buffer begins `00 14 01 00` sets `buttons` to 1 on an XBOX360_WIRED connection
(structure of 14 bytes) and on an XBOXDUKE connection (20 bytes), and a transfer of length 6
whose buffer begins `00 01 00 F0 00 13 01 00` sets `buttons` to 1 on an XBOX360 wireless
connection (18 bytes); with the lengths 13, 19 and 17 the outcome is the same.  On an XBOXONE
connection a transfer of length 17 with type byte 0x20 leaves `buttons` and the channels as
they were. -/
theorem C28_rx_data_short_transfer_decoded :
    let wired : State := { State.fresh with joystickType_ := XBOX360_WIRED }
    let duke : State := { State.fresh with joystickType_ := XBOXDUKE }
    let wireless : State := { State.fresh with joystickType_ := XBOX360 }
    let one : State := { State.fresh with joystickType_ := XBOXONE }
    let b1 := buffer_of [0x00, 0x14, 0x01, 0x00, 0x7F]
    let b2 := buffer_of [0x00, 0x01, 0x00, 0xF0, 0x00, 0x13, 0x01, 0x00, 0x7F]
    let b3 := buffer_of [0x20, 0x00, 0x00, 0x00, 0x01, 0x00, 0x7F, 0x00]
    (rx_data Header.sample wired ⟨b1, 2⟩).buttons = 1 ∧
    (rx_data Header.sample wired ⟨b1, 2⟩).axis 4 = 0x7F ∧
    (rx_data Header.sample wired ⟨b1, 13⟩).buttons = 1 ∧
    (rx_data Header.sample duke ⟨b1, 2⟩).buttons = 1 ∧
    (rx_data Header.sample duke ⟨b1, 2⟩).axis 0 = 0x7F ∧
    (rx_data Header.sample duke ⟨b1, 19⟩).buttons = 1 ∧
    (rx_data Header.sample wireless ⟨b2, 6⟩).buttons = 1 ∧
    (rx_data Header.sample wireless ⟨b2, 6⟩).axis 4 = 0x7F ∧
    (rx_data Header.sample wireless ⟨b2, 17⟩).buttons = 1 ∧
    wired.buttons = 0 ∧ duke.buttons = 0 ∧ wireless.buttons = 0 ∧
    (rx_data Header.sample one ⟨b3, 17⟩).buttons = 0 ∧
    (rx_data Header.sample one ⟨b3, 17⟩).axis 3 = 0 ∧
    (rx_data Header.sample one ⟨b3, 18⟩).buttons = 1 := by
  decide

/-- Adding a bit outside a mask to a value that does not meet the mask keeps it clear of the mask. -/
theorem or_bit_and_eq_zero (cm m i : Nat) (h0 : cm &&& m = 0) (hb : m.testBit i = false) :
    (cm ||| 1 <<< i) &&& m = 0 := by
  apply Nat.eq_of_testBit_eq
  intro k
  have hk : (cm &&& m).testBit k = false := by rw [h0]; exact Nat.zero_testBit k
  rw [Nat.testBit_and] at hk
  rw [Nat.testBit_and, Nat.testBit_or, Nat.one_shiftLeft, Nat.testBit_two_pow, Nat.zero_testBit]
  by_cases hik : i = k
  · subst hik; rw [hb]; simp
  · simp [hik, hk]

/-- A successful `claim_collection` sets `anychange` and configures the window and the notify
mask of the family. -/
theorem claim_collection_report (s : State) (dev : Device_t) (topusage : Nat)
    (h : (claim_collection s dev topusage).2 = hidclaim_t.CLAIM_REPORT) :
    (claim_collection s dev topusage).1.anychange = true ∧
    ((claim_collection s dev topusage).1.joystickType_ = PS4 →
      (claim_collection s dev topusage).1.axis_change_notify_mask_ = 0xfffffffffffff3ff ∧
      (claim_collection s dev topusage).1.additional_axis_usage_page_ = 0xFF00 ∧
      (claim_collection s dev topusage).1.additional_axis_usage_start_ = 0x21 ∧
      (claim_collection s dev topusage).1.additional_axis_usage_count_ = 54) ∧
    ((claim_collection s dev topusage).1.joystickType_ ≠ PS3 →
      (claim_collection s dev topusage).1.joystickType_ ≠ PS3_MOTION →
      (claim_collection s dev topusage).1.joystickType_ ≠ PS4 →
      (claim_collection s dev topusage).1.axis_change_notify_mask_ = 0x3ff ∧
      (claim_collection s dev topusage).1.additional_axis_usage_page_ = 0x09 ∧
      (claim_collection s dev topusage).1.additional_axis_usage_start_ = 0x21 ∧
      (claim_collection s dev topusage).1.additional_axis_usage_count_ = 5) := by
  unfold claim_collection at h ⊢
  by_cases h1 : topusage ≠ 0x10004 ∧ topusage ≠ 0x10005 ∧ topusage ≠ 0x10008
  · rw [if_pos h1] at h; simp at h
  · rw [if_neg h1] at h ⊢
    by_cases h2 : (match s.mydevice with
           | some d => decide (dev.addr ≠ d.addr)
           | none => false) = true
    · rw [if_pos h2] at h; simp at h
    · rw [if_neg h2] at h ⊢
      by_cases h3 : s.device.isSome = true
      · rw [if_pos h3] at h; simp at h
      · rw [if_neg h3]
        simp only
        cases hj : mapVIDPIDtoJoystickType dev.idVendor dev.idProduct false <;> simp

/-- The function `hid_input_data` changes neither the family nor the notify mask nor the window. -/
theorem hid_input_data_config (s : State) (usage : Nat) (value : Int) :
    (hid_input_data s usage value).joystickType_ = s.joystickType_ ∧
    (hid_input_data s usage value).axis_change_notify_mask_ = s.axis_change_notify_mask_ ∧
    (hid_input_data s usage value).additional_axis_usage_page_ = s.additional_axis_usage_page_ ∧
    (hid_input_data s usage value).additional_axis_usage_start_ =
      s.additional_axis_usage_start_ ∧
    (hid_input_data s usage value).additional_axis_usage_count_ =
      s.additional_axis_usage_count_ := by
  unfold hid_input_data
  simp only
  split_ifs <;> exact ⟨rfl, rfl, rfl, rfl, rfl⟩

/-- The function `hid_input_data` keeps the invariant that a changed bit inside the notify mask
comes with `anychange`. -/
theorem hid_input_data_notify_inv (s : State) (usage : Nat) (value : Int)
    (hinv : s.axis_changed_mask_ &&& s.axis_change_notify_mask_ ≠ 0 → s.anychange = true) :
    (hid_input_data s usage value).axis_changed_mask_ &&&
      (hid_input_data s usage value).axis_change_notify_mask_ ≠ 0 →
    (hid_input_data s usage value).anychange = true := by
  unfold hid_input_data
  simp only
  split_ifs <;> first
    | exact hinv
    | (intro _; rfl)
    | (intro hne; simp_all)

/-- A usage that is not a button usage leaves `buttons` unchanged. -/
theorem hid_input_data_no_button (s : State) (usage : Nat) (value : Int)
    (hnb : ¬ (usage >>> 16 = 9 ∧ usage &&& 0xFFFF ≥ 1 ∧ usage &&& 0xFFFF ≤ 32)) :
    (hid_input_data s usage value).buttons = s.buttons := by
  unfold hid_input_data
  simp only [hnb, if_false]
  split_ifs <;> rfl

/-- A call for a usage that is not a button and that changes only channels outside the notify
mask keeps `anychange` false. -/
theorem hid_input_data_suppressed (s : State) (usage : Nat) (value : Int)
    (hnb : ¬ (usage >>> 16 = 9 ∧ usage &&& 0xFFFF ≥ 1 ∧ usage &&& 0xFFFF ≤ 32))
    (hinv : s.axis_changed_mask_ &&& s.axis_change_notify_mask_ ≠ 0 → s.anychange = true)
    (hany : s.anychange = false)
    (hout : ∀ j, (hid_input_data s usage value).axis j ≠ s.axis j →
      s.axis_change_notify_mask_.testBit j = false) :
    (hid_input_data s usage value).anychange = false := by
  have h0 : s.axis_changed_mask_ &&& s.axis_change_notify_mask_ = 0 := by
    by_contra hne
    rw [hinv hne] at hany
    exact absurd hany (by decide)
  rw [hid_input_data_axis] at hout
  simp only [hnb, if_false] at hout
  unfold hid_input_data
  simp only [hnb, if_false, STANDARD_AXIS_COUNT, TOTAL_AXIS_COUNT]
  by_cases hstd : usage >>> 16 = 1 ∧ usage &&& 0xFFFF ≥ 0x30 ∧ usage &&& 0xFFFF ≤ 0x39
  · simp only [hstd, and_self, if_true] at hout ⊢
    by_cases hv : s.axis ((usage &&& 0xFFFF) - 0x30) = value
    · simp only [hv, ne_eq, not_true_eq_false, if_false]
      exact hany
    · have hbit := hout ((usage &&& 0xFFFF) - 0x30)
        (by rw [Function.update_same]; exact fun h => hv h.symm)
      simp only [ne_eq, hv, not_false_eq_true, if_true,
        or_bit_and_eq_zero _ _ _ h0 hbit, not_true_eq_false, if_false]
      exact hany
  · simp only [hstd, if_false] at hout ⊢
    by_cases hp : usage >>> 16 = s.additional_axis_usage_page_
    · by_cases hw : usage &&& 0xFFFF ≥ s.additional_axis_usage_start_ ∧
          usage &&& 0xFFFF < s.additional_axis_usage_start_ + s.additional_axis_usage_count_
      · by_cases hc : ((usage &&& 0xFFFF) - s.additional_axis_usage_start_ + 10) % 2 ^ 16 < 64
        · have hcond : usage >>> 16 = s.additional_axis_usage_page_ ∧
              usage &&& 0xFFFF ≥ s.additional_axis_usage_start_ ∧
              usage &&& 0xFFFF <
                s.additional_axis_usage_start_ + s.additional_axis_usage_count_ ∧
              ((usage &&& 0xFFFF) - s.additional_axis_usage_start_ + 10) % 2 ^ 16 < 64 :=
            ⟨hp, hw.1, hw.2, hc⟩
          rw [if_pos hcond] at hout
          rw [if_pos hp, if_pos hw, if_pos hc]
          by_cases hv : s.axis
              (((usage &&& 0xFFFF) - s.additional_axis_usage_start_ + 10) % 2 ^ 16) = value
          · rw [if_neg (not_not.mpr hv)]
            exact hany
          · have hbit := hout _ (by rw [Function.update_same]; exact fun h => hv h.symm)
            have h63 : ¬ ((usage &&& 0xFFFF) - s.additional_axis_usage_start_ + 10) % 2 ^ 16
                > 63 := by omega
            rw [if_pos hv]
            simp only [h63, if_false, ne_eq, or_bit_and_eq_zero _ _ _ h0 hbit,
              not_true_eq_false]
            exact hany
        · rw [if_pos hp, if_pos hw, if_neg hc]
          exact hany
      · rw [if_pos hp, if_neg hw]
        exact hany
    · rw [if_neg hp]
      exact hany

/-- The function `hid_input_data` does not touch `joystickEvent`. -/
theorem hid_input_data_joystickEvent (s : State) (usage : Nat) (value : Int) :
    (hid_input_data s usage value).joystickEvent = s.joystickEvent := by
  unfold hid_input_data
  simp only
  split_ifs <;> rfl

/-- A usage of the extended window whose channel is below 64 and holds another value: the value
is stored in that channel alone and the channel's bit is set in `axis_changed_mask_`. -/
theorem hid_input_data_window_changed (s : State) (usage : Nat) (value : Int)
    (hnb : ¬ (usage >>> 16 = 9 ∧ usage &&& 0xFFFF ≥ 1 ∧ usage &&& 0xFFFF ≤ 32))
    (hstd : ¬ (usage >>> 16 = 1 ∧ usage &&& 0xFFFF ≥ 0x30 ∧ usage &&& 0xFFFF ≤ 0x39))
    (hp : usage >>> 16 = s.additional_axis_usage_page_)
    (hw : usage &&& 0xFFFF ≥ s.additional_axis_usage_start_ ∧
      usage &&& 0xFFFF < s.additional_axis_usage_start_ + s.additional_axis_usage_count_)
    (hc : (usage &&& 0xFFFF) - s.additional_axis_usage_start_ + 10 < 64)
    (hv : s.axis ((usage &&& 0xFFFF) - s.additional_axis_usage_start_ + 10) ≠ value) :
    (hid_input_data s usage value).axis =
      Function.update s.axis ((usage &&& 0xFFFF) - s.additional_axis_usage_start_ + 10) value ∧
    (hid_input_data s usage value).axis_changed_mask_.testBit
      ((usage &&& 0xFFFF) - s.additional_axis_usage_start_ + 10) = true := by
  have hmod : ((usage &&& 0xFFFF) - s.additional_axis_usage_start_ + 10) % 2 ^ 16 =
      (usage &&& 0xFFFF) - s.additional_axis_usage_start_ + 10 :=
    Nat.mod_eq_of_lt (by omega)
  constructor
  · rw [hid_input_data_axis, if_neg hnb, if_neg hstd, hmod, if_pos ⟨hp, hw.1, hw.2, hc⟩]
  · have h63 : ¬ (usage &&& 0xFFFF) - s.additional_axis_usage_start_ + 10 > 63 := by omega
    unfold hid_input_data
    simp only [hnb, hstd, if_false, STANDARD_AXIS_COUNT, TOTAL_AXIS_COUNT, hmod]
    rw [if_pos hp, if_pos hw, if_pos hc, if_pos hv]
    simp only [h63, if_false]
    split_ifs <;> simp [Nat.testBit_or, Nat.one_shiftLeft, Nat.testBit_two_pow_self]

/-- The invariants of the states reachable in HID-collection mode: a changed bit inside the
notify mask comes with `anychange`, and the window and notify mask are those of the family. -/
theorem HidReachable_inv (s : State) (hr : HidReachable s) :
    (s.axis_changed_mask_ &&& s.axis_change_notify_mask_ ≠ 0 → s.anychange = true) ∧
    (s.joystickType_ = PS4 →
      s.axis_change_notify_mask_ = 0xfffffffffffff3ff ∧
      s.additional_axis_usage_page_ = 0xFF00 ∧
      s.additional_axis_usage_start_ = 0x21 ∧
      s.additional_axis_usage_count_ = 54) ∧
    (s.joystickType_ ≠ PS3 → s.joystickType_ ≠ PS3_MOTION → s.joystickType_ ≠ PS4 →
      s.axis_change_notify_mask_ = 0x3ff ∧
      s.additional_axis_usage_page_ = 0x09 ∧
      s.additional_axis_usage_start_ = 0x21 ∧
      s.additional_axis_usage_count_ = 5) := by
  induction hr with
  | claim s dev topusage h =>
    exact ⟨fun _ => (claim_collection_report s dev topusage h).1,
      (claim_collection_report s dev topusage h).2.1,
      (claim_collection_report s dev topusage h).2.2⟩
  | begin s _ _ _ _ _ ih => exact ih
  | data s usage value _ ih =>
    obtain ⟨c1, c2, c3, c4, c5⟩ := hid_input_data_config s usage value
    refine ⟨hid_input_data_notify_inv s usage value ih.1, ?_, ?_⟩
    · rw [c1, c2, c3, c4, c5]; exact ih.2.1
    · rw [c1, c2, c3, c4, c5]; exact ih.2.2
  | finish s _ ih =>
    unfold hid_input_end
    split_ifs
    · exact ih
    · exact ih
  | clear s _ ih =>
    refine ⟨?_, ih.2.1, ih.2.2⟩
    intro h
    simp [joystickDataClear] at h

/-- With `anychange` false `hid_input_end` leaves `joystickEvent` as it is. -/
theorem hid_input_end_quiet (s : State) (h : s.anychange = false) :
    (hid_input_end s).joystickEvent = s.joystickEvent := by
  unfold hid_input_end
  rw [h]
  rfl

/-- C29: in every state reachable from a successful `claim_collection` through
`hid_input_begin`, `hid_input_data`, `hid_input_end` and `joystickDataClear`:
(1) the supporting invariant holds: when `axis_changed_mask_ & axis_change_notify_mask_` is
non-zero, `anychange` is true;
(2) a `hid_input_data` call for a usage that is not a button and that changes only channels
whose bits are outside `axis_change_notify_mask_` does not turn `anychange` from false to
true, and the `hid_input_end` that follows leaves `joystickEvent` as it was;
(3) such a call for a usage of the extended window, whose channel `id - start + 10` is below
64, outside the notify mask and holds another value, stores the value in that channel alone,
sets the channel's bit in `axis_changed_mask_`, keeps `anychange` false and raises no event at
the following `hid_input_end`;
(4) for PS4 the window is page 0xFF00, ids 0x21.., 54 usages, and the channels below 64
outside the notify mask are exactly 10 and 11;
(5) for the default family (not PS3, PS3_MOTION or PS4) the window is page 9, ids 0x21..0x25,
that is channels 10..14, and the channels outside the notify mask are exactly those from 10
on. -/
theorem C29_notify_mask_suppression (s : State) (hr : HidReachable s) :
    (s.axis_changed_mask_ &&& s.axis_change_notify_mask_ ≠ 0 → s.anychange = true) ∧
    (∀ (usage : Nat) (value : Int),
      ¬ (usage >>> 16 = 9 ∧ usage &&& 0xFFFF ≥ 1 ∧ usage &&& 0xFFFF ≤ 32) →
      s.anychange = false →
      (∀ j, (hid_input_data s usage value).axis j ≠ s.axis j →
        s.axis_change_notify_mask_.testBit j = false) →
      (hid_input_data s usage value).anychange = false ∧
      (hid_input_end (hid_input_data s usage value)).joystickEvent = s.joystickEvent) ∧
    (∀ (usage : Nat) (value : Int),
      ¬ (usage >>> 16 = 9 ∧ usage &&& 0xFFFF ≥ 1 ∧ usage &&& 0xFFFF ≤ 32) →
      ¬ (usage >>> 16 = 1 ∧ usage &&& 0xFFFF ≥ 0x30 ∧ usage &&& 0xFFFF ≤ 0x39) →
      usage >>> 16 = s.additional_axis_usage_page_ →
      usage &&& 0xFFFF ≥ s.additional_axis_usage_start_ →
      usage &&& 0xFFFF < s.additional_axis_usage_start_ + s.additional_axis_usage_count_ →
      (usage &&& 0xFFFF) - s.additional_axis_usage_start_ + 10 < 64 →
      s.axis_change_notify_mask_.testBit
        ((usage &&& 0xFFFF) - s.additional_axis_usage_start_ + 10) = false →
      s.axis ((usage &&& 0xFFFF) - s.additional_axis_usage_start_ + 10) ≠ value →
      s.anychange = false →
      (hid_input_data s usage value).axis =
        Function.update s.axis ((usage &&& 0xFFFF) - s.additional_axis_usage_start_ + 10)
          value ∧
      (hid_input_data s usage value).axis_changed_mask_.testBit
        ((usage &&& 0xFFFF) - s.additional_axis_usage_start_ + 10) = true ∧
      (hid_input_data s usage value).buttons = s.buttons ∧
      (hid_input_data s usage value).anychange = false ∧
      (hid_input_end (hid_input_data s usage value)).joystickEvent = s.joystickEvent) ∧
    (s.joystickType_ = PS4 →
      s.additional_axis_usage_page_ = 0xFF00 ∧ s.additional_axis_usage_start_ = 0x21 ∧
      s.additional_axis_usage_count_ = 54 ∧
      ∀ c, c < 64 → (s.axis_change_notify_mask_.testBit c = false ↔ c = 10 ∨ c = 11)) ∧
    (s.joystickType_ ≠ PS3 → s.joystickType_ ≠ PS3_MOTION → s.joystickType_ ≠ PS4 →
      s.additional_axis_usage_page_ = 0x09 ∧ s.additional_axis_usage_start_ = 0x21 ∧
      s.additional_axis_usage_count_ = 5 ∧
      ∀ c, (s.axis_change_notify_mask_.testBit c = false ↔ 10 ≤ c)) := by
  obtain ⟨hinv, hps4, hdef⟩ := HidReachable_inv s hr
  have hquiet : ∀ (usage : Nat) (value : Int),
      (hid_input_data s usage value).anychange = false →
      (hid_input_end (hid_input_data s usage value)).joystickEvent = s.joystickEvent := by
    intro usage value h
    rw [hid_input_end_quiet _ h, hid_input_data_joystickEvent]
  refine ⟨hinv, ?_, ?_, ?_, ?_⟩
  · intro usage value hnb hany hout
    have h := hid_input_data_suppressed s usage value hnb hinv hany hout
    exact ⟨h, hquiet usage value h⟩
  · intro usage value hnb hstd hp hw1 hw2 hc hbit hv hany
    obtain ⟨hax, hcm⟩ := hid_input_data_window_changed s usage value hnb hstd hp ⟨hw1, hw2⟩ hc hv
    have h := hid_input_data_suppressed s usage value hnb hinv hany (by
      intro j hj
      rw [hax] at hj
      by_cases hjc : j = (usage &&& 0xFFFF) - s.additional_axis_usage_start_ + 10
      · rw [hjc]; exact hbit
      · rw [Function.update_noteq hjc] at hj
        exact absurd rfl hj)
    exact ⟨hax, hcm, hid_input_data_no_button s usage value hnb, h, hquiet usage value h⟩
  · intro hj
    obtain ⟨hm, h1, h2, h3⟩ := hps4 hj
    refine ⟨h1, h2, h3, ?_⟩
    intro c hc
    rw [hm]
    interval_cases c <;> decide
  · intro hj1 hj2 hj3
    obtain ⟨hm, h1, h2, h3⟩ := hdef hj1 hj2 hj3
    refine ⟨h1, h2, h3, ?_⟩
    intro c
    rw [hm, show (0x3ff : Nat) = 2 ^ 10 - 1 from rfl, Nat.testBit_two_pow_sub_one]
    simp

/-- C29 at concrete inputs: a PS4 pad (054C:09CC) claimed as a joystick collection and cleared
once.  The usage 0xFF00:0x21 maps to channel 10, which is outside the PS4 notify mask; the
value 5 is stored, bit 10 of `axis_changed_mask_` is set, `anychange` stays false and the
following `hid_input_end` raises no event. -/
theorem C29_notify_mask_suppression_witness :
    (hid_input_data (joystickDataClear
      (claim_collection State.fresh ⟨1, 0x054C, 0x09CC⟩ 0x10005).1) 0xFF000021 5).axis 10 = 5 ∧
    (hid_input_data (joystickDataClear
      (claim_collection State.fresh ⟨1, 0x054C, 0x09CC⟩ 0x10005).1)
        0xFF000021 5).axis_changed_mask_.testBit 10 = true ∧
    (hid_input_data (joystickDataClear
      (claim_collection State.fresh ⟨1, 0x054C, 0x09CC⟩ 0x10005).1)
        0xFF000021 5).anychange = false ∧
    (hid_input_end (hid_input_data (joystickDataClear
      (claim_collection State.fresh ⟨1, 0x054C, 0x09CC⟩ 0x10005).1)
        0xFF000021 5)).joystickEvent = false :=
  ⟨by decide,
   ((C29_notify_mask_suppression
      (joystickDataClear (claim_collection State.fresh ⟨1, 0x054C, 0x09CC⟩ 0x10005).1)
      (HidReachable.clear _ (HidReachable.claim State.fresh ⟨1, 0x054C, 0x09CC⟩ 0x10005
        (by decide)))).2.2.1 0xFF000021 5 (by decide) (by decide) (by decide) (by decide)
        (by decide) (by decide) (by decide) (by decide) (by decide)).2.1,
   ((C29_notify_mask_suppression
      (joystickDataClear (claim_collection State.fresh ⟨1, 0x054C, 0x09CC⟩ 0x10005).1)
      (HidReachable.clear _ (HidReachable.claim State.fresh ⟨1, 0x054C, 0x09CC⟩ 0x10005
        (by decide)))).2.2.1 0xFF000021 5 (by decide) (by decide) (by decide) (by decide)
        (by decide) (by decide) (by decide) (by decide) (by decide)).2.2.2.1,
   ((C29_notify_mask_suppression
      (joystickDataClear (claim_collection State.fresh ⟨1, 0x054C, 0x09CC⟩ 0x10005).1)
      (HidReachable.clear _ (HidReachable.claim State.fresh ⟨1, 0x054C, 0x09CC⟩ 0x10005
        (by decide)))).2.2.1 0xFF000021 5 (by decide) (by decide) (by decide) (by decide)
        (by decide) (by decide) (by decide) (by decide) (by decide)).2.2.2.2⟩

/-- C30 fails on the code: the XBOXDUKE branch of `rx_data` sets `axis_mask_` to 0x3f, the
bits 0-5, while it writes the channels 0-11.  From a fresh state (`axis_mask_ = 0`) the report
`00 14 00 00 00 00 00 00 00 00 7F 00 34 12` makes channel 6 (`lt`) 0x7F and channel 8 (`lx`)
0x1234 and sets their bits in `axis_changed_mask_`, but bit 6 and bit 8 of `axis_mask_` are
not set. -/
theorem C30_duke_axis_mask_misses_written_channels :
    let s : State := { State.fresh with joystickType_ := XBOXDUKE }
    let t : Transfer_t :=
      ⟨buffer_of [0x00, 0x14, 0, 0, 0, 0, 0, 0, 0, 0, 0x7F, 0, 0x34, 0x12], 20⟩
    s.axis_mask_ = 0 ∧ xboxduke_input_report t ∧
    (rx_data Header.sample s t).axis 6 = 0x7F ∧ s.axis 6 = 0 ∧
    (rx_data Header.sample s t).axis 8 = 0x1234 ∧ s.axis 8 = 0 ∧
    (rx_data Header.sample s t).axis_changed_mask_.testBit 6 = true ∧
    (rx_data Header.sample s t).axis_changed_mask_.testBit 8 = true ∧
    (rx_data Header.sample s t).axis_mask_ = 0x3f ∧
    (rx_data Header.sample s t).axis_mask_.testBit 6 = false ∧
    (rx_data Header.sample s t).axis_mask_.testBit 8 = false := by
  unfold xboxduke_input_report
  decide

/-- The 16-bit readers: `u16` is below 65536, `i16` lies in -32768..32767 and is congruent to
`u16` modulo 65536. -/
theorem i16_twos_complement (buf : Nat → Nat) (i : Nat) :
    u16 buf i < 65536 ∧ -32768 ≤ i16 buf i ∧ i16 buf i ≤ 32767 ∧
    i16 buf i % 65536 = (u16 buf i : Int) := by
  have hu : u16 buf i < 65536 := by
    unfold u16 u8
    omega
  unfold i16
  split_ifs with h <;> refine ⟨hu, ?_, ?_, ?_⟩ <;> omega

/-- C31: on an XBOXONE connection, for every receive buffer whose byte 0 is 0x20 and every
transfer length of at least 18, after `rx_data`: `buttons` is the little-endian 16-bit value
of bytes 4..5; `axis[3]` and `axis[4]` are the unsigned little-endian 16-bit values of bytes
6..7 and 8..9 (0..65535); `axis[0]`, `axis[1]`, `axis[2]`, `axis[5]` are the signed
(two's complement) little-endian 16-bit values of bytes 10..11, 12..13, 14..15, 16..17
(-32768..32767, congruent to the unsigned value modulo 65536); every other channel keeps its
value. -/
theorem C31_xboxone_input_layout (h : Header) (s : State) (t : Transfer_t)
    (hfam : s.joystickType_ = XBOXONE) (htype : u8 t.buffer 0 = 0x20)
    (hlen : 18 ≤ t.length) :
    (rx_data h s t).buttons = u8 t.buffer 4 + 256 * u8 t.buffer 5 ∧
    (rx_data h s t).axis 3 = ((u8 t.buffer 6 + 256 * u8 t.buffer 7 : Nat) : Int) ∧
    (rx_data h s t).axis 4 = ((u8 t.buffer 8 + 256 * u8 t.buffer 9 : Nat) : Int) ∧
    (rx_data h s t).axis 0 = i16 t.buffer 10 ∧
    (rx_data h s t).axis 1 = i16 t.buffer 12 ∧
    (rx_data h s t).axis 2 = i16 t.buffer 14 ∧
    (rx_data h s t).axis 5 = i16 t.buffer 16 ∧
    (∀ j, 6 ≤ j → (rx_data h s t).axis j = s.axis j) ∧
    (∀ i, u8 t.buffer i + 256 * u8 t.buffer (i + 1) < 65536 ∧
      -32768 ≤ i16 t.buffer i ∧ i16 t.buffer i ≤ 32767 ∧
      i16 t.buffer i % 65536 = ((u8 t.buffer i + 256 * u8 t.buffer (i + 1) : Nat) : Int)) := by
  have hin : u8 t.buffer 0 = 0x20 ∧ t.length ≥ 18 := ⟨htype, hlen⟩
  have hb : (rx_data h s t).buttons = (rx_data_xboxone s t).buttons := by
    simp only [rx_data, hfam, if_true]
  have ha : (rx_data h s t).axis = (rx_data_xboxone s t).axis := by
    simp only [rx_data, hfam, if_true]
  rw [hb, ha, rx_data_xboxone_buttons s t hin, rx_data_xboxone_axis s t hin]
  refine ⟨rfl, ?_, ?_, ?_, ?_, ?_, ?_, ?_, fun i => i16_twos_complement t.buffer i⟩
  · simp [Function.update, u16]
  · simp [Function.update, u16]
  · simp [Function.update]
  · simp [Function.update]
  · simp [Function.update]
  · simp [Function.update]
  · intro j hj
    have h0 : j ≠ 0 := by omega
    have h1 : j ≠ 1 := by omega
    have h2 : j ≠ 2 := by omega
    have h3 : j ≠ 3 := by omega
    have h4 : j ≠ 4 := by omega
    have h5 : j ≠ 5 := by omega
    simp [Function.update, h0, h1, h2, h3, h4, h5]

/-- C31 at a concrete input: the 18-byte report `20 00 C5 0E 40 00 10 00 FF FF F0 06 AD FB 00 80
DD F7` on a fresh XBOXONE connection gives buttons 0x0040, triggers 0x0010 and 0xFFFF (65535),
and sticks 0x06F0, -1107, -32768 and -2083; channel 6 stays 0. -/
theorem C31_xboxone_input_layout_witness :
    (rx_data Header.sample { State.fresh with joystickType_ := XBOXONE }
      ⟨buffer_of [0x20, 0x00, 0xC5, 0x0E, 0x40, 0x00, 0x10, 0x00, 0xFF, 0xFF, 0xF0, 0x06,
                  0xAD, 0xFB, 0x00, 0x80, 0xDD, 0xF7], 18⟩).buttons = 0x0040 ∧
    (rx_data Header.sample { State.fresh with joystickType_ := XBOXONE }
      ⟨buffer_of [0x20, 0x00, 0xC5, 0x0E, 0x40, 0x00, 0x10, 0x00, 0xFF, 0xFF, 0xF0, 0x06,
                  0xAD, 0xFB, 0x00, 0x80, 0xDD, 0xF7], 18⟩).axis 4 = 65535 ∧
    (rx_data Header.sample { State.fresh with joystickType_ := XBOXONE }
      ⟨buffer_of [0x20, 0x00, 0xC5, 0x0E, 0x40, 0x00, 0x10, 0x00, 0xFF, 0xFF, 0xF0, 0x06,
                  0xAD, 0xFB, 0x00, 0x80, 0xDD, 0xF7], 18⟩).axis 1 = -1107 ∧
    (rx_data Header.sample { State.fresh with joystickType_ := XBOXONE }
      ⟨buffer_of [0x20, 0x00, 0xC5, 0x0E, 0x40, 0x00, 0x10, 0x00, 0xFF, 0xFF, 0xF0, 0x06,
                  0xAD, 0xFB, 0x00, 0x80, 0xDD, 0xF7], 18⟩).axis 2 = -32768 ∧
    (rx_data Header.sample { State.fresh with joystickType_ := XBOXONE }
      ⟨buffer_of [0x20, 0x00, 0xC5, 0x0E, 0x40, 0x00, 0x10, 0x00, 0xFF, 0xFF, 0xF0, 0x06,
                  0xAD, 0xFB, 0x00, 0x80, 0xDD, 0xF7], 18⟩).axis 6 = 0 :=
  ⟨(C31_xboxone_input_layout Header.sample { State.fresh with joystickType_ := XBOXONE }
      ⟨buffer_of [0x20, 0x00, 0xC5, 0x0E, 0x40, 0x00, 0x10, 0x00, 0xFF, 0xFF, 0xF0, 0x06,
                  0xAD, 0xFB, 0x00, 0x80, 0xDD, 0xF7], 18⟩ rfl (by decide) (by decide)).1,
   (C31_xboxone_input_layout Header.sample { State.fresh with joystickType_ := XBOXONE }
      ⟨buffer_of [0x20, 0x00, 0xC5, 0x0E, 0x40, 0x00, 0x10, 0x00, 0xFF, 0xFF, 0xF0, 0x06,
                  0xAD, 0xFB, 0x00, 0x80, 0xDD, 0xF7], 18⟩ rfl (by decide)
      (by decide)).2.2.1,
   (C31_xboxone_input_layout Header.sample { State.fresh with joystickType_ := XBOXONE }
      ⟨buffer_of [0x20, 0x00, 0xC5, 0x0E, 0x40, 0x00, 0x10, 0x00, 0xFF, 0xFF, 0xF0, 0x06,
                  0xAD, 0xFB, 0x00, 0x80, 0xDD, 0xF7], 18⟩ rfl (by decide)
      (by decide)).2.2.2.2.1,
   (C31_xboxone_input_layout Header.sample { State.fresh with joystickType_ := XBOXONE }
      ⟨buffer_of [0x20, 0x00, 0xC5, 0x0E, 0x40, 0x00, 0x10, 0x00, 0xFF, 0xFF, 0xF0, 0x06,
                  0xAD, 0xFB, 0x00, 0x80, 0xDD, 0xF7], 18⟩ rfl (by decide)
      (by decide)).2.2.2.2.2.1,
   (C31_xboxone_input_layout Header.sample { State.fresh with joystickType_ := XBOXONE }
      ⟨buffer_of [0x20, 0x00, 0xC5, 0x0E, 0x40, 0x00, 0x10, 0x00, 0xFF, 0xFF, 0xF0, 0x06,
                  0xAD, 0xFB, 0x00, 0x80, 0xDD, 0xF7], 18⟩ rfl (by decide)
      (by decide)).2.2.2.2.2.2.2.1 6 (by decide)⟩

/-- The family selected by `claim` is one of the four class-specific families or `UNKNOWN`,
and it is `UNKNOWN` when none of the four descriptor tests holds. -/
theorem claim_jtype_cases (dev : Device_t) (descriptors : Nat → Nat) :
    (claim_jtype dev descriptors = UNKNOWN ∨ claim_jtype dev descriptors = XBOX360_WIRED ∨
      claim_jtype dev descriptors = XBOX360 ∨ claim_jtype dev descriptors = XBOXONE ∨
      claim_jtype dev descriptors = XBOXDUKE) ∧
    (¬ (u8 descriptors 6 = 0x5D ∧ u8 descriptors 7 = 0x01) →
      ¬ (u8 descriptors 6 = 0x5D ∧ u8 descriptors 7 = 0x81) →
      ¬ (u8 descriptors 6 = 0x47 ∧ u8 descriptors 7 = 0xD0 ∧
          u8 descriptors 15 = 0x04 ∧ u8 descriptors 22 = 0x04) →
      ¬ (u8 descriptors 5 = 0x58 ∧ u8 descriptors 6 = 0x42) →
      claim_jtype dev descriptors = UNKNOWN) := by
  have ht : mapVIDPIDtoJoystickType dev.idVendor dev.idProduct true = UNKNOWN :=
    mapVIDPIDloop_exclude_hid _ _ pid_vid_mapping (by decide)
  unfold claim_jtype
  rw [ht]
  constructor
  · simp only
    split_ifs <;> simp
  · intro h1 h2 h3 h4
    simp only [h1, h2, h3, h4, if_false]

/-- When the selected family is `UNKNOWN`, `claim` returns false and changes nothing. -/
theorem claim_unknown (h : Header) (s : State) (dev : Device_t) (type : Int)
    (descriptors : Nat → Nat) (len : Nat) (hj : claim_jtype dev descriptors = UNKNOWN) :
    claim h s dev type descriptors len = (s, false) := by
  unfold claim
  by_cases c1 : s.mydevice.isSome
  · rw [if_pos c1]
  · rw [if_neg c1]
    by_cases c2 : s.device.isSome
    · rw [if_pos c2]
    · rw [if_neg c2]
      by_cases c3 : type ≠ 1
      · rw [if_pos c3]
      · rw [if_neg c3]
        by_cases c4 : len < 9 + 7 + 7
        · rw [if_pos c4]
        · rw [if_neg c4]
          simp only
          by_cases c5 : u8 descriptors 4 < 2
          · rw [if_pos c5]
          · rw [if_neg c5, if_pos hj]

/-- C32: whenever `claim` returns true, the stored `joystickType_` is one of XBOX360_WIRED,
XBOX360, XBOXONE, XBOXDUKE; and for every device, the devices of the VID/PID table included,
whose descriptors pass none of the four descriptor tests, `claim` returns false and leaves
the state as it was. -/
theorem C32_claim_only_class_specific_families (h : Header) (s : State) (dev : Device_t)
    (type : Int) (descriptors : Nat → Nat) (len : Nat) :
    ((claim h s dev type descriptors len).2 = true →
      (claim h s dev type descriptors len).1.joystickType_ = XBOX360_WIRED ∨
      (claim h s dev type descriptors len).1.joystickType_ = XBOX360 ∨
      (claim h s dev type descriptors len).1.joystickType_ = XBOXONE ∨
      (claim h s dev type descriptors len).1.joystickType_ = XBOXDUKE) ∧
    (¬ (u8 descriptors 6 = 0x5D ∧ u8 descriptors 7 = 0x01) →
      ¬ (u8 descriptors 6 = 0x5D ∧ u8 descriptors 7 = 0x81) →
      ¬ (u8 descriptors 6 = 0x47 ∧ u8 descriptors 7 = 0xD0 ∧
          u8 descriptors 15 = 0x04 ∧ u8 descriptors 22 = 0x04) →
      ¬ (u8 descriptors 5 = 0x58 ∧ u8 descriptors 6 = 0x42) →
      claim h s dev type descriptors len = (s, false)) := by
  constructor
  · intro ht
    rw [(claim_true h s dev type descriptors len ht).1]
    rcases (claim_jtype_cases dev descriptors).1 with hu | hc
    · rw [claim_unknown h s dev type descriptors len hu] at ht
      simp at ht
    · exact hc
  · intro h1 h2 h3 h4
    exact claim_unknown h s dev type descriptors len
      ((claim_jtype_cases dev descriptors).2 h1 h2 h3 h4)

/-- C32 at concrete inputs: an Xbox 360 wired interface is claimed and the stored family is
XBOX360_WIRED; a PS4 pad (054C:09CC, a row of the table) with a HID interface descriptor of
the same shape (class 3) is refused and the state is as before. -/
theorem C32_claim_only_class_specific_families_witness :
    ((claim Header.sample State.fresh ⟨1, 0x045E, 0x028E⟩ 1
        (buffer_of [0x09, 0x04, 0x00, 0x00, 0x02, 0xFF, 0x5D, 0x01, 0x00,
                    0x07, 0x05, 0x81, 0x03, 0x20, 0x00, 0x04,
                    0x07, 0x05, 0x01, 0x03, 0x20, 0x00, 0x08]) 23).1.joystickType_ =
        XBOX360_WIRED ∨
      (claim Header.sample State.fresh ⟨1, 0x045E, 0x028E⟩ 1
        (buffer_of [0x09, 0x04, 0x00, 0x00, 0x02, 0xFF, 0x5D, 0x01, 0x00,
                    0x07, 0x05, 0x81, 0x03, 0x20, 0x00, 0x04,
                    0x07, 0x05, 0x01, 0x03, 0x20, 0x00, 0x08]) 23).1.joystickType_ =
        XBOX360 ∨
      (claim Header.sample State.fresh ⟨1, 0x045E, 0x028E⟩ 1
        (buffer_of [0x09, 0x04, 0x00, 0x00, 0x02, 0xFF, 0x5D, 0x01, 0x00,
                    0x07, 0x05, 0x81, 0x03, 0x20, 0x00, 0x04,
                    0x07, 0x05, 0x01, 0x03, 0x20, 0x00, 0x08]) 23).1.joystickType_ =
        XBOXONE ∨
      (claim Header.sample State.fresh ⟨1, 0x045E, 0x028E⟩ 1
        (buffer_of [0x09, 0x04, 0x00, 0x00, 0x02, 0xFF, 0x5D, 0x01, 0x00,
                    0x07, 0x05, 0x81, 0x03, 0x20, 0x00, 0x04,
                    0x07, 0x05, 0x01, 0x03, 0x20, 0x00, 0x08]) 23).1.joystickType_ =
        XBOXDUKE) ∧
    mapVIDPIDtoJoystickType 0x054C 0x09CC false = PS4 ∧
    claim Header.sample State.fresh ⟨1, 0x054C, 0x09CC⟩ 1
      (buffer_of [0x09, 0x04, 0x00, 0x00, 0x02, 0x03, 0x00, 0x00, 0x00,
                  0x07, 0x05, 0x84, 0x03, 0x40, 0x00, 0x05,
                  0x07, 0x05, 0x03, 0x03, 0x40, 0x00, 0x05]) 23 = (State.fresh, false) :=
  ⟨(C32_claim_only_class_specific_families Header.sample State.fresh ⟨1, 0x045E, 0x028E⟩ 1
      (buffer_of [0x09, 0x04, 0x00, 0x00, 0x02, 0xFF, 0x5D, 0x01, 0x00,
                  0x07, 0x05, 0x81, 0x03, 0x20, 0x00, 0x04,
                  0x07, 0x05, 0x01, 0x03, 0x20, 0x00, 0x08]) 23).1 (by decide),
   by decide,
   (C32_claim_only_class_specific_families Header.sample State.fresh ⟨1, 0x054C, 0x09CC⟩ 1
      (buffer_of [0x09, 0x04, 0x00, 0x00, 0x02, 0x03, 0x00, 0x00, 0x00,
                  0x07, 0x05, 0x84, 0x03, 0x40, 0x00, 0x05,
                  0x07, 0x05, 0x03, 0x03, 0x40, 0x00, 0x05]) 23).2
      (by decide) (by decide) (by decide) (by decide)⟩

/-- C33 fails on the code: `claim` compares `len` with 23 once and then walks the endpoint
records without looking at `len` again.  With `len = 23` and a block that announces three
endpoints, `09 04 00 00 03 FF 5D 01 00`, `07 05 81 03 20 00 04`, `07 05 82 03 20 00 04` (two
IN endpoints), the loop goes on to a third record and reads the indices 23..29; whether the
claim succeeds depends on the bytes found there.  With `len = 23` and a block whose byte 10 is
not 5, `09 04 00 00 02 FF 5D 01 00 11 21 ..`, the walk starts at `9 + descriptors[9] = 26`. -/
theorem C33_claim_reads_past_len :
    let dev : Device_t := ⟨1, 0x045E, 0x028E⟩
    let block : List Nat :=
      [0x09, 0x04, 0x00, 0x00, 0x03, 0xFF, 0x5D, 0x01, 0x00,
       0x07, 0x05, 0x81, 0x03, 0x20, 0x00, 0x04,
       0x07, 0x05, 0x82, 0x03, 0x20, 0x00, 0x04]
    let block2 : List Nat :=
      [0x09, 0x04, 0x00, 0x00, 0x02, 0xFF, 0x5D, 0x01, 0x00,
       0x11, 0x21, 0x00, 0x01, 0x01, 0x25, 0x81, 0x14, 0x00, 0x00, 0x00, 0x00, 0x13, 0x01]
    block.length = 23 ∧ block2.length = 23 ∧
    23 ∈ claim_reads State.fresh dev 1 (buffer_of block) 23 ∧
    ¬ (∀ i ∈ claim_reads State.fresh dev 1 (buffer_of block) 23, i < 23) ∧
    (claim Header.sample State.fresh dev 1 (buffer_of block) 23).2 = false ∧
    (claim Header.sample State.fresh dev 1
      (buffer_of (block ++ [0x07, 0x05, 0x02, 0x03, 0x20, 0x00, 0x08])) 23).2 = true ∧
    26 ∈ claim_reads State.fresh dev 1 (buffer_of block2) 23 ∧
    ¬ (∀ i ∈ claim_reads State.fresh dev 1 (buffer_of block2) 23, i < 23) ∧
    (claim Header.sample State.fresh dev 1 (buffer_of block2) 23).2 = false ∧
    (claim Header.sample State.fresh dev 1
      (buffer_of (block2 ++ [0x00, 0x00, 0x00, 0x07, 0x05, 0x81, 0x03, 0x20, 0x00, 0x04,
                             0x07, 0x05, 0x01, 0x03, 0x20, 0x00, 0x08])) 23).2 = true := by
  decide

/-- C34 fails on the code: the XBOX360 case of `setLEDs` writes `txbuf_[1]` to `txbuf_[11]`
and submits 12 bytes from `txbuf_[0]`, which it never writes.  On a fresh XBOX360 object
`setLEDs(0, 0, 2)` submits `00 00 08 42 00 ..`; after `sendRaw` of the 12 bytes
`08 00 0F C0 00 ..` has left 0x08 in `txbuf_[0]`, the same call submits `08 00 08 42 00 ..`;
and on an object whose `txbuf_[0]` holds 0x01 from the XBOX360_WIRED LED packet it submits
`01 00 08 42 00 ..`. -/
theorem C34_xbox360_setLEDs_keeps_stale_byte_0 :
    let s : State := { State.fresh with joystickType_ := XBOX360 }
    let s1 : State := (sendRaw Header.sample s
      (buffer_of [0x08, 0x00, 0x0F, 0xC0, 0x00, 0x00, 0x00, 0x00, 0x00, 0x00, 0x00, 0x00])
      12).1
    let w : State := (setLEDs { State.fresh with joystickType_ := XBOX360_WIRED } 0 0 2).1
    let s2 : State := { w with joystickType_ := XBOX360, leds_ := fun _ => 0, out := [] }
    (setLEDs s 0 0 2).1.out =
      [Request.queue_Data_Transfer Pipe.txpipe_ [0x00, 0, 0x08, 0x42, 0, 0, 0, 0, 0, 0, 0, 0]] ∧
    s1.joystickType_ = XBOX360 ∧ s1.leds_ 2 = 0 ∧
    (setLEDs s1 0 0 2).1.out = s1.out ++
      [Request.queue_Data_Transfer Pipe.txpipe_ [0x08, 0, 0x08, 0x42, 0, 0, 0, 0, 0, 0, 0, 0]] ∧
    (setLEDs s2 0 0 2).1.out =
      [Request.queue_Data_Transfer Pipe.txpipe_ [0x01, 0, 0x08, 0x42, 0, 0, 0, 0, 0, 0, 0, 0]] := by
  decide

end JoystickController
